import Mathlib

/-!
# LinkedIn automation: deduplication, health monitoring and identity rotation

A shallow embedding of the scraper core of the repository
(`src/scraper/validation.js`, `src/scraper/scraper.js`, `src/scraper/logger.js`,
`src/scraper/utils.js`, `src/scraper/stealth.js`, `src/scraper/sheets.js`,
`src/scraper/config.js`) together with theorems about it.

Conventions of the embedding:

* a JavaScript property that may be absent is an `Option`; `none` is `undefined`;
* an object method that mutates `this` is a function returning the new object
  next to its result;
* whatever the browser, the network or the clock answers is an explicit input.
-/

namespace LinkedinAutomation

/-! ## JavaScript helpers -/

/-- JavaScript `a || b` on values that are strings or `undefined`:
the empty string and `undefined` are falsy. -/
def jsOr (a b : Option String) : Option String :=
  match a with
  | some s => if s = "" then b else some s
  | none => b

/-- JavaScript `xs || []` on a value that is an array or `undefined`
(every array, the empty one included, is truthy). -/
def orEmpty (xs : Option (List String)) : List String :=
  match xs with
  | some l => l
  | none => []

/-- One `Set.prototype.add` on the insertion-ordered content of a `Set`. -/
def setAdd (acc : List String) (x : String) : List String :=
  if x ∈ acc then acc else acc ++ [x]

/-- JavaScript `[...new Set(xs)]`: the elements of `xs` are added one by one to
an insertion-ordered set, then the set is spread back into an array. -/
def setSpread (xs : List String) : List String :=
  xs.foldl setAdd []

/-- A substitution `${v}` of a template literal: `undefined` prints as
the text `undefined`. -/
def tpl (v : Option String) : String :=
  match v with
  | some s => s
  | none => "undefined"

/-- The lower-casing of the letters `A`..`Z`, character by character. It
agrees with `String.prototype.toLowerCase` on texts of ASCII characters and
stands for it in the evaluations on such texts; where a statement depends on
the lower-casing of other texts, the function of the engine is a parameter
(`generateKeyWith`, `getProfileLinksWith`). -/
def toLowerCase (s : String) : String :=
  String.mk (s.data.map Char.toLower)

/-! ## Profiles and the deduplicator (`src/scraper/validation.js`) -/

/-- A property that holds text in some code paths and a list of texts in
others (`experience` is built as a list by `extractProfile` and read as text by
`validateProfile`). -/
inductive JsText where
  | str (s : String)
  | arr (l : List String)
  deriving DecidableEq, Repr

/-- A scraped profile object: the properties written by
`LinkedInScraper.extractProfile` and by `validateProfile`. -/
structure Profile where
  name : Option String
  title : Option String
  location : Option String
  experience : Option JsText
  education : Option (List String)
  skills : Option (List String)
  about : Option String
  email : Option String
  phone : Option String
  additionalEmails : Option (List String)
  additionalPhones : Option (List String)
  deriving DecidableEq, Repr

/-- `Map.prototype.get` on an insertion-ordered list of entries. -/
def mapGet : List (String × Profile) → String → Option Profile
  | [], _ => none
  | (k', v) :: m, k => if k' = k then some v else mapGet m k

/-- `Map.prototype.has`. -/
def mapHas (m : List (String × Profile)) (k : String) : Bool :=
  (mapGet m k).isSome

/-- `Map.prototype.set`: an existing key keeps its position, a new key is
appended. -/
def mapSet : List (String × Profile) → String → Profile → List (String × Profile)
  | [], k, v => [(k, v)]
  | (k', v') :: m, k, v => if k' = k then (k, v) :: m else (k', v') :: mapSet m k v

/-- The class `ProfileDeduplicator`: its only field is the map `profiles`. -/
structure ProfileDeduplicator where
  profiles : List (String × Profile)
  deriving DecidableEq, Repr

namespace ProfileDeduplicator

/-- The constructor: `this.profiles = new Map()`. -/
def new : ProfileDeduplicator := ⟨[]⟩

/-- `generateKey(profile)`:
the template `name|title|location`, lower-cased. -/
def generateKey (profile : Profile) : String :=
  toLowerCase (tpl profile.name ++ "|" ++ tpl profile.title ++ "|" ++ tpl profile.location)

/-- `isDuplicate(profile)`. -/
def isDuplicate (d : ProfileDeduplicator) (profile : Profile) : Bool :=
  mapHas d.profiles (generateKey profile)

/-- `addProfile(profile)`: the returned boolean and the updated deduplicator. -/
def addProfile (d : ProfileDeduplicator) (profile : Profile) : Bool × ProfileDeduplicator :=
  let key := generateKey profile
  if ¬ mapHas d.profiles key then
    (true, ⟨mapSet d.profiles key profile⟩)
  else
    (false, d)

/-- The object literal `merged` built by `mergeProfile`:
`existing` spread first, then the four overriding properties. -/
def merged (existing newProfile : Profile) : Profile :=
  { existing with
    email := jsOr newProfile.email existing.email
    phone := jsOr newProfile.phone existing.phone
    additionalEmails :=
      some (setSpread (orEmpty existing.additionalEmails ++ orEmpty newProfile.additionalEmails))
    additionalPhones :=
      some (setSpread (orEmpty existing.additionalPhones ++ orEmpty newProfile.additionalPhones)) }

/-- `mergeProfile(newProfile)`: the returned record and the updated
deduplicator. -/
def mergeProfile (d : ProfileDeduplicator) (newProfile : Profile) :
    Profile × ProfileDeduplicator :=
  let key := generateKey newProfile
  match mapGet d.profiles key with
  | some existing =>
    let m := merged existing newProfile
    (m, ⟨mapSet d.profiles key m⟩)
  | none => (newProfile, ⟨mapSet d.profiles key newProfile⟩)

/-- Every entry of the map is stored under the key of its own record. The
constructor establishes this and `addProfile` and `mergeProfile` keep it. -/
def wellKeyed (d : ProfileDeduplicator) : Bool :=
  d.profiles.all (fun e => generateKey e.2 == e.1)

/-- The value stored under a record's key (`this.profiles.get(generateKey(r))`). -/
def stored (d : ProfileDeduplicator) (r : Profile) : Option Profile :=
  mapGet d.profiles (generateKey r)

/-- The supplemental lists of a record are in normal form: both are present
and neither has a repeated entry. -/
def normalLists (r : Profile) : Bool :=
  match r.additionalEmails, r.additionalPhones with
  | some es, some ps => decide es.Nodup && decide ps.Nodup
  | _, _ => false

/-- The text has no occurrence of the separator of the key template. -/
def noSeparator (t : String) : Bool :=
  !t.data.contains '|'

/-- The body of `generateKey(profile)` with the function of the engine,
`String.prototype.toLowerCase`, as the parameter `lower`. -/
def generateKeyWith (lower : String → String) (profile : Profile) : String :=
  lower (tpl profile.name ++ "|" ++ tpl profile.title ++ "|" ++ tpl profile.location)

end ProfileDeduplicator

/-- What the statements on keys use of `String.prototype.toLowerCase`: the two
sides of a `|` are lower-cased apart (the character has no case and is not
skipped by the contextual rule), and the lower-cased text contains `|` exactly
when the text does (no other character is mapped to it). -/
structure LowerCasing (lower : String → String) : Prop where
  join : ∀ a b : String, lower (a ++ "|" ++ b) = lower a ++ "|" ++ lower b
  separator : ∀ a : String, '|' ∈ (lower a).data ↔ '|' ∈ a.data

/-! ### The reference upsert, in the words of the specification -/

/-- A list with every repeated entry removed, each element kept at its first
occurrence. -/
def keepFirst : List String → List String
  | [] => []
  | x :: xs => x :: (keepFirst xs).filter (fun y => y ≠ x)

/-- The duplicate-free union of two lists that may be missing: the first
list's elements come first, each element occurs once. -/
def unionRef (a b : Option (List String)) : List String :=
  keepFirst (a.getD [] ++ b.getD [])

/-- A singular field is non-empty when it is present and not the empty text. -/
def nonEmpty (v : Option String) : Bool :=
  match v with
  | some s => s ≠ ""
  | none => false

/-- The reference upsert: on first sighting the record is stored and returned
verbatim; on repeat sighting the stored and returned record has the new
record's email and phone when those are non-empty and the existing ones
otherwise, the duplicate-free unions of the supplemental lists, and the
existing record's value in every other field. -/
def upsertRef (d : ProfileDeduplicator) (r : Profile) : Profile × ProfileDeduplicator :=
  match d.stored r with
  | none => (r, ⟨mapSet d.profiles (ProfileDeduplicator.generateKey r) r⟩)
  | some existing =>
    let result : Profile :=
      { name := existing.name
        title := existing.title
        location := existing.location
        experience := existing.experience
        education := existing.education
        skills := existing.skills
        about := existing.about
        email := if nonEmpty r.email then r.email else existing.email
        phone := if nonEmpty r.phone then r.phone else existing.phone
        additionalEmails := some (unionRef existing.additionalEmails r.additionalEmails)
        additionalPhones := some (unionRef existing.additionalPhones r.additionalPhones) }
    (result, ⟨mapSet d.profiles (ProfileDeduplicator.generateKey r) result⟩)

/-! ## Configuration (`src/scraper/config.js`) -/

/-- The configuration object, restricted to the entries the embedded code
reads. The defaults are the literals of `config.js`; the proxy entries come
from the process environment there. `WEBHOOK_URL` and
`MAX_CONCURRENT_WORKERS` are read by `campaign.js` and `worker.js` but are not
keys of `config.js`: they are `undefined` unless a deployment adds them. -/
structure Config where
  MAX_PROFILES_PER_DAY : Nat := 40
  BREAK_MINUTES_MIN : Nat := 30
  BREAK_MINUTES_MAX : Nat := 45
  INITIAL_PROFILE_LIMIT : Nat := 10
  BROWSER_PROFILES_DIR : String := "./browser-profiles"
  ROTATE_PROFILE_AFTER : Nat := 20
  USE_PROXIES : Bool := false
  PROXY_LIST : List String := []
  PROXY_USERNAME : Option String := none
  PROXY_PASSWORD : Option String := none
  ROTATE_PROXY_AFTER : Nat := 15
  USER_AGENT_LIST : List String :=
    ["Mozilla/5.0 (Windows NT 10.0; Win64; x64) AppleWebKit/537.36 (KHTML, like Gecko) Chrome/120.0.0.0 Safari/537.36",
     "Mozilla/5.0 (Macintosh; Intel Mac OS X 10_15_7) AppleWebKit/605.1.15 (KHTML, like Gecko) Version/17.0 Safari/605.1.15",
     "Mozilla/5.0 (X11; Linux x86_64) AppleWebKit/537.36 (KHTML, like Gecko) Chrome/119.0.0.0 Safari/537.36",
     "Mozilla/5.0 (Windows NT 10.0; Win64; x64) AppleWebKit/537.36 (KHTML, like Gecko) Edge/120.0.0.0 Safari/537.36",
     "Mozilla/5.0 (Macintosh; Intel Mac OS X 10_15_7) AppleWebKit/537.36 (KHTML, like Gecko) Chrome/120.0.0.0 Safari/537.36"]
  VIEWPORTS : List (Nat × Nat) :=
    [(1366, 768), (1920, 1080), (1440, 900), (1536, 864), (1680, 1050)]
  HEALTH_PAUSE_THRESHOLD : Nat := 3
  WEBHOOK_URL : Option String := none
  MAX_CONCURRENT_WORKERS : Option Nat := none

/-- The configuration with the literals of `config.js` and no proxies
configured in the environment. -/
def config : Config := {}

/-- JavaScript `a % b === 0` on non-negative integers: `a % 0` is `NaN`, which
is not `0`. -/
def remIsZero (a b : Nat) : Bool :=
  b ≠ 0 && a % b == 0

/-! ## Random integers (`src/scraper/utils.js`) -/

/-- `randomInt(min, max)` with the value `u` drawn by `Math.random()`:
`Math.floor(u * (max - min + 1)) + min`, in exact arithmetic. -/
def randomInt (u : ℚ) (min max : Int) : Int :=
  ⌊u * ((max - min + 1 : Int) : ℚ)⌋ + min

/-! ## Metrics (`src/scraper/logger.js`) -/

/-- The counters of `ScrapingMetrics`. The two date fields (`sessionStart`,
`lastBreakTime`) are left out: they only feed the log output. -/
structure ScrapingMetrics where
  profilesScraped : Nat := 0
  profilesFailed : Nat := 0
  captchasEncountered : Nat := 0
  warningsDetected : Nat := 0
  totalRequests : Nat := 0
  successfulRequests : Nat := 0
  rateLimitHits : Nat := 0
  proxyRotations : Nat := 0
  deriving DecidableEq, Repr

namespace ScrapingMetrics

/-- `logProfileSuccess`. -/
def logProfileSuccess (m : ScrapingMetrics) : ScrapingMetrics :=
  { m with
    profilesScraped := m.profilesScraped + 1
    successfulRequests := m.successfulRequests + 1
    totalRequests := m.totalRequests + 1 }

/-- `logProfileError`. -/
def logProfileError (m : ScrapingMetrics) : ScrapingMetrics :=
  { m with
    profilesFailed := m.profilesFailed + 1
    totalRequests := m.totalRequests + 1 }

/-- `logCaptcha`. -/
def logCaptcha (m : ScrapingMetrics) : ScrapingMetrics :=
  { m with captchasEncountered := m.captchasEncountered + 1 }

/-- `logWarning`. -/
def logWarning (m : ScrapingMetrics) : ScrapingMetrics :=
  { m with warningsDetected := m.warningsDetected + 1 }

end ScrapingMetrics

/-! ## Warning detection (`LinkedInScraper.detectWarnings`) -/

/-- The warning kinds: the keys of the object `elements`. -/
inductive WarningKind where
  | unusual_activity
  | verification_needed
  | captcha
  | rate_limit
  | account_restriction
  deriving DecidableEq, Repr

/-- What a profile page shows: for each of the four warning texts whether the
page contains it, and whether the page has the input `#captcha`. -/
structure PageElements where
  unusual_activity : Bool
  verification_needed : Bool
  captcha : Bool
  rate_limit : Bool
  account_restriction : Bool
  deriving DecidableEq, Repr

/-- The five properties of the object literal `elements`, in source order: the
key and the selector handed to `document.querySelector`. -/
def warningProbes : List (WarningKind × String) :=
  [(WarningKind.unusual_activity, "text=unusual activity"),
   (WarningKind.verification_needed, "text=verify your identity"),
   (WarningKind.captcha, "input#captcha"),
   (WarningKind.rate_limit, "text=you've reached the limit"),
   (WarningKind.account_restriction, "text=account restriction")]

/-- The DOM method `document.querySelector(selector)` on the selectors of the
source: whether an element matches. A selector of the form `text=...` is not a
CSS selector (no `=` can follow the type selector `text`; the form belongs to
the selector engines of browser drivers), and the DOM method throws a
`SyntaxError` for it. -/
def querySelector (e : PageElements) (selector : String) : Except String Bool :=
  if "text=".data.isPrefixOf selector.data then
    Except.error ("SyntaxError: '" ++ selector ++ "' is not a valid selector")
  else
    Except.ok (selector = "input#captcha" && e.captcha)

/-- The evaluation of the properties of `elements`, in order: the first call
that throws ends it. -/
def probeAll (e : PageElements) :
    List (WarningKind × String) → Except String (List (WarningKind × Bool))
  | [] => Except.ok []
  | (kind, selector) :: rest =>
    match querySelector e selector with
    | Except.error err => Except.error err
    | Except.ok element =>
      match probeAll e rest with
      | Except.error err => Except.error err
      | Except.ok found => Except.ok ((kind, element) :: found)

/-- The callback of `page.evaluate` in `detectWarnings`: the array `warnings`
(the entries of `elements` in key order, filtered by a truthy element, mapped
to their key), or the error thrown while `elements` is built. -/
def detectedWarnings (e : PageElements) : Except String (List WarningKind) :=
  match probeAll e warningProbes with
  | Except.error err => Except.error err
  | Except.ok found => Except.ok ((found.filter (fun p => p.2)).map (fun p => p.1))

/-- `detectWarnings()`: `Except.error` is the thrown error. A rejected
`page.evaluate` rejects the call before any counter changes; otherwise the
metrics are updated before the throw. -/
def detectWarnings (m : ScrapingMetrics) (e : PageElements) :
    Except String Unit × ScrapingMetrics :=
  match detectedWarnings e with
  | Except.error err => (Except.error err, m)
  | Except.ok warnings =>
    if warnings.length > 0 then
      let m1 := warnings.foldl (fun acc _ => acc.logWarning) m
      if warnings.contains WarningKind.captcha then
        (Except.error "CAPTCHA detected", m1.logCaptcha)
      else if warnings.length ≥ 2 then
        (Except.error "Multiple warnings detected - stopping for safety", m1)
      else
        (Except.ok (), m1)
    else
      (Except.ok (), m)

/-! ## The record store client (`src/scraper/sheets.js`) -/

/-- `xs.join('; ')`. -/
def joinSemi (xs : List String) : String :=
  "; ".intercalate xs

/-- `formatProfile(profile)`: the row of twelve cells; `now` is the text of
`new Date().toISOString()`. The call `(profile.experience || []).join` throws a
`TypeError` when `experience` is a non-empty text. -/
def formatProfile (profile : Profile) (now : String) : Except String (List String) :=
  let experience : Except String String :=
    match profile.experience with
    | none => Except.ok (joinSemi [])
    | some (JsText.arr l) => Except.ok (joinSemi l)
    | some (JsText.str t) =>
      if t = "" then Except.ok (joinSemi []) else Except.error "TypeError: join is not a function"
  match experience with
  | Except.error e => Except.error e
  | Except.ok exp =>
    Except.ok
      [(jsOr profile.name (some "")).getD "",
       (jsOr profile.title (some "")).getD "",
       (jsOr profile.location (some "")).getD "",
       (jsOr profile.email (some "")).getD "",
       (jsOr profile.phone (some "")).getD "",
       exp,
       joinSemi (orEmpty profile.education),
       joinSemi (orEmpty profile.skills),
       (jsOr profile.about (some "")).getD "",
       (jsOr (profile.additionalEmails.map joinSemi) (some "")).getD "",
       (jsOr (profile.additionalPhones.map joinSemi) (some "")).getD "",
       now]

/-- The class `SheetsManager`: the buffer `pendingWrites`, and what the two
collaborators have received so far (`remote`: the rows appended to the remote
sheet; `backups`: the backup files written). -/
structure SheetsManager where
  batchSize : Nat := 100
  pendingWrites : List (List String) := []
  remote : List (List String) := []
  backups : List (List (List String)) := []
  deriving DecidableEq, Repr

namespace SheetsManager

/-- `flushWrites()`. `remoteOk` tells whether the remote append resolves,
`backupOk` whether `createBackup` does. A failed remote write ends in a throw:
the original error is re-thrown after the backup, or the backup's own error
propagates. -/
def flushWrites (sh : SheetsManager) (remoteOk backupOk : Bool) :
    Except String Unit × SheetsManager :=
  if sh.pendingWrites.length = 0 then
    (Except.ok (), sh)
  else if remoteOk then
    (Except.ok (), { sh with remote := sh.remote ++ sh.pendingWrites, pendingWrites := [] })
  else if backupOk then
    (Except.error "remote write failed", { sh with backups := sh.backups ++ [sh.pendingWrites] })
  else
    (Except.error "backup failed", sh)

/-- `appendProfile(profile)`. -/
def appendProfile (sh : SheetsManager) (profile : Profile) (now : String)
    (remoteOk backupOk : Bool) : Except String Unit × SheetsManager :=
  match formatProfile profile now with
  | Except.error e => (Except.error e, sh)
  | Except.ok row =>
    let sh1 := { sh with pendingWrites := sh.pendingWrites ++ [row] }
    if sh1.pendingWrites.length ≥ sh1.batchSize then
      flushWrites sh1 remoteOk backupOk
    else
      (Except.ok (), sh1)

end SheetsManager

/-! ## Identity rotation (`src/scraper/stealth.js`) -/

/-- JavaScript truthiness of a value that is a text or `undefined`/`null`. -/
def truthy (v : Option String) : Bool :=
  nonEmpty v

/-- `xs[randomInt(0, xs.length - 1)]`, the body of `randomUserAgent` and
`randomViewport`; an index outside the array reads `undefined`. -/
def randomPick {α : Type} (u : ℚ) (xs : List α) : Option α :=
  let i := randomInt u 0 ((xs.length : Int) - 1)
  if i < 0 then none else xs.get? i.toNat

/-- `path.join(dir, name)`, without the normalisation of the result. -/
def pathJoin (dir name : String) : String :=
  dir ++ "/" ++ name

/-- The fields of `StealthManager` (`proxyServer` is never assigned and is
left out). -/
structure StealthManager where
  currentProxy : Option String := none
  currentProfile : Option String := none
  profilesCount : Nat := 0
  deriving DecidableEq, Repr

/-- What the environment answers during one `setupProxy()`: the draw of
`Math.random()` and the behaviour of `ProxyChain.anonymizeProxy` (`none` when
the promise rejects). -/
structure ProxyEnv where
  rand : ℚ
  anonymize : String → Option String

/-- What the environment answers during one `getStealthConfiguration()`. -/
structure LeaseEnv where
  now : Nat
  proxy : ProxyEnv
  uaRand : ℚ
  vpRand : ℚ

/-- The object returned by `getStealthConfiguration()`: `userDataDir`, the
user-agent and proxy-server arguments, and `defaultViewport`. -/
structure BrowserConfig where
  userDataDir : Option String
  userAgent : Option String
  proxyServer : Option String
  defaultViewport : Option (Nat × Nat)
  deriving DecidableEq, Repr

/-- One call of `getStealthConfiguration()`: the returned object, the manager
afterwards, and two observations of the call: whether
`initializeBrowserProfile` ran and whether `setupProxy` ran. -/
structure Lease where
  browserConfig : BrowserConfig
  manager : StealthManager
  rotatedProfile : Bool
  proxyCalled : Bool

namespace StealthManager

/-- The constructor. -/
def new : StealthManager := {}

/-- `initializeBrowserProfile()`, with `now` the value of `Date.now()`; the
directory creation is taken to succeed. -/
def initializeBrowserProfile (cfg : Config) (sm : StealthManager) (now : Nat) :
    String × StealthManager :=
  let profileDir := pathJoin cfg.BROWSER_PROFILES_DIR ("profile-" ++ toString now)
  (profileDir, { sm with currentProfile := some profileDir })

/-- `setupProxy()`. -/
def setupProxy (cfg : Config) (sm : StealthManager) (env : ProxyEnv) :
    Option String × StealthManager :=
  if !cfg.USE_PROXIES || cfg.PROXY_LIST.length == 0 then
    (none, sm)
  else
    let i := ⌊env.rand * (cfg.PROXY_LIST.length : ℚ)⌋
    let proxy : Option String := if i < 0 then none else cfg.PROXY_LIST.get? i.toNat
    let proxyUrl :=
      if truthy cfg.PROXY_USERNAME && truthy cfg.PROXY_PASSWORD then
        "http://" ++ tpl cfg.PROXY_USERNAME ++ ":" ++ tpl cfg.PROXY_PASSWORD ++ "@" ++ tpl proxy
      else
        "http://" ++ tpl proxy
    match env.anonymize proxyUrl with
    | some url => (some url, { sm with currentProxy := some url })
    | none => (none, sm)

/-- `getStealthConfiguration()`. -/
def getStealthConfiguration (cfg : Config) (sm : StealthManager) (env : LeaseEnv) : Lease :=
  let rotate : Bool := sm.profilesCount ≥ cfg.ROTATE_PROFILE_AFTER || !truthy sm.currentProfile
  let sm1 : StealthManager :=
    if rotate then
      let r := initializeBrowserProfile cfg sm env.now
      { r.2 with currentProfile := some r.1, profilesCount := 0 }
    else sm
  let callProxy : Bool := remIsZero sm1.profilesCount cfg.ROTATE_PROXY_AFTER
  let sm2 : StealthManager := if callProxy then (setupProxy cfg sm1 env.proxy).2 else sm1
  let sm3 : StealthManager := { sm2 with profilesCount := sm2.profilesCount + 1 }
  { browserConfig :=
      { userDataDir := sm3.currentProfile
        userAgent := randomPick env.uaRand cfg.USER_AGENT_LIST
        proxyServer := if truthy sm3.currentProxy then sm3.currentProxy else none
        defaultViewport := randomPick env.vpRand cfg.VIEWPORTS }
    manager := sm3
    rotatedProfile := rotate
    proxyCalled := callProxy }

/-- The successive calls of `getStealthConfiguration()` on one manager, one
per environment answer, in call order. -/
def leases (cfg : Config) : StealthManager → List LeaseEnv → List Lease
  | _, [] => []
  | sm, env :: envs =>
    let l := getStealthConfiguration cfg sm env
    l :: leases cfg l.manager envs

end StealthManager

/-! ## Profile validation (`validateProfile`, `extractContactInfo`) -/

/-- The code points that `String.prototype.trim` removes. -/
def spaceCode (n : Nat) : Bool :=
  n ∈ [9, 10, 11, 12, 13, 32, 160, 5760, 8192, 8193, 8194, 8195, 8196, 8197, 8198, 8199, 8200,
    8201, 8202, 8232, 8233, 8239, 8287, 12288, 65279]

/-- White space in the sense of `String.prototype.trim`. -/
def isJsSpace (c : Char) : Bool :=
  spaceCode c.toNat

/-- `String.prototype.trim` on the list of characters. -/
def trimChars (l : List Char) : List Char :=
  ((l.dropWhile isJsSpace).reverse.dropWhile isJsSpace).reverse

/-- `String.prototype.trim`. -/
def jsTrim (s : String) : String :=
  String.mk (trimChars s.data)

/-- What the text libraries answer: the matches of `EMAIL_REGEX` and of
`PHONE_REGEX` in a text (`text.match(...) || []`), `validator.isEmail`, and
`formatPhoneNumber` (`none` is `null`). -/
structure TextTools where
  matchEmails : String → List String
  isEmail : String → Bool
  matchPhones : String → List String
  formatPhoneNumber : String → Option String

/-- The object returned by `extractContactInfo`. -/
structure ContactInfo where
  emails : List String
  phones : List String
  deriving DecidableEq, Repr

/-- `validateEmail(email)`. -/
def validateEmail (tools : TextTools) (email : String) : Option String :=
  if tools.isEmail email then some email else none

/-- `extractContactInfo(text)`: an argument that is a list has no method
`match`, and the call throws. -/
def extractContactInfo (tools : TextTools) (text : JsText) : Except String ContactInfo :=
  match text with
  | JsText.arr _ => Except.error "TypeError: text.match is not a function"
  | JsText.str t =>
    Except.ok
      { emails := (setSpread (tools.matchEmails t)).filter
          (fun e => truthy (validateEmail tools e))
        phones := ((setSpread (tools.matchPhones t)).map tools.formatPhoneNumber).filterMap
          (fun p => if truthy p then p else none) }

/-- JavaScript `v || ''` on a value that is a text, a list or `undefined`: a
list, the empty one included, is truthy. -/
def textOrEmpty (v : Option JsText) : JsText :=
  match v with
  | some (JsText.str t) => JsText.str t
  | some (JsText.arr l) => JsText.arr l
  | none => JsText.str ""

/-- The test `profile[field] && profile[field].trim()` of `validateProfile`. -/
def nonBlank (v : Option String) : Bool :=
  match v with
  | some t => t ≠ "" && jsTrim t ≠ ""
  | none => false

/-- `validateProfile(profile)`. -/
def validateProfile (tools : TextTools) (profile : Profile) : Except String Profile :=
  if !(nonBlank profile.name && nonBlank profile.title && nonBlank profile.location) then
    Except.error "Missing required profile fields"
  else
    match extractContactInfo tools (JsText.str ((jsOr profile.about (some "")).getD "")) with
    | Except.error e => Except.error e
    | Except.ok aboutInfo =>
      match extractContactInfo tools (textOrEmpty profile.experience) with
      | Except.error e => Except.error e
      | Except.ok expInfo =>
        Except.ok
          { profile with
            email := jsOr (jsOr (jsOr profile.email aboutInfo.emails.head?) expInfo.emails.head?)
              (some "")
            phone := jsOr (jsOr (jsOr profile.phone aboutInfo.phones.head?) expInfo.phones.head?)
              (some "")
            additionalEmails :=
              some ((aboutInfo.emails ++ expInfo.emails).filter (fun e => some e ≠ profile.email))
            additionalPhones :=
              some ((aboutInfo.phones ++ expInfo.phones).filter (fun p => some p ≠ profile.phone)) }

/-- JavaScript `a || b` with a text or `undefined` on the left and a text on
the right. -/
def optOr (a : Option String) (b : String) : String :=
  match a with
  | some s => if s = "" then b else s
  | none => b

/-- JavaScript `a || b` on two texts. -/
def strOr (a b : String) : String :=
  if a = "" then b else a

/-! ## The scraping loop (`src/scraper/scraper.js`) -/

/-- The object returned by the page evaluation of `extractProfile`: three
texts read with `getText`, three lists built with `getList`, and the text
`about`. -/
structure ScrapedFields where
  name : String
  title : String
  location : String
  experience : List String
  education : List String
  skills : List String
  about : String
  deriving DecidableEq, Repr

/-- What the environment answers while one URL is processed: whether
`page.goto` resolves, what the page shows, what the page evaluation of
`extractProfile` returns, what `extractContactInfo(url)` yields (the thrown
error, or the entries `email` and `phone` of the contact items, each possibly
`undefined`), the answers of the text libraries, the clock text for the row,
whether a remote write and a backup would succeed, the answers for a proxy
setup, and the draw of `Math.random()` for the length of a break. -/
structure Attempt where
  gotoOk : Bool
  elements : PageElements
  fields : ScrapedFields
  contact : Except String (Option String × Option String)
  tools : TextTools
  now : String
  remoteOk : Bool
  backupOk : Bool
  proxy : ProxyEnv
  breakRand : ℚ

/-- The fields of `LinkedInScraper` the loop works on (the sheets manager is
taken to be initialised). -/
structure LinkedInScraper where
  stealthManager : StealthManager := {}
  metrics : ScrapingMetrics := {}
  deduplicator : ProfileDeduplicator := ProfileDeduplicator.new
  sheetsManager : SheetsManager := {}

/-- How one pass through the loop body ends: it falls through to the next URL,
or leaves the loop by the `break` of the daily limit or by the `break` of the
error threshold. -/
inductive Ctl where
  | next
  | stopQuota
  | stopErrors
  deriving DecidableEq, Repr

/-- What happened to one URL: skipped by the first duplicate test, recorded as
a new profile, recognised as a known profile after extraction, or failed with
an error caught by the `catch` block. -/
inductive Outcome where
  | skipped
  | recorded
  | known
  | failed
  deriving DecidableEq, Repr

/-- The observations of one pass through the loop body: the URL, whether
`page.goto(url)` was called, whether `detectWarnings` raised, the outcome, and
the length of the break (milliseconds) if `utils.sleep(breakTime)` was
reached. -/
structure StepInfo where
  url : String
  visited : Bool
  tripped : Bool
  outcome : Outcome
  rest : Option Int
  deriving DecidableEq, Repr

/-- The value of the text `url` read as a profile by
`this.deduplicator.isDuplicate(url)`: a text has none of the properties
`name`, `title`, `location`. -/
def urlAsProfile : Profile :=
  { name := none, title := none, location := none, experience := none, education := none,
    skills := none, about := none, email := none, phone := none,
    additionalEmails := none, additionalPhones := none }

namespace LinkedInScraper

/-- The object `profile` of `extractProfile` when it is handed to
`validateProfile`: the evaluated fields, with `email` and `phone` set to
`contactInfo.email || ''` and `contactInfo.phone || ''`. -/
def scrapedProfile (fields : ScrapedFields) (email phone : Option String) : Profile :=
  { name := some fields.name
    title := some fields.title
    location := some fields.location
    experience := some (JsText.arr fields.experience)
    education := some fields.education
    skills := some fields.skills
    about := some fields.about
    email := some (optOr email "")
    phone := some (optOr phone "")
    additionalEmails := none
    additionalPhones := none }

/-- `extractProfile(url)`: the profile or the thrown error, the metrics after
`detectWarnings`, and whether `detectWarnings` raised. The scrolling and the
simulated behaviour between `detectWarnings` and the page evaluation are taken
to succeed. -/
def extractProfile (m : ScrapingMetrics) (a : Attempt) :
    Except String Profile × ScrapingMetrics × Bool :=
  if !a.gotoOk then
    (Except.error "navigation failed", m, false)
  else
    match detectWarnings m a.elements with
    | (Except.error e, m1) => (Except.error e, m1, true)
    | (Except.ok _, m1) =>
      match a.contact with
      | Except.error e => (Except.error e, m1, false)
      | Except.ok (email, phone) =>
        (validateProfile a.tools (scrapedProfile a.fields email phone), m1, false)

/-- The length of a break: `utils.randomInt(BREAK_MINUTES_MIN * 60 * 1000,
BREAK_MINUTES_MAX * 60 * 1000)`. -/
def breakTime (cfg : Config) (u : ℚ) : Int :=
  randomInt u ((cfg.BREAK_MINUTES_MIN : Int) * 60 * 1000) ((cfg.BREAK_MINUTES_MAX : Int) * 60 * 1000)

/-- The result of one pass through the loop body. -/
structure Step where
  ctl : Ctl
  scraper : LinkedInScraper
  scraped : Nat
  info : StepInfo

/-- The part of the `try` block after the profile has been handled
(`// Check for rotation/breaks` and the daily limit), which cannot throw. -/
def afterProfile (cfg : Config) (s : LinkedInScraper) (scraped : Nat) (url : String)
    (a : Attempt) (outcome : Outcome) : Step :=
  let s1 : LinkedInScraper :=
    if remIsZero scraped cfg.ROTATE_PROXY_AFTER then
      { s with stealthManager := (StealthManager.setupProxy cfg s.stealthManager a.proxy).2 }
    else s
  let rest : Option Int :=
    if remIsZero scraped cfg.INITIAL_PROFILE_LIMIT then some (breakTime cfg a.breakRand) else none
  { ctl := if scraped ≥ cfg.MAX_PROFILES_PER_DAY then Ctl.stopQuota else Ctl.next
    scraper := s1
    scraped := scraped
    info := { url := url, visited := true, tripped := false, outcome := outcome, rest := rest } }

/-- The `catch` block: `logProfileError`, then the threshold test. -/
def onError (cfg : Config) (s : LinkedInScraper) (scraped : Nat) (url : String)
    (visited tripped : Bool) : Step :=
  let m := s.metrics.logProfileError
  { ctl := if m.profilesFailed ≥ cfg.HEALTH_PAUSE_THRESHOLD then Ctl.stopErrors else Ctl.next
    scraper := { s with metrics := m }
    scraped := scraped
    info := { url := url, visited := visited, tripped := tripped, outcome := Outcome.failed,
              rest := none } }

/-- One pass through the body of the `for` loop of `scrapeProfiles`. -/
def iteration (cfg : Config) (s : LinkedInScraper) (scraped : Nat) (url : String)
    (a : Attempt) : Step :=
  if s.deduplicator.isDuplicate urlAsProfile then
    { ctl := Ctl.next, scraper := s, scraped := scraped
      info := { url := url, visited := false, tripped := false, outcome := Outcome.skipped,
                rest := none } }
  else
    match extractProfile s.metrics a with
    | (Except.error _, m1, tripped) => onError cfg { s with metrics := m1 } scraped url true tripped
    | (Except.ok profile, m1, _) =>
      let s1 : LinkedInScraper := { s with metrics := m1 }
      if !s1.deduplicator.isDuplicate profile then
        match s1.sheetsManager.appendProfile profile a.now a.remoteOk a.backupOk with
        | (Except.error _, sh) => onError cfg { s1 with sheetsManager := sh } scraped url true false
        | (Except.ok _, sh) =>
          let s2 : LinkedInScraper :=
            { s1 with
              sheetsManager := sh
              deduplicator := (s1.deduplicator.addProfile profile).2
              metrics := s1.metrics.logProfileSuccess }
          afterProfile cfg s2 (scraped + 1) url a Outcome.recorded
      else
        afterProfile cfg s1 scraped url a Outcome.known

/-- The state in which the `for` loop of `scrapeProfiles` is left: the
scraper, the local counter `scraped`, the `break` that ended the loop (if
one did), and the observations of the passes made, in order. -/
structure LoopResult where
  scraper : LinkedInScraper
  scraped : Nat
  stop : Option Ctl
  log : List StepInfo

/-- The `for (const url of profileUrls)` loop, each URL paired with the
environment's answers for it. -/
def scrapeLoop (cfg : Config) : List (String × Attempt) → LinkedInScraper → Nat → LoopResult
  | [], s, scraped => { scraper := s, scraped := scraped, stop := none, log := [] }
  | (url, a) :: jobs, s, scraped =>
    let st := iteration cfg s scraped url a
    match st.ctl with
    | Ctl.next =>
      let r := scrapeLoop cfg jobs st.scraper st.scraped
      { r with log := st.info :: r.log }
    | c => { scraper := st.scraper, scraped := st.scraped, stop := some c, log := [st.info] }

/-- `scrapeProfiles(profileUrls)`: the loop from `scraped = 0`, then the final
`flushWrites()` (whose remote write and backup succeed or not as told). The
result is the thrown error, if any, the scraper afterwards, and the loop's
observations. -/
def scrapeProfiles (cfg : Config) (s : LinkedInScraper) (jobs : List (String × Attempt))
    (remoteOk backupOk : Bool) : Except String Unit × LinkedInScraper × LoopResult :=
  let r := scrapeLoop cfg jobs s 0
  let f := r.scraper.sheetsManager.flushWrites remoteOk backupOk
  (f.1, { r.scraper with sheetsManager := f.2 }, r)

end LinkedInScraper

/-! ## Reading the observations of a run -/

/-- The number of failed attempts among the observed passes. -/
def failures (log : List StepInfo) : Nat :=
  log.countP (fun i => i.outcome == Outcome.failed)

/-- The number of recorded profiles (successes) among the observed passes. -/
def successes (log : List StepInfo) : Nat :=
  log.countP (fun i => i.outcome == Outcome.recorded)

/-- The number of breaks taken in the observed passes. -/
def breaksTaken (log : List StepInfo) : Nat :=
  log.countP (fun i => i.rest.isSome)

/-- The number of consecutive failed attempts at the end of the observed
passes. -/
def trailingFailures (log : List StepInfo) : Nat :=
  (log.reverse.takeWhile (fun i => i.outcome == Outcome.failed)).length

/-- The rotation phase of a manager: `c` is the number of leases handed out on
the current browser profile, or the rotation period when no profile exists
yet. -/
def Phase (cfg : Config) (sm : StealthManager) (c : Nat) : Prop :=
  1 ≤ c ∧ c ≤ cfg.ROTATE_PROFILE_AFTER ∧
    ((truthy sm.currentProfile = true ∧ sm.profilesCount = c) ∨
     (truthy sm.currentProfile = false ∧ c = cfg.ROTATE_PROFILE_AFTER))

/-! ## Campaigns (`src/scraper/campaign.js`) -/

/-- A row of the `Campaign` model. The JSON text of the column `targetList` is
identified with the list it encodes; `lastRun` and `nextRun` are clock values. -/
structure Campaign where
  id : String
  name : String
  status : String
  schedule : String
  accountId : String
  targetList : List String
  totalProfiles : Nat
  processedProfiles : Nat
  successfulProfiles : Nat
  failedProfiles : Nat
  lastRun : Option Nat
  nextRun : Option Nat
  config : String
  deriving DecidableEq, Repr

/-- A row of the `Account` model. -/
structure Account where
  id : String
  email : String
  status : String
  lastUsed : Option Nat
  dailyQuota : Nat
  usedQuota : Nat
  errorCount : Nat
  cookieData : String
  deriving DecidableEq, Repr

/-- A task created by `cron.schedule`: its identity, the campaign its callback
runs, its expression, and whether it is still armed (not destroyed). -/
structure CronTask where
  handle : Nat
  campaignId : String
  schedule : String
  running : Bool
  deriving DecidableEq, Repr

/-- The body posted by `sendWebhook`. -/
structure Payload where
  event : String
  timestamp : Nat
  data : List (String × String)
  deriving DecidableEq, Repr

/-- The object `results` of `executeScraping`. -/
structure Results where
  processed : Nat
  successful : Nat
  failed : Nat
  deriving DecidableEq, Repr

/-- The argument of `createCampaign`; a missing `targetList` or `config` is
`none`. -/
structure CampaignData where
  name : String
  schedule : String
  accountId : String
  targetList : Option (List String)
  config : Option String
  deriving DecidableEq, Repr

/-- What `this.db` holds. The constructor stores the value of the call
`this.initializeDatabase()`; that method is `async`, so the value is a promise
(of the object with the two models), and no statement replaces it later. -/
inductive DbValue where
  | promise
  deriving DecidableEq, Repr

/-- The property reads `this.db.Campaign` and `this.db.Account`: whether the
read yields a model class. A promise has neither property; the read yields
`undefined`. -/
def DbValue.hasModels : DbValue → Bool
  | DbValue.promise => false

/-- The error of a method call on the `undefined` model, as in
`this.db.Campaign.findByPk(...)`. -/
def noModel (method : String) : String :=
  "TypeError: Cannot read properties of undefined (reading '" ++ method ++ "')"

/-- The state a `CampaignManager` works on. `db` is the value of `this.db`;
`campaigns` and `accounts` are the rows of the two tables of the database file
`campaigns.db`, which the methods can reach only through the models;
`activeJobs` is the map of the same name. The remaining fields are what the
collaborators have received: the tasks created by `cron.schedule` (`nextTask`
is the identity of the next one), the calls of `sendWebhook` (event and
campaign id), the bodies handed to `axios.post`, and the calls of
`executeScraping` (target list and account id). -/
structure CampaignManager where
  db : DbValue := DbValue.promise
  campaigns : List Campaign := []
  accounts : List Account := []
  activeJobs : List (String × Nat) := []
  tasks : List CronTask := []
  nextTask : Nat := 0
  webhooks : List (String × String) := []
  posts : List Payload := []
  scrapes : List (List String × String) := []
  deriving DecidableEq, Repr

/-- What the environment answers during one `runCampaign`: the clock, whether
each of the three `campaign.save()` calls and the `account.save()` call
resolve, what `cron.parseExpression(schedule).next().toDate()` yields (the
thrown error when the scheduler library has no such function), and whether the
post of an event resolves. -/
structure RunEnv where
  now : Nat
  save1 : Bool
  next : Except String Nat
  save2 : Bool
  accountSave : Bool
  save3 : Bool
  postOk : String → Bool

/-- `Map.prototype.get` on the entries of `activeJobs`. -/
def jobGet : List (String × Nat) → String → Option Nat
  | [], _ => none
  | (k, v) :: m, id => if k = id then some v else jobGet m id

/-- `Map.prototype.set` on the entries of `activeJobs`. -/
def jobSet : List (String × Nat) → String → Nat → List (String × Nat)
  | [], id, h => [(id, h)]
  | (k, v) :: m, id, h => if k = id then (id, h) :: m else (k, v) :: jobSet m id h

/-- `Map.prototype.delete` on the entries of `activeJobs`. -/
def jobDelete : List (String × Nat) → String → List (String × Nat)
  | [], _ => []
  | (k, v) :: m, id => if k = id then jobDelete m id else (k, v) :: jobDelete m id

/-- The method `destroy()` of the task with identity `h`: the task is no longer
armed. -/
def destroyTask (tasks : List CronTask) (h : Nat) : List CronTask :=
  tasks.map (fun t => if t.handle = h then { t with running := false } else t)

/-- The table `Campaign` after the row with the primary key of `c` has been
updated to `c`. -/
def putCampaign : List Campaign → Campaign → List Campaign
  | [], _ => []
  | r :: rows, c => if r.id = c.id then c :: rows else r :: putCampaign rows c

/-- The table `Account` after the row with the primary key of `a` has been
updated to `a`. -/
def putAccount : List Account → Account → List Account
  | [], _ => []
  | r :: rows, a => if r.id = a.id then a :: rows else r :: putAccount rows a

namespace CampaignManager

/-- The constructor on an empty database file: `this.db` is the promise and
`activeJobs` is the empty map. The constructor also calls `initialize()`
without awaiting it. -/
def new : CampaignManager := {}

/-- The model method `findByPk(id)` on the table `Campaign`. -/
def findCampaign (m : CampaignManager) (id : String) : Option Campaign :=
  m.campaigns.find? (fun c => c.id == id)

/-- The model method `findByPk(id)` on the table `Account`. -/
def findAccount (m : CampaignManager) (id : String) : Option Account :=
  m.accounts.find? (fun a => a.id == id)

/-- `campaign.save()`: the row with the instance's primary key, which is the
row `findByPk` returns for it, is replaced. -/
def saveCampaign (m : CampaignManager) (c : Campaign) : CampaignManager :=
  { m with campaigns := putCampaign m.campaigns c }

/-- `account.save()`. -/
def saveAccount (m : CampaignManager) (a : Account) : CampaignManager :=
  { m with accounts := putAccount m.accounts a }

/-- `scheduleCampaign(campaign)`: the task stored for the campaign, if any, is
destroyed; then `cron.schedule` creates a new task, which is stored, or throws
when it does not accept the expression (`accepts` tells which expressions it
accepts), and the map then still names the destroyed task. -/
def scheduleCampaign (accepts : String → Bool) (m : CampaignManager) (campaign : Campaign) :
    Except String Unit × CampaignManager :=
  let tasks1 :=
    match jobGet m.activeJobs campaign.id with
    | some h => destroyTask m.tasks h
    | none => m.tasks
  if !accepts campaign.schedule then
    (Except.error "cron.schedule: invalid expression", { m with tasks := tasks1 })
  else
    let job : CronTask :=
      { handle := m.nextTask, campaignId := campaign.id, schedule := campaign.schedule,
        running := true }
    (Except.ok (),
      { m with
        tasks := tasks1 ++ [job]
        nextTask := m.nextTask + 1
        activeJobs := jobSet m.activeJobs campaign.id job.handle })

/-- The `for` loop of `initialize()` over the active campaigns: the first
`scheduleCampaign` that throws ends it. -/
def scheduleAll (accepts : String → Bool) :
    List Campaign → CampaignManager → Except String Unit × CampaignManager
  | [], m => (Except.ok (), m)
  | campaign :: rest, m =>
    match scheduleCampaign accepts m campaign with
    | (Except.error e, m1) => (Except.error e, m1)
    | (Except.ok _, m1) => scheduleAll accepts rest m1

/-- The method `initialize()` of the manager, called by the constructor: the
thrown error, if any, and the manager afterwards. -/
def initializeManager (accepts : String → Bool) (m : CampaignManager) :
    Except String Unit × CampaignManager :=
  if !m.db.hasModels then (Except.error (noModel "findAll"), m)
  else scheduleAll accepts (m.campaigns.filter (fun c => c.status == "active")) m

/-- `createCampaign(data)` with `uuid` the value of `uuidv4()`: the created
campaign or the thrown error, and the manager afterwards. The callee
`this.db.Campaign.create` is resolved before the argument is built. Reading
`data.targetList.length` throws when the list is missing; the primary key
rejects an identifier that is already stored. -/
def createCampaign (accepts : String → Bool) (m : CampaignManager) (data : CampaignData)
    (uuid : String) : Except String Campaign × CampaignManager :=
  if !m.db.hasModels then (Except.error (noModel "create"), m)
  else
    match data.targetList with
    | none => (Except.error "TypeError: Cannot read properties of undefined", m)
    | some targets =>
      if m.campaigns.any (fun c => c.id == uuid) then
        (Except.error "SequelizeUniqueConstraintError", m)
      else
        let campaign : Campaign :=
          { id := uuid, name := data.name, status := "active", schedule := data.schedule,
            accountId := data.accountId, targetList := targets,
            totalProfiles := targets.length, processedProfiles := 0, successfulProfiles := 0,
            failedProfiles := 0, lastRun := none, nextRun := none,
            config := data.config.getD "" }
        match scheduleCampaign accepts { m with campaigns := m.campaigns ++ [campaign] }
            campaign with
        | (Except.error e, m1) => (Except.error e, m1)
        | (Except.ok _, m1) => (Except.ok campaign, m1)

/-- `sendWebhook(event, data)` for the campaign `campaignId`: nothing is posted
when `config.WEBHOOK_URL` is falsy; a rejected post is caught and logged. -/
def sendWebhook (cfg : Config) (m : CampaignManager) (event campaignId : String)
    (data : List (String × String)) (now : Nat) : CampaignManager :=
  let m1 := { m with webhooks := m.webhooks ++ [(event, campaignId)] }
  if !truthy cfg.WEBHOOK_URL then m1
  else { m1 with posts := m1.posts ++ [{ event := event, timestamp := now, data := data }] }

/-- `executeScraping(targetList, account, config)`: the placeholder of the
source. The results are all zero, the account's `usedQuota` is increased by
`results.successful` and the account is saved (`saveOk` tells whether the save
resolves). -/
def executeScraping (m : CampaignManager) (targetList : List String) (account : Account)
    (saveOk : Bool) : Except String Results × CampaignManager :=
  let results : Results := { processed := 0, successful := 0, failed := 0 }
  let account1 := { account with usedQuota := account.usedQuota + results.successful }
  let m1 := { m with scrapes := m.scrapes ++ [(targetList, account.id)] }
  if saveOk then (Except.ok results, saveAccount m1 account1)
  else (Except.error "account save failed", m1)

/-- The `try` block of `runCampaign`: `Except.error` is the error thrown to the
`catch` block. -/
def runBody (cfg : Config) (m : CampaignManager) (campaign : Campaign) (account : Account)
    (env : RunEnv) : Except String Unit × CampaignManager :=
  let c1 := { campaign with lastRun := some env.now }
  if !env.save1 then (Except.error "campaign save failed", m)
  else
    let m1 := saveCampaign m c1
    match env.next with
    | Except.error e => (Except.error e, m1)
    | Except.ok t =>
      let c2 := { c1 with nextRun := some t }
      if !env.save2 then (Except.error "campaign save failed", m1)
      else
        let m2 := saveCampaign m1 c2
        let m3 := sendWebhook cfg m2 "campaign.started" campaign.id
          [("campaignId", campaign.id), ("name", c2.name),
           ("totalProfiles", toString c2.totalProfiles)] env.now
        match executeScraping m3 c2.targetList account env.accountSave with
        | (Except.error e, m4) => (Except.error e, m4)
        | (Except.ok results, m4) =>
          let c3 :=
            { c2 with
              processedProfiles := c2.processedProfiles + results.processed
              successfulProfiles := c2.successfulProfiles + results.successful
              failedProfiles := c2.failedProfiles + results.failed }
          if !env.save3 then (Except.error "campaign save failed", m4)
          else
            let m5 := saveCampaign m4 c3
            (Except.ok (),
              sendWebhook cfg m5 "campaign.completed" campaign.id
                [("campaignId", campaign.id), ("name", c3.name)] env.now)

/-- `runCampaign(campaignId)`: the error that leaves the method, if any, and
the manager afterwards. The two reads of the database come before the `try`
block; an error thrown inside the `try` block is caught and reported with
`campaign.error`. -/
def runCampaign (cfg : Config) (m : CampaignManager) (campaignId : String) (env : RunEnv) :
    Except String Unit × CampaignManager :=
  if !m.db.hasModels then (Except.error (noModel "findByPk"), m)
  else
    match findCampaign m campaignId with
    | none => (Except.ok (), m)
    | some campaign =>
      if campaign.status ≠ "active" then (Except.ok (), m)
      else
        match findAccount m campaign.accountId with
        | none => (Except.ok (), m)
        | some account =>
          if account.status ≠ "active" then (Except.ok (), m)
          else
            match runBody cfg m campaign account env with
            | (Except.ok _, m1) => (Except.ok (), m1)
            | (Except.error e, m1) =>
              (Except.ok (),
                sendWebhook cfg m1 "campaign.error" campaignId
                  [("campaignId", campaignId), ("name", campaign.name), ("error", e)] env.now)

/-- `pauseCampaign(campaignId)`. -/
def pauseCampaign (m : CampaignManager) (campaignId : String) :
    Except String Unit × CampaignManager :=
  if !m.db.hasModels then (Except.error (noModel "findByPk"), m)
  else
    match findCampaign m campaignId with
    | none => (Except.ok (), m)
    | some campaign =>
      let m1 := saveCampaign m { campaign with status := "paused" }
      match jobGet m1.activeJobs campaignId with
      | some h =>
        (Except.ok (),
          { m1 with
            tasks := destroyTask m1.tasks h
            activeJobs := jobDelete m1.activeJobs campaignId })
      | none => (Except.ok (), m1)

/-- `resumeCampaign(campaignId)`. -/
def resumeCampaign (accepts : String → Bool) (m : CampaignManager) (campaignId : String) :
    Except String Unit × CampaignManager :=
  if !m.db.hasModels then (Except.error (noModel "findByPk"), m)
  else
    match findCampaign m campaignId with
    | none => (Except.ok (), m)
    | some campaign =>
      let c1 := { campaign with status := "active" }
      scheduleCampaign accepts (saveCampaign m c1) c1

/-- The campaigns that have an armed schedule trigger, one entry per armed
task, in creation order. -/
def armed (m : CampaignManager) : List String :=
  (m.tasks.filter (fun t => t.running)).map (fun t => t.campaignId)

end CampaignManager

/-! ## The worker pool (`src/scraper/worker.js`) -/

/-- An entry handed to `scrapeQueue.addBulk`. -/
structure QueueJob where
  name : String
  profileUrl : String
  campaignId : String
  timestamp : Nat
  deriving DecidableEq, Repr

/-- The object `metrics` of `WorkerManager`. -/
structure WorkerMetrics where
  activeWorkers : Nat := 0
  completedJobs : Nat := 0
  failedJobs : Nat := 0
  avgProcessingTime : ℚ := 0
  deriving DecidableEq, Repr

/-- The state of the `cluster` module in the master process: the identifiers
of the live workers in ascending order (the key order of `cluster.workers`) and
the identifier the next fork gets. -/
structure Cluster where
  workers : List Nat := []
  nextId : Nat := 1
  deriving DecidableEq, Repr

/-- The fields of `WorkerManager`, the jobs added to `scrapeQueue`, and the
state of the `cluster` module. -/
structure WorkerManager where
  scrapeQueue : List QueueJob := []
  campaignManager : CampaignManager := {}
  metrics : WorkerMetrics := {}
  cluster : Cluster := {}
  deriving DecidableEq, Repr

/-- JavaScript `v || 4` on a value that is a number or `undefined`. -/
def orFour (v : Option Nat) : Nat :=
  match v with
  | some n => if n = 0 then 4 else n
  | none => 4

/-- JavaScript `a < v` on a number `a` and a value `v` that is a number or
`undefined`: the comparison with `undefined` is `false`. -/
def ltNumber (a : Nat) (v : Option Nat) : Bool :=
  match v with
  | some n => a < n
  | none => false

namespace Cluster

/-- `cluster.fork()`. -/
def fork (c : Cluster) : Cluster :=
  { workers := c.workers ++ [c.nextId], nextId := c.nextId + 1 }

/-- `cluster.fork()`, `n` times. -/
def forkMany : Nat → Cluster → Cluster
  | 0, c => c
  | n + 1, c => forkMany n (fork c)

/-- The exit of worker `id`: the worker leaves `cluster.workers`, then the
handler registered by `initializeMaster` with `cluster.on('exit', ...)` runs,
which forks a worker. -/
def onExit (c : Cluster) (id : Nat) : Cluster :=
  fork { c with workers := c.workers.filter (fun w => w ≠ id) }

end Cluster

namespace WorkerManager

/-- `initializeMaster()` with `cpus` the value of `os.cpus().length`: the
number of workers forked, and the manager afterwards. -/
def initializeMaster (cfg : Config) (wm : WorkerManager) (cpus : Nat) : Nat × WorkerManager :=
  let numWorkers := min cpus (orFour cfg.MAX_CONCURRENT_WORKERS)
  (numWorkers, { wm with cluster := wm.cluster.forkMany numWorkers })

/-- `addProfilesToQueue(profiles, campaignId)` with `now` the value of
`Date.now()`. -/
def addProfilesToQueue (wm : WorkerManager) (profiles : List String) (campaignId : String)
    (now : Nat) : WorkerManager :=
  let jobs := profiles.map (fun profileUrl =>
    ({ name := "scrape-profile", profileUrl := profileUrl, campaignId := campaignId,
       timestamp := now } : QueueJob))
  { wm with scrapeQueue := wm.scrapeQueue ++ jobs }

/-- What one call of `autoScaleWorkers` did: whether it forked a worker and
which worker, if any, it sent the kill signal to. -/
structure Scaling where
  manager : WorkerManager
  forked : Bool
  killed : Option Nat
  deriving DecidableEq, Repr

/-- `autoScaleWorkers(jobCounts)` with `waiting` the value of
`jobCounts.waiting`. Reading `.kill` of a missing worker throws. -/
def autoScaleWorkers (cfg : Config) (wm : WorkerManager) (waiting : Nat) :
    Except String Scaling :=
  let currentWorkers := wm.metrics.activeWorkers
  let maxWorkers := cfg.MAX_CONCURRENT_WORKERS
  let up : Bool := decide (waiting > currentWorkers * 2) && ltNumber currentWorkers maxWorkers
  let c1 := if up then wm.cluster.fork else wm.cluster
  if waiting = 0 ∧ currentWorkers > 1 then
    match c1.workers.head? with
    | some workerId =>
      Except.ok { manager := { wm with cluster := c1 }, forked := up, killed := some workerId }
    | none => Except.error "TypeError: Cannot read properties of undefined (reading 'kill')"
  else
    Except.ok { manager := { wm with cluster := c1 }, forked := up, killed := none }

/-- The callback that `scheduleCampaign` hands to `cron.schedule`, fired for
the campaign `campaignId` on the campaign manager of this worker manager:
`await this.runCampaign(campaign.id)`. -/
def scheduledRun (cfg : Config) (wm : WorkerManager) (campaignId : String) (env : RunEnv) :
    Except String Unit × WorkerManager :=
  ((wm.campaignManager.runCampaign cfg campaignId env).1,
    { wm with campaignManager := (wm.campaignManager.runCampaign cfg campaignId env).2 })

end WorkerManager

/-! ## Sequences of campaign operations -/

/-- A call of `createCampaign`, `pauseCampaign` or `resumeCampaign`. -/
inductive CampaignOp where
  | create (data : CampaignData) (uuid : String)
  | pause (campaignId : String)
  | resume (campaignId : String)
  deriving DecidableEq, Repr

/-- The manager after one call (a thrown error is dropped here; the state is
what the call leaves behind). -/
def applyOp (accepts : String → Bool) (m : CampaignManager) : CampaignOp → CampaignManager
  | CampaignOp.create data uuid => (m.createCampaign accepts data uuid).2
  | CampaignOp.pause id => (m.pauseCampaign id).2
  | CampaignOp.resume id => (m.resumeCampaign accepts id).2

/-- The manager after a sequence of calls, in order. -/
def applyOps (accepts : String → Bool) (m : CampaignManager) (ops : List CampaignOp) :
    CampaignManager :=
  ops.foldl (applyOp accepts) m

/-! ## Sequences of calls on the record store client -/

/-- A call of `appendProfile` or of `flushWrites`, with the answers of the
remote write and of the backup write. -/
inductive SheetOp where
  | append (profile : Profile) (now : String) (remoteOk backupOk : Bool)
  | flush (remoteOk backupOk : Bool)
  deriving DecidableEq, Repr

/-- The client after one call (a thrown error is dropped here; the state is
what the call leaves behind). -/
def applySheetOp (sh : SheetsManager) : SheetOp → SheetsManager
  | SheetOp.append profile now remoteOk backupOk =>
    (sh.appendProfile profile now remoteOk backupOk).2
  | SheetOp.flush remoteOk backupOk => (sh.flushWrites remoteOk backupOk).2

/-- The client after a sequence of calls, in order. -/
def applySheetOps (sh : SheetsManager) (ops : List SheetOp) : SheetsManager :=
  ops.foldl applySheetOp sh

/-- The rows handed over by a sequence of calls: the rows `formatProfile`
produced in the `appendProfile` calls, in call order. -/
def rowsOf : List SheetOp → List (List String)
  | [] => []
  | SheetOp.append profile now _ _ :: ops =>
    match formatProfile profile now with
    | Except.ok row => row :: rowsOf ops
    | Except.error _ => rowsOf ops
  | SheetOp.flush _ _ :: ops => rowsOf ops

/-! ## Webhook delivery (`CampaignManager.sendWebhook`) -/

namespace CampaignManager

/-- `sendWebhook(event, data)` with the answer of `axios.post` as an input: the
value the call settles with and the manager afterwards. A rejected post is
caught and logged. -/
def sendWebhookOutcome (cfg : Config) (m : CampaignManager) (event campaignId : String)
    (data : List (String × String)) (now : Nat) (post : Except String Unit) :
    Except String Unit × CampaignManager :=
  let m1 := { m with webhooks := m.webhooks ++ [(event, campaignId)] }
  if !truthy cfg.WEBHOOK_URL then (Except.ok (), m1)
  else
    let m2 := { m1 with posts := m1.posts ++ [{ event := event, timestamp := now, data := data }] }
    match post with
    | Except.ok _ => (Except.ok (), m2)
    | Except.error _ => (Except.ok (), m2)

end CampaignManager

/-! ## Worker metrics (`WorkerManager.initializeWorker`) -/

namespace WorkerMetrics

/-- The handler of the queue event `completed`, with `processingTime` the value
of `Date.now() - job.timestamp`, in exact arithmetic. -/
def onCompleted (m : WorkerMetrics) (processingTime : ℚ) : WorkerMetrics :=
  let completedJobs := m.completedJobs + 1
  { m with
    completedJobs := completedJobs
    avgProcessingTime :=
      (m.avgProcessingTime * ((completedJobs : ℚ) - 1) + processingTime) / (completedJobs : ℚ) }

/-- The metrics after a sequence of `completed` events, in order. -/
def afterCompleted (m : WorkerMetrics) (times : List ℚ) : WorkerMetrics :=
  times.foldl onCompleted m

end WorkerMetrics

/-! ## The target sheet (`src/services/googleSheets.js`) -/

/-- A data row of the sheet: its cells `_rawData` (the library hands over a
list for every row, the empty list for an empty row). -/
structure SheetRow where
  rawData : List String
  deriving DecidableEq, Repr

/-- The first sheet of the document, `this.doc.sheetsByIndex[0]`, once the
service is initialised: the header row and the data rows `sheet.getRows()`
resolves with. -/
structure Sheet where
  headerValues : List String
  rows : List SheetRow
  deriving DecidableEq, Repr

/-- A profile object built by `getProfileLinks`: its three properties. -/
structure TargetProfile where
  profileUrl : Option String
  status : String
  phone_number : String
  deriving DecidableEq, Repr

namespace columnVariations

/-- The accepted names of the profile-URL column. -/
def profileUrl : List String :=
  ["profileurl", "profile_url", "profile url", "url", "linkedin url", "linkedin_url",
   "linkedinurl", "linkedin profile"]

/-- The accepted names of the status column. -/
def status : List String :=
  ["status", "state", "profile_status", "profilestatus"]

/-- The accepted names of the phone column. -/
def phone_number : List String :=
  ["phone_number", "phone", "phonenumber", "phone number", "contact", "contact_number",
   "mobile", "mobile_number"]

end columnVariations

/-- The search `headers.find(h => variations.includes(h.toLowerCase().trim()))`,
with the lower-casing of the engine as the parameter `lower`. -/
def foundHeader (lower : String → String) (headers variations : List String) : Option String :=
  headers.find? (fun h => variations.contains (jsTrim (lower h)))

/-- The object `headerMapping`: for each standard name the header found for
it, or `undefined`. -/
structure HeaderMapping where
  profileUrl : Option String
  status : Option String
  phone_number : Option String
  deriving DecidableEq, Repr

/-- The mapping built from the header row. -/
def headerMapping (lower : String → String) (headers : List String) : HeaderMapping :=
  { profileUrl := foundHeader lower headers columnVariations.profileUrl
    status := foundHeader lower headers columnVariations.status
    phone_number := foundHeader lower headers columnVariations.phone_number }

/-- The library call `row.get(key)`: the cell at the position of `key` in the
header row; `undefined` when `key` is `undefined` or no header, or when the row
has no cell there. -/
def SheetRow.get (headers : List String) (row : SheetRow) (key : Option String) :
    Option String :=
  match key with
  | none => none
  | some k =>
    if headers.indexOf k < headers.length then row.rawData.get? (headers.indexOf k) else none

/-- The first `map` of the chain in `getProfileLinks`. -/
def rowProfile (headers : List String) (mapping : HeaderMapping) (row : SheetRow) :
    TargetProfile :=
  { profileUrl := row.get headers mapping.profileUrl
    status := optOr (row.get headers mapping.status) "pending"
    phone_number := optOr (row.get headers mapping.phone_number) "" }

/-- The second `filter` of the chain in `getProfileLinks`. -/
def validProfile (lower : String → String) (profile : TargetProfile) : Bool :=
  if !truthy profile.profileUrl then false
  else
    let status := jsTrim (lower (strOr profile.status ""))
    status = "" || status = "pending"

/-- The body of `getProfileLinks()` on an initialised service whose document
has the first sheet `sheet`, with the lower-casing of the engine as the
parameter `lower` (the text of the second error is shortened to its first
sentence). -/
def getProfileLinksWith (lower : String → String) (sheet : Sheet) :
    Except String (List TargetProfile) :=
  if sheet.headerValues.length = 0 then Except.error "No headers found in sheet"
  else
    let mapping := headerMapping lower sheet.headerValues
    if !truthy mapping.profileUrl then
      Except.error "Could not find column for Profile URL"
    else if sheet.rows.length = 0 then Except.ok []
    else
      Except.ok
        ((((sheet.rows.filter (fun row => !(row.rawData.length = 0))).map
          (rowProfile sheet.headerValues mapping)).filter (validProfile lower)).map
          (fun profile => { profile with status := strOr profile.status "pending" }))

/-- `getProfileLinks()` on a sheet whose headers and status cells are texts of
ASCII characters. -/
def getProfileLinks (sheet : Sheet) : Except String (List TargetProfile) :=
  getProfileLinksWith toLowerCase sheet

/-! ### The pending targets, in the words of the specification -/

/-- The accepted names of the profile-URL column. -/
def urlNames : List String :=
  ["profileurl", "profile_url", "profile url", "url", "linkedin url", "linkedin_url",
   "linkedinurl", "linkedin profile"]

/-- The accepted names of the status column. -/
def statusNames : List String :=
  ["status", "state", "profile_status", "profilestatus"]

/-- The accepted names of the phone column. -/
def phoneNames : List String :=
  ["phone_number", "phone", "phonenumber", "phone number", "contact", "contact_number",
   "mobile", "mobile_number"]

/-- A header is accepted for a column when its text, lower-cased and trimmed,
is one of the column's names. -/
def accepted (lower : String → String) (names : List String) (header : String) : Bool :=
  names.contains (jsTrim (lower header))

/-- The position of the recognised column: the first header that is accepted
under one of the names, if there is one. -/
def columnOf (lower : String → String) (names : List String) : List String → Option Nat
  | [] => none
  | header :: headers =>
    if accepted lower names header then some 0
    else
      match columnOf lower names headers with
      | some i => some (i + 1)
      | none => none

/-- The cell of a row in a column, if the column exists and the row reaches
it. -/
def cellAt (row : SheetRow) (column : Option Nat) : Option String :=
  match column with
  | none => none
  | some i => row.rawData.get? i

/-- The reference test of a pending target: the row is non-empty, it has a
non-empty profile URL, and its status is missing, or blank or `pending` after
lower-casing and trimming. -/
def isPendingTarget (lower : String → String) (sheet : Sheet) (row : SheetRow) : Bool :=
  row.rawData ≠ [] &&
    nonEmpty (cellAt row (columnOf lower urlNames sheet.headerValues)) &&
    (match cellAt row (columnOf lower statusNames sheet.headerValues) with
     | none => true
     | some s => s = "" || jsTrim (lower s) = "" || jsTrim (lower s) = "pending")

/-- The reference profile of a row: its URL cell, its status cell (`pending`
when that is missing or empty) and its phone cell (the empty text when that is
missing). -/
def targetOf (lower : String → String) (sheet : Sheet) (row : SheetRow) : TargetProfile :=
  { profileUrl := cellAt row (columnOf lower urlNames sheet.headerValues)
    status :=
      (match cellAt row (columnOf lower statusNames sheet.headerValues) with
       | none => "pending"
       | some s => if s = "" then "pending" else s)
    phone_number :=
      (match cellAt row (columnOf lower phoneNames sheet.headerValues) with
       | none => ""
       | some s => s) }

/-- The reference result of reading the pending targets: the pending rows in
row order, each as its reference profile. -/
def pendingTargetsRef (lower : String → String) (sheet : Sheet) : List TargetProfile :=
  (sheet.rows.filter (isPendingTarget lower sheet)).map (targetOf lower sheet)

/-! ## The messaging campaign (`src/app_fixed.js`) -/

/-- The property read `profile[key]` on a profile object of `getProfileLinks`:
the object has the keys `profileUrl`, `status` and `phone_number` and no
other. -/
def TargetProfile.prop (p : TargetProfile) (key : String) : Option String :=
  if key = "profileUrl" then p.profileUrl
  else if key = "status" then some p.status
  else if key = "phone_number" then some p.phone_number
  else none

/-- The calls `runCampaign` makes on the browser flow, the workflow service
and the sheet service, with their arguments. -/
inductive Call where
  | automatedMessageFlow (profileUrl : Option String)
  | triggerPhoneContact (profile : TargetProfile)
  | notifyMessageSent (profile : TargetProfile)
  | updateProfileStatus (profileUrl : Option String) (status : String)
  deriving DecidableEq, Repr

/-- What the environment answers to those calls. `automatedMessageFlow` returns
`true` at its end and throws at every failure (navigation, message button,
message box, send button, confirmation); the other three resolve or throw. -/
structure ContactEnv where
  automatedMessageFlow : Option String → Except String Unit
  triggerPhoneContact : TargetProfile → Except String Unit
  notifyMessageSent : TargetProfile → Except String Unit
  updateProfileStatus : Option String → String → Except String Unit

/-- The local state of `runCampaign`, with the calls made so far. -/
structure RunState where
  successCount : Nat := 0
  failureCount : Nat := 0
  calls : List Call := []
  deriving DecidableEq, Repr

namespace LinkedInMessenger

/-- The `catch` block of `handlePhoneContact`. -/
def phoneContactFailed (env : ContactEnv) (st : RunState) (profileData : TargetProfile) :
    Except String Bool × RunState :=
  let url := profileData.prop "Profile URL"
  let st1 := { st with calls := st.calls ++ [Call.updateProfileStatus url "failed"] }
  match env.updateProfileStatus url "failed" with
  | Except.error e => (Except.error e, st1)
  | Except.ok _ => (Except.ok false, st1)

/-- `handlePhoneContact(profileData)`. -/
def handlePhoneContact (env : ContactEnv) (st : RunState) (profileData : TargetProfile) :
    Except String Bool × RunState :=
  let st1 := { st with calls := st.calls ++ [Call.triggerPhoneContact profileData] }
  match env.triggerPhoneContact profileData with
  | Except.error _ => phoneContactFailed env st1 profileData
  | Except.ok _ =>
    let url := profileData.prop "profileUrl"
    let st2 :=
      { st1 with calls := st1.calls ++ [Call.updateProfileStatus url "phone_contact_triggered"] }
    match env.updateProfileStatus url "phone_contact_triggered" with
    | Except.error _ => phoneContactFailed env st2 profileData
    | Except.ok _ => (Except.ok true, st2)

/-- The `else` branch of the routing in `runCampaign`: the message flow and,
after it returned `true`, the notification. -/
def messageContact (env : ContactEnv) (st : RunState) (profile : TargetProfile) :
    Except String Bool × RunState :=
  let url := profile.prop "Profile URL"
  let st1 := { st with calls := st.calls ++ [Call.automatedMessageFlow url] }
  match env.automatedMessageFlow url with
  | Except.error e => (Except.error e, st1)
  | Except.ok _ =>
    let st2 := { st1 with calls := st1.calls ++ [Call.notifyMessageSent profile] }
    match env.notifyMessageSent profile with
    | Except.error e => (Except.error e, st2)
    | Except.ok _ => (Except.ok true, st2)

/-- The test `profile['phone_number'] && profile['phone_number'].trim() !== ''`. -/
def hasPhoneNumber (profile : TargetProfile) : Bool :=
  match profile.prop "phone_number" with
  | some s => s ≠ "" && jsTrim s ≠ ""
  | none => false

/-- The `for` loop of `runCampaign` over the profiles still to process (the
waiting between profiles is left out). -/
def contactLoop (env : ContactEnv) (maxMessagesPerDay : Nat) :
    List TargetProfile → RunState → Except String Unit × RunState
  | [], st => (Except.ok (), st)
  | profile :: rest, st =>
    if st.successCount ≥ maxMessagesPerDay then (Except.ok (), st)
    else
      match (if hasPhoneNumber profile then handlePhoneContact env st profile
             else messageContact env st profile) with
      | (Except.error e, st1) => (Except.error e, st1)
      | (Except.ok ok, st1) =>
        let url := profile.prop "Profile URL"
        let st2 : RunState :=
          if ok then
            { st1 with
              successCount := st1.successCount + 1
              calls := st1.calls ++ [Call.updateProfileStatus url "completed"] }
          else
            { st1 with
              failureCount := st1.failureCount + 1
              calls := st1.calls ++ [Call.updateProfileStatus url "failed"] }
        match env.updateProfileStatus url (if ok then "completed" else "failed") with
        | Except.error e => (Except.error e, st2)
        | Except.ok _ => contactLoop env maxMessagesPerDay rest st2

/-- `runCampaign()` after `init()` and `login()` succeeded, on the sheet the
service reads: the thrown error, if any, and the counters and calls. -/
def runCampaign (env : ContactEnv) (maxMessagesPerDay : Nat) (sheet : Sheet) :
    Except String Unit × RunState :=
  match getProfileLinks sheet with
  | Except.error e => (Except.error e, {})
  | Except.ok profiles => contactLoop env maxMessagesPerDay profiles {}

end LinkedInMessenger

/-! ## The message endpoint (`src/server.js`) -/

/-- What can happen next at the endpoint `POST /api/message`. A request
arrives and its handler runs until it first waits or ends (`validBody` tells
whether the body has both `profileUrl` and `message`); or a promise some
handler waits for settles: `createNewMessengerSession()` resolves or rejects,
`automatedMessageFlow` resolves with `true` or throws, `browser.close()` in
`cleanupSession` settles. -/
inductive ServerEvent where
  | request (id : Nat) (validBody : Bool)
  | sessionCreated (id : Nat)
  | sessionFailed (id : Nat)
  | flowDone (id : Nat) (success : Bool)
  | closed (id : Nat)
  deriving DecidableEq, Repr

/-- The state of the endpoint: the module variable `isMessaging`, the requests
waiting for their session, the requests whose messenger session exists (from
the moment `createNewMessengerSession()` resolved until its browser is closed),
the requests waiting for the message flow, the requests waiting for
`browser.close()`, and the responses sent (request and status code). -/
structure MessageServer where
  isMessaging : Bool := false
  creating : List Nat := []
  sessions : List Nat := []
  flowing : List Nat := []
  closing : List Nat := []
  responses : List (Nat × Nat) := []
  deriving DecidableEq, Repr

namespace MessageServer

/-- One event at the endpoint. Every exit of the handler passes through its
`finally` block, which ends with `isMessaging = false`. -/
def step (sv : MessageServer) : ServerEvent → MessageServer
  | ServerEvent.request id validBody =>
    if sv.isMessaging then
      { sv with responses := sv.responses ++ [(id, 429)], isMessaging := false }
    else if !validBody then
      { sv with responses := sv.responses ++ [(id, 400)], isMessaging := false }
    else
      { sv with isMessaging := true, creating := sv.creating ++ [id] }
  | ServerEvent.sessionCreated id =>
    if id ∈ sv.creating then
      { sv with
        creating := sv.creating.erase id
        sessions := sv.sessions ++ [id]
        flowing := sv.flowing ++ [id] }
    else sv
  | ServerEvent.sessionFailed id =>
    if id ∈ sv.creating then
      { sv with
        creating := sv.creating.erase id
        responses := sv.responses ++ [(id, 500)]
        isMessaging := false }
    else sv
  | ServerEvent.flowDone id success =>
    if id ∈ sv.flowing then
      { sv with
        flowing := sv.flowing.erase id
        responses := sv.responses ++ [(id, if success then 200 else 500)]
        closing := sv.closing ++ [id] }
    else sv
  | ServerEvent.closed id =>
    if id ∈ sv.closing then
      { sv with
        closing := sv.closing.erase id
        sessions := sv.sessions.erase id
        isMessaging := false }
    else sv

/-- The endpoint after a sequence of events, from the state at start-up. -/
def run (events : List ServerEvent) : MessageServer :=
  events.foldl step {}

end MessageServer

/-! ## Concrete inputs -/

/-- A first-sighting record whose `additionalEmails` repeats an entry and whose
`additionalPhones` is missing. -/
def ann : Profile :=
  { name := some "Ann Lee", title := some "CTO", location := some "Oslo",
    experience := some (JsText.arr []), education := some [], skills := some [], about := some "",
    email := some "", phone := none,
    additionalEmails := some ["ann@x.io", "ann@x.io"], additionalPhones := none }

/-- A record whose name contains the separator of the key template. -/
def annPipe : Profile :=
  { name := some "Ann|Lee", title := some "CTO", location := some "Oslo",
    experience := none, education := none, skills := none, about := none,
    email := none, phone := none, additionalEmails := none, additionalPhones := none }

/-- A different record with the same key as `annPipe`. -/
def annLeePipe : Profile :=
  { annPipe with name := some "Ann", title := some "Lee|CTO" }

/-- The record `ann` in another letter case. -/
def annUpper : Profile :=
  { ann with name := some "ANN LEE", title := some "cto", location := some "OSLO" }

/-- A page without any warning element. -/
def quietPage : PageElements :=
  { unusual_activity := false, verification_needed := false, captcha := false,
    rate_limit := false, account_restriction := false }

/-- A page showing the captcha input and nothing else. -/
def captchaPage : PageElements :=
  { quietPage with captcha := true }

/-- A proxy environment in which `anonymizeProxy` rejects. -/
def noProxy : ProxyEnv :=
  { rand := 0, anonymize := fun _ => none }

/-- A well-formed profile of the person called `n`. -/
def person (n : String) : Profile :=
  { name := some n, title := some "Engineer", location := some "Oslo",
    experience := some (JsText.arr []), education := some [], skills := some [],
    about := some "", email := some "", phone := some "",
    additionalEmails := some [], additionalPhones := some [] }

/-- What the page evaluation returns on the profile page of the person `n`. -/
def fieldsOf (n : String) : ScrapedFields :=
  { name := n, title := "Engineer", location := "Oslo", experience := [], education := [],
    skills := [], about := "" }

/-- Text libraries that find no address and no number in any text. -/
def quietTools : TextTools :=
  { matchEmails := fun _ => []
    isEmail := fun _ => false
    matchPhones := fun _ => []
    formatPhoneNumber := fun _ => none }

/-- An attempt on the profile page of `n`: the navigation resolves, the page
shows no warning, the contact page has no entry, and both writes would
succeed. -/
def okAttempt (n : String) : Attempt :=
  { gotoOk := true, elements := quietPage, fields := fieldsOf n,
    contact := Except.ok (none, none), tools := quietTools,
    now := "2024-01-01T00:00:00.000Z", remoteOk := true, backupOk := true, proxy := noProxy,
    breakRand := 1 / 2 }

/-- An attempt whose page shows the captcha input. -/
def captchaAttempt : Attempt :=
  { okAttempt "Cy" with elements := captchaPage }

/-- An attempt in which `page.goto` rejects. -/
def failAttempt : Attempt :=
  { okAttempt "Di" with gotoOk := false }

/-- Six URLs: the navigation fails for the odd ones and resolves for the even
ones. -/
def scattered : List (String × Attempt) :=
  [("u1", failAttempt), ("u2", okAttempt "Bo"), ("u3", failAttempt), ("u4", okAttempt "Ed"),
   ("u5", failAttempt), ("u6", okAttempt "Flo")]

/-- The scraper after a first call of `scrapeProfiles` on the profile page of
`Ann`. -/
def afterAnn : LinkedInScraper :=
  (LinkedInScraper.scrapeProfiles config {} [("u1", okAttempt "Ann")] true true).2.1

/-- Four URLs whose navigation resolves. -/
def fourUrls : List (String × Attempt) :=
  [("u1", okAttempt "Ann"), ("u2", okAttempt "Bo"), ("u3", captchaAttempt),
   ("u4", okAttempt "Ed")]

/-- An environment for one lease, at clock value `now`. -/
def leaseEnv (now : Nat) : LeaseEnv :=
  { now := now, proxy := noProxy, uaRand := 0, vpRand := 0 }

/-- An environment of `runCampaign` in which every step succeeds; the clock
reads `now`. -/
def calmRun (now : Nat) : RunEnv :=
  { now := now, save1 := true, next := Except.ok (now + 60), save2 := true,
    accountSave := true, save3 := true, postOk := fun _ => true }

/-- An active account that has used up its daily quota of 5. -/
def spentAccount : Account :=
  { id := "acc-1", email := "a@x.io", status := "active", lastUsed := none, dailyQuota := 5,
    usedQuota := 5, errorCount := 0, cookieData := "" }

/-- The input of a campaign with two targets. -/
def twoTargets : CampaignData :=
  { name := "Spring", schedule := "0 9 * * *", accountId := "acc-1",
    targetList := some ["https://example.com/in/a", "https://example.com/in/b"],
    config := none }

/-- A manager constructed on a database file that holds the account
`spentAccount` and no campaign. -/
def oneAccount : CampaignManager :=
  { accounts := [spentAccount] }

/-- An active campaign with two targets, on the account `acc-1`. -/
def spring : Campaign :=
  { id := "c-1", name := "Spring", status := "active", schedule := "0 9 * * *",
    accountId := "acc-1",
    targetList := ["https://example.com/in/a", "https://example.com/in/b"],
    totalProfiles := 2, processedProfiles := 0, successfulProfiles := 0, failedProfiles := 0,
    lastRun := none, nextRun := none, config := "" }

/-- A manager constructed on a database file that holds the account
`spentAccount` and the active campaign `spring`. -/
def withSpring : CampaignManager :=
  { oneAccount with campaigns := [spring] }

/-- An active campaign with an empty target list: none of its targets is
pending. -/
def emptyCampaign : Campaign :=
  { spring with id := "c-0", name := "Empty", targetList := [], totalProfiles := 0 }

/-- A manager constructed on a database file that holds the account
`spentAccount` and the campaign `emptyCampaign`. -/
def withEmpty : CampaignManager :=
  { oneAccount with campaigns := [emptyCampaign] }

/-- A scheduler that accepts every expression. -/
def anyCron : String → Bool :=
  fun _ => true

/-- A worker manager whose campaign manager is `oneAccount`; its queue is
empty. -/
def idlePool : WorkerManager :=
  { campaignManager := oneAccount }

/-- A pool of two workers (a machine with two CPUs) whose queue monitor counts
two workers. -/
def twoWorkers : WorkerManager :=
  { (WorkerManager.initializeMaster config {} 2).2 with metrics := { activeWorkers := 2 } }

/-- A pool of three workers whose queue monitor counts three workers. -/
def threeWorkers : WorkerManager :=
  { (WorkerManager.initializeMaster config {} 3).2 with metrics := { activeWorkers := 3 } }

/-- A sheets manager holding 99 pending rows, one short of the batch size. -/
def fullBatch : SheetsManager :=
  { pendingWrites := List.replicate 99 ["row"] }

/-- The answers of the text libraries on the texts used below: `EMAIL_REGEX`
finds `ann@x.io` in `mail ann@x.io` and nothing in the empty text,
`validator.isEmail` accepts `ann@x.io`, and `PHONE_REGEX` finds nothing. -/
def mailTools : TextTools :=
  { matchEmails := fun t => if t = "mail ann@x.io" then ["ann@x.io"] else []
    isEmail := fun e => e = "ann@x.io"
    matchPhones := fun _ => []
    formatPhoneNumber := fun _ => none }

/-- A profile without an email of its own whose `about` text contains an
address; `experience` is missing. -/
def mailInAbout : Profile :=
  { person "Ann" with experience := none, about := some "mail ann@x.io" }

/-- Five events at the message endpoint: request 1 arrives and its session is
created; request 2 arrives while request 1 is being processed; then request 3
arrives and its session is created. -/
def overlap : List ServerEvent :=
  [ServerEvent.request 1 true, ServerEvent.sessionCreated 1, ServerEvent.request 2 true,
   ServerEvent.request 3 true, ServerEvent.sessionCreated 3]

/-- A sheet with the header row `Profile URL`, `Status`, `Phone` and six rows:
two pending rows without phone, an empty row, a completed row, a row without
URL, and a pending row with a phone number. -/
def targets : Sheet :=
  { headerValues := ["Profile URL", "Status", "Phone"]
    rows :=
      [⟨["https://www.linkedin.com/in/ann", "", ""]⟩,
       ⟨["https://www.linkedin.com/in/bo", " Pending "]⟩,
       ⟨[]⟩,
       ⟨["https://www.linkedin.com/in/cy", "completed", "555 0100"]⟩,
       ⟨["", "pending"]⟩,
       ⟨["https://www.linkedin.com/in/di", "pending", "555 0101"]⟩] }

/-- The profile object of the first row of `targets`. -/
def annTarget : TargetProfile :=
  { profileUrl := some "https://www.linkedin.com/in/ann", status := "pending", phone_number := "" }

/-- The profile object of the second row of `targets`. -/
def boTarget : TargetProfile :=
  { profileUrl := some "https://www.linkedin.com/in/bo", status := " Pending ", phone_number := "" }

/-- The profile object of the last row of `targets`. -/
def diTarget : TargetProfile :=
  { profileUrl := some "https://www.linkedin.com/in/di", status := "pending",
    phone_number := "555 0101" }

/-- An environment in which `automatedMessageFlow` cannot find the message
button, whatever the profile, and every other call succeeds. -/
def flowFails : ContactEnv :=
  { automatedMessageFlow := fun _ => Except.error "Could not find or click message button"
    triggerPhoneContact := fun _ => Except.ok ()
    notifyMessageSent := fun _ => Except.ok ()
    updateProfileStatus := fun _ _ => Except.ok () }

/-- An environment in which every call succeeds. -/
def allWorks : ContactEnv :=
  { flowFails with automatedMessageFlow := fun _ => Except.ok () }

/-! # Theorems -/

/-! ## Helper lemmas: sets, maps, lower-casing -/

theorem jsOr_self (a : Option String) : jsOr a a = a := by
  cases a with
  | none => rfl
  | some s =>
    by_cases h : s = ""
    · simp [jsOr, h]
    · simp [jsOr, h]

theorem foldl_setAdd_absorb (xs acc : List String) (h : ∀ x ∈ xs, x ∈ acc) :
    xs.foldl setAdd acc = acc := by
  induction xs generalizing acc with
  | nil => rfl
  | cons x xs ih =>
    have hx : x ∈ acc := h x (List.mem_cons_self x xs)
    simp only [List.foldl_cons, setAdd, hx, if_true]
    exact ih acc (fun y hy => h y (List.mem_cons_of_mem x hy))

theorem foldl_setAdd_nodup (xs acc : List String) (h : (acc ++ xs).Nodup) :
    xs.foldl setAdd acc = acc ++ xs := by
  induction xs generalizing acc with
  | nil => simp
  | cons x xs ih =>
    have hx : x ∉ acc := by
      intro hmem
      have := List.nodup_append.mp h
      exact this.2.2 hmem (List.mem_cons_self x xs) 
    simp only [List.foldl_cons, setAdd, hx, if_false]
    rw [ih (acc ++ [x]) (by simpa using h)]
    simp

theorem foldl_setAdd_keeps_nodup (xs acc : List String) (h : acc.Nodup) :
    (xs.foldl setAdd acc).Nodup := by
  induction xs generalizing acc with
  | nil => simpa using h
  | cons x xs ih =>
    simp only [List.foldl_cons]
    apply ih
    unfold setAdd
    split
    · exact h
    · rename_i hx
      rw [List.nodup_append]
      refine ⟨h, List.nodup_singleton x, ?_⟩
      intro a ha hb
      simp at hb
      subst hb
      exact hx ha

theorem setSpread_nodup (xs : List String) : (setSpread xs).Nodup :=
  foldl_setAdd_keeps_nodup xs [] List.nodup_nil

theorem setSpread_of_nodup (l : List String) (h : l.Nodup) : setSpread l = l := by
  have := foldl_setAdd_nodup l [] (by simpa using h)
  simpa [setSpread] using this

theorem setSpread_append_self (l : List String) (h : l.Nodup) : setSpread (l ++ l) = l := by
  unfold setSpread
  rw [List.foldl_append]
  have h1 : l.foldl setAdd [] = l := setSpread_of_nodup l h
  rw [h1]
  exact foldl_setAdd_absorb l l (fun _ hx => hx)

theorem mapGet_mapSet_same (m : List (String × Profile)) (k : String) (v : Profile) :
    mapGet (mapSet m k v) k = some v := by
  induction m with
  | nil => simp [mapSet, mapGet]
  | cons e m ih =>
    obtain ⟨k', v'⟩ := e
    by_cases h : k' = k
    · simp [mapSet, mapGet, h]
    · simp [mapSet, mapGet, h, ih]

theorem mapGet_mapSet_other (m : List (String × Profile)) (k k2 : String) (v : Profile)
    (hne : k ≠ k2) : mapGet (mapSet m k v) k2 = mapGet m k2 := by
  induction m with
  | nil => simp [mapSet, mapGet, hne]
  | cons e m ih =>
    obtain ⟨k', v'⟩ := e
    by_cases h : k' = k
    · subst h
      simp [mapSet, mapGet, hne]
    · by_cases h2 : k' = k2
      · subst h2
        simp [mapSet, mapGet, h]
      · simp [mapSet, mapGet, h, h2, ih]

theorem mapSet_mapSet_same (m : List (String × Profile)) (k : String) (v w : Profile) :
    mapSet (mapSet m k v) k w = mapSet m k w := by
  induction m with
  | nil => simp [mapSet]
  | cons e m ih =>
    obtain ⟨k', v'⟩ := e
    by_cases h : k' = k
    · simp [mapSet, h]
    · simp [mapSet, h, ih]

theorem toLower_eq_pipe (c : Char) : c.toLower = '|' ↔ c = '|' := by
  constructor
  · intro h
    unfold Char.toLower at h
    by_cases hc : c.toNat ≥ 65 ∧ c.toNat ≤ 90
    · simp only [hc, and_self, if_true] at h
      obtain ⟨h1, h2⟩ := hc
      generalize c.toNat = n at h h1 h2
      exfalso
      interval_cases n <;> revert h <;> decide
    · simpa [hc] using h
  · intro h
    subst h
    decide

theorem split_at_sep {α : Type} (x : α) (l1 l2 r1 r2 : List α) (h1 : x ∉ l1) (h2 : x ∉ l2)
    (h : l1 ++ x :: r1 = l2 ++ x :: r2) : l1 = l2 ∧ r1 = r2 := by
  induction l1 generalizing l2 with
  | nil =>
    cases l2 with
    | nil => simpa using h
    | cons b l2 =>
      simp at h
      exact absurd (h.1 ▸ List.mem_cons_self b l2) h2
  | cons a l1 ih =>
    cases l2 with
    | nil =>
      simp at h
      exact absurd (h.1 ▸ List.mem_cons_self a l1) h1
    | cons b l2 =>
      simp at h
      obtain ⟨hab, ht⟩ := h
      have := ih l2 (fun hm => h1 (List.mem_cons_of_mem a hm)) (fun hm => h2 (List.mem_cons_of_mem b hm)) ht
      exact ⟨by rw [hab, this.1], this.2⟩

theorem pipe_mem_lower (l : List Char) : '|' ∈ l.map Char.toLower ↔ '|' ∈ l := by
  simp only [List.mem_map]
  constructor
  · rintro ⟨c, hc, h⟩
    rw [(toLower_eq_pipe c).mp h] at hc
    exact hc
  · intro h
    exact ⟨'|', h, by decide⟩

theorem toLowerCase_data (s : String) : (toLowerCase s).data = s.data.map Char.toLower := rfl

theorem generateKey_data (p : Profile) :
    (ProfileDeduplicator.generateKey p).data =
      (tpl p.name).data.map Char.toLower ++ '|' ::
        ((tpl p.title).data.map Char.toLower ++ '|' :: (tpl p.location).data.map Char.toLower) := by
  simp [ProfileDeduplicator.generateKey, toLowerCase, String.data_append, List.map_append]

/-! ## Deduplicator -/

section Deduplicator

open ProfileDeduplicator

theorem wellKeyed_get (d : ProfileDeduplicator) (h : d.wellKeyed = true) (k : String) (v : Profile)
    (hg : mapGet d.profiles k = some v) : generateKey v = k := by
  obtain ⟨m⟩ := d
  simp only [wellKeyed] at h
  simp only at hg
  induction m with
  | nil => simp [mapGet] at hg
  | cons e m ih =>
    obtain ⟨k', v'⟩ := e
    simp only [List.all_cons, Bool.and_eq_true, beq_iff_eq] at h
    by_cases hk : k' = k
    · simp [mapGet, hk] at hg
      rw [← hg, ← hk]
      exact h.1
    · simp [mapGet, hk] at hg
      exact ih h.2 hg

theorem merged_key (e r : Profile) : generateKey (merged e r) = generateKey e := rfl

theorem merged_self_of_normal (m : Profile) (h : normalLists m = true) : merged m m = m := by
  obtain ⟨n, t, l, ex, ed, sk, ab, em, ph, ae, ap⟩ := m
  cases ae with
  | none => simp [normalLists] at h
  | some es =>
    cases ap with
    | none => simp [normalLists] at h
    | some ps =>
      simp only [normalLists, Bool.and_eq_true, decide_eq_true_eq] at h
      simp [merged, jsOr_self, orEmpty, setSpread_append_self, h.1, h.2]

theorem merged_normal (e r : Profile) : normalLists (merged e r) = true := by
  simp [normalLists, merged, setSpread_nodup]

theorem mergeProfile_self_of_normal (d : ProfileDeduplicator) (m : Profile) (k : String)
    (hk : generateKey m = k) (hn : normalLists m = true)
    (hs : mapGet d.profiles k = some m) :
    mergeProfile d m = (m, ⟨mapSet d.profiles k m⟩) := by
  unfold mergeProfile
  simp only [hk, hs, merged_self_of_normal m hn]

theorem wellKeyed_new : ProfileDeduplicator.new.wellKeyed = true := rfl

theorem all_mapSet (m : List (String × Profile)) (k : String) (v : Profile)
    (hm : m.all (fun e => generateKey e.2 == e.1) = true) (hv : generateKey v = k) :
    (mapSet m k v).all (fun e => generateKey e.2 == e.1) = true := by
  induction m with
  | nil => simp [mapSet, hv]
  | cons e m ih =>
    obtain ⟨k1, v1⟩ := e
    simp only [List.all_cons, Bool.and_eq_true, beq_iff_eq] at hm
    by_cases h : k1 = k
    · simp [mapSet, h, hv]
      simpa using hm.2
    · simp only [mapSet, h, if_false, List.all_cons, Bool.and_eq_true, beq_iff_eq]
      exact ⟨hm.1, ih hm.2⟩

theorem wellKeyed_addProfile (d : ProfileDeduplicator) (r : Profile)
    (h : d.wellKeyed = true) : (d.addProfile r).2.wellKeyed = true := by
  unfold addProfile
  by_cases hh : mapHas d.profiles (generateKey r) = true
  · simpa [hh] using h
  · simp only [hh, not_false_eq_true, if_true]
    exact all_mapSet _ _ _ h rfl

theorem wellKeyed_mergeProfile (d : ProfileDeduplicator) (r : Profile)
    (h : d.wellKeyed = true) : (d.mergeProfile r).2.wellKeyed = true := by
  cases hg : mapGet d.profiles (generateKey r) with
  | none =>
    simp only [mergeProfile, hg]
    exact all_mapSet _ _ _ h rfl
  | some e =>
    simp only [mergeProfile, hg]
    exact all_mapSet _ _ _ h (by rw [merged_key]; exact wellKeyed_get d h _ _ hg)

theorem foldl_setAdd_eq (xs acc : List String) :
    xs.foldl setAdd acc = acc ++ (keepFirst xs).filter (fun y => y ∉ acc) := by
  induction xs generalizing acc with
  | nil => simp [keepFirst]
  | cons x xs ih =>
    simp only [List.foldl_cons, keepFirst]
    by_cases hx : x ∈ acc
    · simp only [setAdd, hx, if_true]
      rw [ih acc, List.filter_cons]
      simp only [hx, not_true_eq_false, decide_False, Bool.false_eq_true, if_false,
        List.filter_filter]
      congr 1
      apply List.filter_congr
      intro y _
      by_cases hy : y ∈ acc
      · simp [hy]
      · have : y ≠ x := fun h => hy (h ▸ hx)
        simp [hy, this]
    · simp only [setAdd, hx, if_false]
      rw [ih (acc ++ [x]), List.filter_cons]
      simp only [hx, not_false_eq_true, decide_True, if_true, List.filter_filter,
        List.append_assoc, List.singleton_append]
      congr 2
      apply List.filter_congr
      intro y _
      by_cases hy : y ∈ acc
      · simp [hy]
      · by_cases hyx : y = x
        · simp [hyx]
        · simp [hy, hyx]

theorem setSpread_eq_keepFirst (xs : List String) : setSpread xs = keepFirst xs := by
  have := foldl_setAdd_eq xs []
  simpa [setSpread] using this

theorem jsOr_eq (n e : Option String) : jsOr n e = if nonEmpty n then n else e := by
  cases n with
  | none => simp [jsOr, nonEmpty]
  | some s =>
    by_cases h : s = ""
    · simp [jsOr, nonEmpty, h]
    · simp [jsOr, nonEmpty, h]

theorem orEmpty_eq (xs : Option (List String)) : orEmpty xs = xs.getD [] := by
  cases xs <;> rfl

theorem merged_eq_ref (e r : Profile) :
    merged e r =
      { name := e.name, title := e.title, location := e.location, experience := e.experience,
        education := e.education, skills := e.skills, about := e.about,
        email := if nonEmpty r.email then r.email else e.email
        phone := if nonEmpty r.phone then r.phone else e.phone
        additionalEmails := some (unionRef e.additionalEmails r.additionalEmails)
        additionalPhones := some (unionRef e.additionalPhones r.additionalPhones) } := by
  simp [merged, unionRef, setSpread_eq_keepFirst, jsOr_eq, orEmpty_eq]

theorem noSeparator_iff (t : String) : noSeparator t = true ↔ '|' ∉ t.data := by
  simp [noSeparator]

/-- C1 (amended): `mergeProfile` is idempotent on every deduplicator in which
each record is stored under its own key (the states the class's methods
produce) when the record's key is already stored (repeat sighting), and on
first sighting when the record's `additionalEmails` and `additionalPhones` are
both present and free of repeated entries: merging the returned record again
returns the same record and leaves the same value stored under the record's
key. -/
theorem mergeProfile_idempotent (d : ProfileDeduplicator) (r : Profile)
    (hk : d.wellKeyed = true)
    (hr : d.isDuplicate r = true ∨ normalLists r = true) :
    (mergeProfile (mergeProfile d r).2 (mergeProfile d r).1).1 = (mergeProfile d r).1 ∧
    (mergeProfile (mergeProfile d r).2 (mergeProfile d r).1).2.stored r
      = (mergeProfile d r).2.stored r := by
  cases hg : mapGet d.profiles (generateKey r) with
  | some e =>
    have hke : generateKey e = generateKey r := wellKeyed_get d hk _ _ hg
    have h1 : mergeProfile d r = (merged e r, ⟨mapSet d.profiles (generateKey r) (merged e r)⟩) := by
      simp [mergeProfile, hg]
    rw [h1]
    have h2 := mergeProfile_self_of_normal ⟨mapSet d.profiles (generateKey r) (merged e r)⟩
      (merged e r) (generateKey r) (by rw [merged_key, hke]) (merged_normal e r)
      (mapGet_mapSet_same _ _ _)
    simp only at h2 ⊢
    rw [h2]
    simp [stored, mapGet_mapSet_same]
  | none =>
    have hn : normalLists r = true := by
      rcases hr with hr | hr
      · simp [isDuplicate, mapHas, hg] at hr
      · exact hr
    have h1 : mergeProfile d r = (r, ⟨mapSet d.profiles (generateKey r) r⟩) := by
      simp [mergeProfile, hg]
    rw [h1]
    have h2 := mergeProfile_self_of_normal ⟨mapSet d.profiles (generateKey r) r⟩
      r (generateKey r) rfl hn (mapGet_mapSet_same _ _ _)
    simp only at h2 ⊢
    rw [h2]
    simp [stored, mapGet_mapSet_same]

/-- C1 (amended), at a repeat sighting: the theorem applied to the deduplicator
that has seen `ann` once, and to `ann` again. -/
theorem mergeProfile_idempotent_witness :
    (mergeProfile ProfileDeduplicator.new ann).2.wellKeyed = true ∧
    ((mergeProfile ProfileDeduplicator.new ann).2.isDuplicate ann = true ∨
      normalLists ann = true) ∧
    (mergeProfile (mergeProfile (mergeProfile ProfileDeduplicator.new ann).2 ann).2
        (mergeProfile (mergeProfile ProfileDeduplicator.new ann).2 ann).1).1
      = (mergeProfile (mergeProfile ProfileDeduplicator.new ann).2 ann).1 ∧
    (mergeProfile (mergeProfile (mergeProfile ProfileDeduplicator.new ann).2 ann).2
        (mergeProfile (mergeProfile ProfileDeduplicator.new ann).2 ann).1).2.stored ann
      = (mergeProfile (mergeProfile ProfileDeduplicator.new ann).2 ann).2.stored ann :=
  ⟨by decide, Or.inl (by decide),
    mergeProfile_idempotent (mergeProfile ProfileDeduplicator.new ann).2 ann (by decide)
      (Or.inl (by decide))⟩

/-- C1 as stated fails at a first sighting: on the empty deduplicator the
record `ann` (a repeated entry in `additionalEmails`, `additionalPhones`
missing) is stored and returned verbatim by the first call, and the second call
returns and stores a different record. -/
theorem mergeProfile_first_sighting_not_idempotent :
    (mergeProfile (mergeProfile ProfileDeduplicator.new ann).2
        (mergeProfile ProfileDeduplicator.new ann).1).1
      ≠ (mergeProfile ProfileDeduplicator.new ann).1 ∧
    (mergeProfile (mergeProfile ProfileDeduplicator.new ann).2
        (mergeProfile ProfileDeduplicator.new ann).1).2.stored ann
      ≠ (mergeProfile ProfileDeduplicator.new ann).2.stored ann := by
  decide

/-- C2: `mergeProfile` equals the reference upsert `upsertRef` (first sighting:
the record stored and returned verbatim; repeat sighting: the newest non-empty
email and phone, the duplicate-free unions of the supplemental lists with the
existing elements first, every other field the existing one); the returned
record is the one stored under the key, and the record is a duplicate
afterwards. -/
theorem mergeProfile_eq_upsertRef (d : ProfileDeduplicator) (r : Profile) :
    mergeProfile d r = upsertRef d r ∧
    (mergeProfile d r).2.stored r = some (mergeProfile d r).1 ∧
    (mergeProfile d r).2.isDuplicate r = true := by
  cases hg : mapGet d.profiles (generateKey r) with
  | none =>
    simp [mergeProfile, upsertRef, stored, isDuplicate, mapHas, hg, mapGet_mapSet_same]
  | some e =>
    simp [mergeProfile, upsertRef, stored, isDuplicate, mapHas, hg, mapGet_mapSet_same,
      merged_eq_ref]

theorem toLowerCase_lowerCasing : LowerCasing toLowerCase := by
  constructor
  · intro a b
    apply String.ext
    simp [toLowerCase, String.data_append]
  · intro a
    rw [toLowerCase_data]
    exact pipe_mem_lower a.data

theorem generateKey_eq_with (p : Profile) : generateKey p = generateKeyWith toLowerCase p := rfl

theorem generateKeyWith_parts (lower : String → String) (hl : LowerCasing lower) (p : Profile) :
    generateKeyWith lower p
      = lower (tpl p.name) ++ "|" ++ lower (tpl p.title) ++ "|" ++ lower (tpl p.location) := by
  unfold generateKeyWith
  rw [hl.join, hl.join]

theorem parts_data (a b c : String) :
    (a ++ "|" ++ b ++ "|" ++ c).data = a.data ++ '|' :: (b.data ++ '|' :: c.data) := by
  simp [String.data_append]

/-- C3 (amended): with `lower` the lower-casing of the engine, two profiles
whose name, title and location, as printed into the key, agree up to letter
case have the same key; and for profiles whose printed name and title contain
no `|`, two keys are equal exactly when name, title and location agree up to
letter case. -/
theorem generateKey_eq_iff (lower : String → String) (hl : LowerCasing lower) (p q : Profile) :
    ((lower (tpl p.name) = lower (tpl q.name) ∧
        lower (tpl p.title) = lower (tpl q.title) ∧
        lower (tpl p.location) = lower (tpl q.location)) →
      generateKeyWith lower p = generateKeyWith lower q) ∧
    (noSeparator (tpl p.name) = true → noSeparator (tpl p.title) = true →
      noSeparator (tpl q.name) = true → noSeparator (tpl q.title) = true →
      (generateKeyWith lower p = generateKeyWith lower q ↔
        (lower (tpl p.name) = lower (tpl q.name) ∧
         lower (tpl p.title) = lower (tpl q.title) ∧
         lower (tpl p.location) = lower (tpl q.location)))) := by
  have hfwd : (lower (tpl p.name) = lower (tpl q.name) ∧
        lower (tpl p.title) = lower (tpl q.title) ∧
        lower (tpl p.location) = lower (tpl q.location)) →
      generateKeyWith lower p = generateKeyWith lower q := by
    rintro ⟨h1, h2, h3⟩
    rw [generateKeyWith_parts lower hl, generateKeyWith_parts lower hl, h1, h2, h3]
  refine ⟨hfwd, ?_⟩
  intro hpn hpt hqn hqt
  rw [noSeparator_iff] at hpn hpt hqn hqt
  refine ⟨?_, hfwd⟩
  intro h
  rw [generateKeyWith_parts lower hl, generateKeyWith_parts lower hl] at h
  have hd := congrArg String.data h
  rw [parts_data, parts_data] at hd
  have s1 := split_at_sep '|' _ _ _ _
    (by rw [hl.separator]; exact hpn) (by rw [hl.separator]; exact hqn) hd
  have s2 := split_at_sep '|' _ _ _ _
    (by rw [hl.separator]; exact hpt) (by rw [hl.separator]; exact hqt) s1.2
  exact ⟨String.ext s1.1, String.ext s2.1, String.ext s2.2⟩

/-- C3 (amended), applied to the lower-casing of ASCII letters, to `ann` and to
the same record in another letter case: the two keys are equal. -/
theorem generateKey_eq_iff_witness :
    LowerCasing toLowerCase ∧
    generateKeyWith toLowerCase ann = generateKeyWith toLowerCase annUpper ∧
    (generateKeyWith toLowerCase ann = generateKeyWith toLowerCase annUpper ↔
      (toLowerCase (tpl ann.name) = toLowerCase (tpl annUpper.name) ∧
       toLowerCase (tpl ann.title) = toLowerCase (tpl annUpper.title) ∧
       toLowerCase (tpl ann.location) = toLowerCase (tpl annUpper.location))) :=
  ⟨toLowerCase_lowerCasing,
    (generateKey_eq_iff toLowerCase toLowerCase_lowerCasing ann annUpper).1 (by decide),
    (generateKey_eq_iff toLowerCase toLowerCase_lowerCasing ann annUpper).2
      (by decide) (by decide) (by decide) (by decide)⟩

/-- C3 as stated fails: `annPipe` (name `Ann|Lee`, title `CTO`) and
`annLeePipe` (name `Ann`, title `Lee|CTO`) print the same text into the key, so
they have the same key under every lower-casing, although their names differ,
also up to letter case. -/
theorem generateKey_collision :
    (∀ lower : String → String, generateKeyWith lower annPipe = generateKeyWith lower annLeePipe) ∧
    generateKey annPipe = generateKey annLeePipe ∧
    annPipe.name = some "Ann|Lee" ∧ annLeePipe.name = some "Ann" ∧
    toLowerCase (tpl annPipe.name) ≠ toLowerCase (tpl annLeePipe.name) := by
  refine ⟨fun lower => rfl, ?_, ?_, ?_, ?_⟩ <;> decide

end Deduplicator

/-! ## Warning detection -/

theorem detectWarnings_raises (m : ScrapingMetrics) (e : PageElements) :
    detectWarnings m e
      = (Except.error "SyntaxError: 'text=unusual activity' is not a valid selector", m) := by
  rfl

/-- C4, the code at the failing input: on a page without any warning, and on
every other page, the first probe of `detectWarnings`,
`document.querySelector("text=unusual activity")`, throws a `SyntaxError`; the
page evaluation rejects, and `detectWarnings` raises that error before a
counter changes. It does not return normally on the page without warning, and
it raises the same error, not `CAPTCHA detected`, on the page with the captcha
input. -/
theorem detectWarnings_raises_on_every_page (m : ScrapingMetrics) (e : PageElements) :
    querySelector e "text=unusual activity"
      = Except.error "SyntaxError: 'text=unusual activity' is not a valid selector"
    ∧ querySelector e "input#captcha" = Except.ok e.captcha
    ∧ detectedWarnings e
      = Except.error "SyntaxError: 'text=unusual activity' is not a valid selector"
    ∧ detectWarnings m e
      = (Except.error "SyntaxError: 'text=unusual activity' is not a valid selector", m)
    ∧ (detectWarnings m quietPage).1
      = Except.error "SyntaxError: 'text=unusual activity' is not a valid selector"
    ∧ (detectWarnings m captchaPage).1
      = Except.error "SyntaxError: 'text=unusual activity' is not a valid selector" := by
  refine ⟨rfl, ?_, rfl, rfl, rfl, rfl⟩
  simp [querySelector]

/-! ## The scraping loop -/

section ScrapingLoop

open LinkedInScraper

theorem detectWarnings_counters (m : ScrapingMetrics) (e : PageElements) :
    (detectWarnings m e).2.profilesFailed = m.profilesFailed ∧
    (detectWarnings m e).2.profilesScraped = m.profilesScraped := by
  rw [detectWarnings_raises]
  exact ⟨rfl, rfl⟩

/-- `extractProfile` never returns a profile: a failed navigation throws, and
after a navigation `detectWarnings` raises. -/
theorem extractProfile_error (m : ScrapingMetrics) (a : Attempt) :
    extractProfile m a
      = (if a.gotoOk then
          (Except.error "SyntaxError: 'text=unusual activity' is not a valid selector", m, true)
         else (Except.error "navigation failed", m, false)) := by
  unfold extractProfile
  by_cases h : a.gotoOk = true
  · simp [h, detectWarnings_raises]
  · simp [h]

theorem extractProfile_counters (m : ScrapingMetrics) (a : Attempt) :
    (extractProfile m a).2.1.profilesFailed = m.profilesFailed ∧
    (extractProfile m a).2.1.profilesScraped = m.profilesScraped := by
  rw [extractProfile_error]
  split <;> exact ⟨rfl, rfl⟩

/-- The four ways a pass through the loop body can go. -/
theorem iteration_cases (cfg : Config) (s : LinkedInScraper) (n : Nat) (url : String)
    (a : Attempt) :
    ((iteration cfg s n url a).info.outcome = Outcome.skipped ∧
      (iteration cfg s n url a).ctl = Ctl.next ∧
      (iteration cfg s n url a).scraped = n ∧
      (iteration cfg s n url a).scraper.metrics.profilesFailed = s.metrics.profilesFailed ∧
      (iteration cfg s n url a).scraper.metrics.profilesScraped = s.metrics.profilesScraped ∧
      (iteration cfg s n url a).info.rest = none) ∨
    ((iteration cfg s n url a).info.outcome = Outcome.failed ∧
      (iteration cfg s n url a).ctl =
        (if cfg.HEALTH_PAUSE_THRESHOLD ≤ s.metrics.profilesFailed + 1 then Ctl.stopErrors
         else Ctl.next) ∧
      (iteration cfg s n url a).scraped = n ∧
      (iteration cfg s n url a).scraper.metrics.profilesFailed = s.metrics.profilesFailed + 1 ∧
      (iteration cfg s n url a).scraper.metrics.profilesScraped = s.metrics.profilesScraped ∧
      (iteration cfg s n url a).info.rest = none) ∨
    ((iteration cfg s n url a).info.outcome = Outcome.recorded ∧
      (iteration cfg s n url a).ctl =
        (if cfg.MAX_PROFILES_PER_DAY ≤ n + 1 then Ctl.stopQuota else Ctl.next) ∧
      (iteration cfg s n url a).scraped = n + 1 ∧
      (iteration cfg s n url a).scraper.metrics.profilesFailed = s.metrics.profilesFailed ∧
      (iteration cfg s n url a).scraper.metrics.profilesScraped = s.metrics.profilesScraped + 1 ∧
      (iteration cfg s n url a).info.rest =
        (if remIsZero (n + 1) cfg.INITIAL_PROFILE_LIMIT then some (breakTime cfg a.breakRand)
         else none)) ∨
    ((iteration cfg s n url a).info.outcome = Outcome.known ∧
      (iteration cfg s n url a).ctl =
        (if cfg.MAX_PROFILES_PER_DAY ≤ n then Ctl.stopQuota else Ctl.next) ∧
      (iteration cfg s n url a).scraped = n ∧
      (iteration cfg s n url a).scraper.metrics.profilesFailed = s.metrics.profilesFailed ∧
      (iteration cfg s n url a).scraper.metrics.profilesScraped = s.metrics.profilesScraped ∧
      (iteration cfg s n url a).info.rest =
        (if remIsZero n cfg.INITIAL_PROFILE_LIMIT then some (breakTime cfg a.breakRand)
         else none)) := by
  have hc := extractProfile_counters s.metrics a
  by_cases hdu : s.deduplicator.isDuplicate urlAsProfile = true
  · left
    simp [iteration, hdu]
  · right
    rcases he : extractProfile s.metrics a with ⟨res, m1, tr⟩
    rw [he] at hc
    simp only at hc
    cases res with
    | error e =>
      left
      simp [iteration, hdu, he, onError, ScrapingMetrics.logProfileError, hc.1, hc.2]
    | ok profile =>
      by_cases hdp : s.deduplicator.isDuplicate profile = true
      · right; right
        simp [iteration, hdu, he, hdp, afterProfile, hc.1, hc.2]
        constructor <;> split <;> simp [hc.1, hc.2]
      · rcases hap : s.sheetsManager.appendProfile profile a.now a.remoteOk a.backupOk with ⟨ar, sh⟩
        cases ar with
        | error e =>
          left
          simp [iteration, hdu, he, hdp, hap, onError, ScrapingMetrics.logProfileError, hc.1, hc.2]
        | ok u =>
          right; left
          simp [iteration, hdu, he, hdp, hap, afterProfile, ScrapingMetrics.logProfileSuccess,
            hc.1, hc.2]
          constructor <;> split <;> simp [hc.1, hc.2]

theorem iteration_failed_count (cfg : Config) (s : LinkedInScraper) (n : Nat) (url : String)
    (a : Attempt) :
    (iteration cfg s n url a).scraper.metrics.profilesFailed =
      s.metrics.profilesFailed + failures [(iteration cfg s n url a).info] := by
  rcases iteration_cases cfg s n url a with h | h | h | h <;>
    simp [failures, h.1, h.2.2.2.1]

theorem iteration_failed_ctl (cfg : Config) (s : LinkedInScraper) (n : Nat) (url : String)
    (a : Attempt) (hf : (iteration cfg s n url a).info.outcome = Outcome.failed) :
    (iteration cfg s n url a).ctl =
      (if cfg.HEALTH_PAUSE_THRESHOLD ≤ s.metrics.profilesFailed + 1 then Ctl.stopErrors
       else Ctl.next) := by
  rcases iteration_cases cfg s n url a with h | h | h | h
  · rw [h.1] at hf; cases hf
  · exact h.2.1
  · rw [h.1] at hf; cases hf
  · rw [h.1] at hf; cases hf

theorem iteration_stopErrors (cfg : Config) (s : LinkedInScraper) (n : Nat) (url : String)
    (a : Attempt) (hc : (iteration cfg s n url a).ctl = Ctl.stopErrors) :
    (iteration cfg s n url a).info.outcome = Outcome.failed := by
  rcases iteration_cases cfg s n url a with h | h | h | h
  · rw [h.2.1] at hc; cases hc
  · exact h.1
  · rw [h.2.1] at hc; split at hc <;> cases hc
  · rw [h.2.1] at hc; split at hc <;> cases hc

theorem scrapeLoop_nil (cfg : Config) (s : LinkedInScraper) (n : Nat) :
    scrapeLoop cfg [] s n = { scraper := s, scraped := n, stop := none, log := [] } := rfl

theorem scrapeLoop_next (cfg : Config) (url : String) (a : Attempt)
    (jobs : List (String × Attempt)) (s : LinkedInScraper) (n : Nat)
    (h : (iteration cfg s n url a).ctl = Ctl.next) :
    scrapeLoop cfg ((url, a) :: jobs) s n =
      { scrapeLoop cfg jobs (iteration cfg s n url a).scraper (iteration cfg s n url a).scraped with
        log := (iteration cfg s n url a).info ::
          (scrapeLoop cfg jobs (iteration cfg s n url a).scraper
            (iteration cfg s n url a).scraped).log } := by
  simp only [scrapeLoop]
  rw [h]

theorem scrapeLoop_stop (cfg : Config) (url : String) (a : Attempt)
    (jobs : List (String × Attempt)) (s : LinkedInScraper) (n : Nat)
    (h : (iteration cfg s n url a).ctl ≠ Ctl.next) :
    scrapeLoop cfg ((url, a) :: jobs) s n =
      { scraper := (iteration cfg s n url a).scraper
        scraped := (iteration cfg s n url a).scraped
        stop := some (iteration cfg s n url a).ctl
        log := [(iteration cfg s n url a).info] } := by
  simp only [scrapeLoop]

theorem failures_cons (i : StepInfo) (l : List StepInfo) :
    failures (i :: l) = failures [i] + failures l := by
  simp [failures, List.countP_cons]
  omega

/-- One pass through the loop body never gets a profile: the URL is skipped,
or the attempt fails in `extractProfile`; no break is taken and `scraped` keeps
its value. -/
theorem iteration_no_profile (cfg : Config) (s : LinkedInScraper) (n : Nat) (url : String)
    (a : Attempt) :
    ((iteration cfg s n url a).info.outcome = Outcome.skipped ∨
      (iteration cfg s n url a).info.outcome = Outcome.failed) ∧
    (iteration cfg s n url a).info.rest = none ∧
    (iteration cfg s n url a).scraped = n ∧
    (iteration cfg s n url a).scraper.sheetsManager = s.sheetsManager ∧
    (iteration cfg s n url a).scraper.deduplicator = s.deduplicator := by
  by_cases hdu : s.deduplicator.isDuplicate urlAsProfile = true
  · simp [iteration, hdu]
  · by_cases hg : a.gotoOk = true <;>
      simp [iteration, hdu, extractProfile_error, hg, onError]

theorem scrapeLoop_no_profile (cfg : Config) (jobs : List (String × Attempt)) :
    ∀ (s : LinkedInScraper) (n : Nat),
      (∀ i ∈ (scrapeLoop cfg jobs s n).log,
        (i.outcome = Outcome.skipped ∨ i.outcome = Outcome.failed) ∧ i.rest = none) ∧
      (scrapeLoop cfg jobs s n).scraped = n ∧
      (scrapeLoop cfg jobs s n).scraper.sheetsManager = s.sheetsManager ∧
      (scrapeLoop cfg jobs s n).scraper.deduplicator = s.deduplicator := by
  induction jobs with
  | nil =>
    intro s n
    simp [scrapeLoop_nil]
  | cons job jobs ih =>
    intro s n
    obtain ⟨url, a⟩ := job
    obtain ⟨ho, hr, hs, hsh, hd⟩ := iteration_no_profile cfg s n url a
    by_cases hc : (iteration cfg s n url a).ctl = Ctl.next
    · rw [scrapeLoop_next cfg url a jobs s n hc]
      obtain ⟨ih1, ih2, ih3, ih4⟩ :=
        ih (iteration cfg s n url a).scraper (iteration cfg s n url a).scraped
      refine ⟨?_, by simp only; rw [ih2, hs], by simp only; rw [ih3, hsh],
        by simp only; rw [ih4, hd]⟩
      intro i hi
      simp only [List.mem_cons] at hi
      rcases hi with hi | hi
      · rw [hi]; exact ⟨ho, hr⟩
      · exact ih1 i hi
    · rw [scrapeLoop_stop cfg url a jobs s n hc]
      refine ⟨?_, hs, hsh, hd⟩
      intro i hi
      simp only [List.mem_singleton] at hi
      rw [hi]; exact ⟨ho, hr⟩

/-- C5, the code at the failing input: on a new scraper the page of the first
URL shows the captcha input; `detectWarnings` raises there (with the
`SyntaxError` of its first probe), the `catch` block of the loop counts the
attempt as a failure, and the loop goes on to visit the second URL, where
`detectWarnings` raises again. -/
theorem scrapeProfiles_visits_after_raise :
    (detectWarnings {} captchaPage).1
      = Except.error "SyntaxError: 'text=unusual activity' is not a valid selector" ∧
    (scrapeProfiles config {} [("u1", captchaAttempt), ("u2", okAttempt "Bo")]
        true true).2.2.log.map (fun i => (i.url, i.visited, i.tripped, i.outcome))
      = [("u1", true, true, Outcome.failed), ("u2", true, true, Outcome.failed)] ∧
    (scrapeProfiles config {} [("u1", captchaAttempt), ("u2", okAttempt "Bo")]
        true true).2.2.stop = none := by
  refine ⟨rfl, ?_, ?_⟩ <;> decide

/-- C6 (amended): the error stop of the loop counts all failures recorded in
the scraper's metrics. The counter `profilesFailed` after the loop is its value
before the loop plus the number of failed attempts of this call; the loop is
left by the error `break` only at a failed attempt; and at a failed attempt the
loop is left there by the error `break` exactly when the counter, this failure
included, has reached `HEALTH_PAUSE_THRESHOLD`. -/
theorem scrapeLoop_error_stop (cfg : Config) (jobs : List (String × Attempt))
    (s : LinkedInScraper) (n : Nat) :
    (scrapeLoop cfg jobs s n).scraper.metrics.profilesFailed =
      s.metrics.profilesFailed + failures (scrapeLoop cfg jobs s n).log ∧
    ((scrapeLoop cfg jobs s n).stop = some Ctl.stopErrors →
      ∃ pre x, (scrapeLoop cfg jobs s n).log = pre ++ [x] ∧ x.outcome = Outcome.failed) ∧
    (∀ pre x post, (scrapeLoop cfg jobs s n).log = pre ++ x :: post →
      x.outcome = Outcome.failed →
      ((post = [] ∧ (scrapeLoop cfg jobs s n).stop = some Ctl.stopErrors) ↔
        cfg.HEALTH_PAUSE_THRESHOLD ≤ s.metrics.profilesFailed + failures pre + 1)) := by
  induction jobs generalizing s n with
  | nil =>
    refine ⟨by simp [scrapeLoop_nil, failures], by simp [scrapeLoop_nil], ?_⟩
    intro pre x post h
    simp [scrapeLoop_nil] at h
  | cons job jobs ih =>
    obtain ⟨url, a⟩ := job
    have hcount := iteration_failed_count cfg s n url a
    by_cases hc : (iteration cfg s n url a).ctl = Ctl.next
    · rw [scrapeLoop_next cfg url a jobs s n hc]
      obtain ⟨ih1, ih2, ih3⟩ := ih (iteration cfg s n url a).scraper (iteration cfg s n url a).scraped
      refine ⟨?_, ?_, ?_⟩
      · simp only
        have hf := failures_cons (iteration cfg s n url a).info
          (scrapeLoop cfg jobs (iteration cfg s n url a).scraper
            (iteration cfg s n url a).scraped).log
        rw [ih1, hcount, hf]
        omega
      · intro hs
        obtain ⟨pre, x, hl, hx⟩ := ih2 hs
        exact ⟨(iteration cfg s n url a).info :: pre, x, by simp [hl], hx⟩
      · intro pre x post hl hx
        simp only at hl ⊢
        cases pre with
        | nil =>
          simp only [List.nil_append, List.cons.injEq] at hl
          obtain ⟨hi, hp⟩ := hl
          rw [← hi] at hx
          have hctl := iteration_failed_ctl cfg s n url a hx
          rw [hc] at hctl
          have hlt : ¬ cfg.HEALTH_PAUSE_THRESHOLD ≤ s.metrics.profilesFailed + 1 := by
            intro hle
            simp [hle] at hctl
          constructor
          · rintro ⟨hpost, hstop⟩
            obtain ⟨pre2, x2, hl2, _⟩ := ih2 hstop
            rw [hp, hpost] at hl2
            simp at hl2
          · intro hle
            simp [failures] at hle
            exact absurd hle hlt
        | cons i pre =>
          simp only [List.cons_append, List.cons.injEq] at hl
          obtain ⟨hi, hp⟩ := hl
          have h3 := ih3 pre x post hp hx
          have hf := failures_cons i pre
          rw [h3, hcount, hf, hi]
          omega
    · rw [scrapeLoop_stop cfg url a jobs s n hc]
      refine ⟨?_, ?_, ?_⟩
      · simpa using hcount
      · intro hs
        simp only [Option.some.injEq] at hs
        exact ⟨[], (iteration cfg s n url a).info, rfl, iteration_stopErrors cfg s n url a hs⟩
      · intro pre x post hl hx
        simp only at hl ⊢
        cases pre with
        | nil =>
          simp only [List.nil_append, List.cons.injEq] at hl
          obtain ⟨hi, hp⟩ := hl
          rw [← hi] at hx
          have hctl := iteration_failed_ctl cfg s n url a hx
          by_cases hle : cfg.HEALTH_PAUSE_THRESHOLD ≤ s.metrics.profilesFailed + 1
          · simp only [hle, if_true] at hctl
            simp [hctl, ← hp, failures, hle]
          · simp only [hle, if_false] at hctl
            exact absurd hctl hc
        | cons i pre =>
          simp only [List.cons_append, List.cons.injEq] at hl
          obtain ⟨_, hp⟩ := hl
          cases pre <;> simp at hp

/-- C6 as stated fails: on a new scraper, four URLs are given and every attempt
fails; the loop is left by the error `break` at the third URL (the fourth is
never processed), with three consecutive failures, which does not exceed the
threshold of 3. A second call on the same scraper is left by the error `break`
at its first failure, since the three failures of the first call still
count. -/
theorem scrapeLoop_stops_at_threshold :
    (scrapeLoop config fourUrls {} 0).stop = some Ctl.stopErrors ∧
    (scrapeLoop config fourUrls {} 0).log.map (fun i => (i.url, i.outcome))
      = [("u1", Outcome.failed), ("u2", Outcome.failed), ("u3", Outcome.failed)] ∧
    trailingFailures (scrapeLoop config fourUrls {} 0).log = 3 ∧
    ¬ (config.HEALTH_PAUSE_THRESHOLD < trailingFailures (scrapeLoop config fourUrls {} 0).log) ∧
    (scrapeLoop config fourUrls (scrapeLoop config fourUrls {} 0).scraper 0).stop
      = some Ctl.stopErrors ∧
    (scrapeLoop config fourUrls (scrapeLoop config fourUrls {} 0).scraper 0).log.map
        (fun i => (i.url, i.outcome)) = [("u1", Outcome.failed)] := by
  decide

/-- C7: in every call of `scrapeProfiles` no attempt succeeds and no rest break
is taken, because `extractProfile` never returns a profile: the number of
successes is 0, the number of breaks is 0, which is the number of successes
divided by `INITIAL_PROFILE_LIMIT`, `scraped` stays 0, and a pass takes a break
exactly when its successful attempt brings the count of successes to a positive
multiple of `INITIAL_PROFILE_LIMIT`, which no pass does. -/
theorem scrapeProfiles_breaks_follow_successes (cfg : Config) (s : LinkedInScraper)
    (jobs : List (String × Attempt)) (remoteOk backupOk : Bool) :
    successes (scrapeProfiles cfg s jobs remoteOk backupOk).2.2.log = 0 ∧
    breaksTaken (scrapeProfiles cfg s jobs remoteOk backupOk).2.2.log = 0 ∧
    breaksTaken (scrapeProfiles cfg s jobs remoteOk backupOk).2.2.log
      = successes (scrapeProfiles cfg s jobs remoteOk backupOk).2.2.log
          / cfg.INITIAL_PROFILE_LIMIT ∧
    (scrapeProfiles cfg s jobs remoteOk backupOk).2.2.scraped = 0 ∧
    (∀ pre i post, (scrapeProfiles cfg s jobs remoteOk backupOk).2.2.log = pre ++ i :: post →
      (i.rest.isSome = true ↔
        (i.outcome = Outcome.recorded ∧ 0 < successes (pre ++ [i]) ∧
          cfg.INITIAL_PROFILE_LIMIT ∣ successes (pre ++ [i])))) := by
  obtain ⟨hall, hs, _, _⟩ := scrapeLoop_no_profile cfg jobs s 0
  simp only [scrapeProfiles]
  have hsucc : successes (scrapeLoop cfg jobs s 0).log = 0 := by
    simp only [successes, List.countP_eq_zero]
    intro i hi
    rcases (hall i hi).1 with h | h <;> simp [h]
  have hbreak : breaksTaken (scrapeLoop cfg jobs s 0).log = 0 := by
    simp only [breaksTaken, List.countP_eq_zero]
    intro i hi
    simp [(hall i hi).2]
  refine ⟨hsucc, hbreak, by rw [hbreak, hsucc]; simp, hs, ?_⟩
  intro pre i post hl
  have hi : i ∈ (scrapeLoop cfg jobs s 0).log := by rw [hl]; simp
  obtain ⟨ho, hr⟩ := hall i hi
  constructor
  · intro h
    rw [hr] at h
    simp at h
  · rintro ⟨h, _, _⟩
    rcases ho with ho | ho <;> rw [ho] at h <;> cases h

theorem randomInt_bounds (u : ℚ) (min max : Int) (hmm : min ≤ max) (h0 : 0 ≤ u) (h1 : u < 1) :
    min ≤ randomInt u min max ∧ randomInt u min max ≤ max := by
  unfold randomInt
  have hn : (0 : ℚ) < ((max - min + 1 : Int) : ℚ) := by
    have : (0 : Int) < max - min + 1 := by omega
    exact_mod_cast this
  have hlo : 0 ≤ ⌊u * ((max - min + 1 : Int) : ℚ)⌋ :=
    Int.floor_nonneg.mpr (mul_nonneg h0 (le_of_lt hn))
  have hhi : ⌊u * ((max - min + 1 : Int) : ℚ)⌋ < max - min + 1 := by
    rw [Int.floor_lt]
    calc u * ((max - min + 1 : Int) : ℚ) < 1 * ((max - min + 1 : Int) : ℚ) :=
          mul_lt_mul_of_pos_right h1 hn
      _ = ((max - min + 1 : Int) : ℚ) := one_mul _
  constructor <;> omega

theorem scrapeLoop_rest (cfg : Config) (jobs : List (String × Attempt))
    (s : LinkedInScraper) (n : Nat) (i : StepInfo) (hi : i ∈ (scrapeLoop cfg jobs s n).log)
    (d : Int) (hd : i.rest = some d) :
    ∃ job ∈ jobs, d = breakTime cfg job.2.breakRand := by
  induction jobs generalizing s n with
  | nil => simp [scrapeLoop_nil] at hi
  | cons job jobs ih =>
    obtain ⟨url, a⟩ := job
    have hrest : ∀ d, (iteration cfg s n url a).info.rest = some d →
        d = breakTime cfg a.breakRand := by
      intro d hd
      rcases iteration_cases cfg s n url a with h | h | h | h
      · rw [h.2.2.2.2.2] at hd; cases hd
      · rw [h.2.2.2.2.2] at hd; cases hd
      · rw [h.2.2.2.2.2] at hd
        split at hd
        · exact (Option.some.inj hd).symm
        · cases hd
      · rw [h.2.2.2.2.2] at hd
        split at hd
        · exact (Option.some.inj hd).symm
        · cases hd
    by_cases hc : (iteration cfg s n url a).ctl = Ctl.next
    · rw [scrapeLoop_next cfg url a jobs s n hc] at hi
      simp only [List.mem_cons] at hi
      rcases hi with hi | hi
      · exact ⟨(url, a), List.mem_cons_self _ _, hrest d (hi ▸ hd)⟩
      · obtain ⟨job, hj, hjd⟩ := ih _ _ hi
        exact ⟨job, List.mem_cons_of_mem _ hj, hjd⟩
    · rw [scrapeLoop_stop cfg url a jobs s n hc] at hi
      simp only [List.mem_singleton] at hi
      exact ⟨(url, a), List.mem_cons_self _ _, hrest d (hi ▸ hd)⟩

/-- C8: for integers `min ≤ max` and a draw `0 ≤ u < 1`, `randomInt` lies
between `min` and `max`; and when `BREAK_MINUTES_MIN ≤ BREAK_MINUTES_MAX` and
every draw lies in `[0, 1)`, every break taken by `scrapeProfiles` lasts between
`BREAK_MINUTES_MIN` and `BREAK_MINUTES_MAX` minutes, in milliseconds. -/
theorem break_duration_in_range (u : ℚ) (min max : Int) (hmm : min ≤ max) (h0 : 0 ≤ u)
    (h1 : u < 1) (cfg : Config) (s : LinkedInScraper) (jobs : List (String × Attempt))
    (remoteOk backupOk : Bool)
    (hcfg : cfg.BREAK_MINUTES_MIN ≤ cfg.BREAK_MINUTES_MAX)
    (hjobs : ∀ job ∈ jobs, 0 ≤ job.2.breakRand ∧ job.2.breakRand < 1) :
    (min ≤ randomInt u min max ∧ randomInt u min max ≤ max) ∧
    (∀ i ∈ (scrapeProfiles cfg s jobs remoteOk backupOk).2.2.log, ∀ d, i.rest = some d →
      (cfg.BREAK_MINUTES_MIN : Int) * 60 * 1000 ≤ d ∧
      d ≤ (cfg.BREAK_MINUTES_MAX : Int) * 60 * 1000) := by
  refine ⟨randomInt_bounds u min max hmm h0 h1, ?_⟩
  intro i hi d hd
  obtain ⟨job, hj, hjd⟩ := scrapeLoop_rest cfg jobs s 0 i hi d hd
  rw [hjd]
  have hb := hjobs job hj
  exact randomInt_bounds job.2.breakRand _ _ (by
    have : (cfg.BREAK_MINUTES_MIN : Int) ≤ cfg.BREAK_MINUTES_MAX := by exact_mod_cast hcfg
    omega) hb.1 hb.2

/-- C8, applied to the draw `1/2` in the range `0..9` and to a second call on
the profile page of `Ann`. -/
theorem break_duration_in_range_witness :
    ((0 : Int) ≤ 9 ∧ (0 : ℚ) ≤ 1 / 2 ∧ (1 / 2 : ℚ) < 1 ∧
      config.BREAK_MINUTES_MIN ≤ config.BREAK_MINUTES_MAX) ∧
    ((0 ≤ randomInt (1 / 2) 0 9 ∧ randomInt (1 / 2) 0 9 ≤ 9) ∧
      (∀ i ∈ (scrapeProfiles config afterAnn [("u2", okAttempt "Ann")] true true).2.2.log,
        ∀ d, i.rest = some d →
          (config.BREAK_MINUTES_MIN : Int) * 60 * 1000 ≤ d ∧
          d ≤ (config.BREAK_MINUTES_MAX : Int) * 60 * 1000)) :=
  ⟨⟨by decide, by norm_num, by norm_num, by decide⟩,
    break_duration_in_range (1 / 2) 0 9 (by decide) (by norm_num) (by norm_num) config afterAnn
      [("u2", okAttempt "Ann")] true true (by decide)
      (by
        intro job hj
        rw [List.mem_singleton] at hj
        subst hj
        simp only [okAttempt]
        constructor <;> norm_num)⟩

theorem successes_cons (i : StepInfo) (l : List StepInfo) :
    successes (i :: l) = successes [i] + successes l := by
  simp [successes, List.countP_cons]
  omega

theorem iteration_scraped (cfg : Config) (s : LinkedInScraper) (n : Nat) (url : String)
    (a : Attempt) :
    (iteration cfg s n url a).scraped = n + successes [(iteration cfg s n url a).info] ∧
    (iteration cfg s n url a).scraper.metrics.profilesScraped =
      s.metrics.profilesScraped + successes [(iteration cfg s n url a).info] := by
  rcases iteration_cases cfg s n url a with h | h | h | h <;>
    simp [successes, h.1, h.2.2.1, h.2.2.2.2.1]

theorem iteration_quota (cfg : Config) (s : LinkedInScraper) (n : Nat) (url : String)
    (a : Attempt) (hn : n < cfg.MAX_PROFILES_PER_DAY) :
    (iteration cfg s n url a).scraped ≤ cfg.MAX_PROFILES_PER_DAY ∧
    ((iteration cfg s n url a).ctl = Ctl.next →
      (iteration cfg s n url a).scraped < cfg.MAX_PROFILES_PER_DAY) ∧
    ((iteration cfg s n url a).scraped = cfg.MAX_PROFILES_PER_DAY →
      (iteration cfg s n url a).ctl = Ctl.stopQuota) := by
  rcases iteration_cases cfg s n url a with h | h | h | h
  · rw [h.2.2.1]
    exact ⟨by omega, fun _ => hn, fun he => by omega⟩
  · rw [h.2.2.1]
    exact ⟨by omega, fun _ => hn, fun he => by omega⟩
  · rw [h.2.2.1, h.2.1]
    refine ⟨by omega, ?_, ?_⟩
    · intro hc
      by_cases hle : cfg.MAX_PROFILES_PER_DAY ≤ n + 1
      · simp [hle] at hc
      · omega
    · intro he
      simp [he]
  · rw [h.2.2.1]
    exact ⟨by omega, fun _ => hn, fun he => by omega⟩

theorem scrapeLoop_quota_from (cfg : Config) (jobs : List (String × Attempt))
    (s : LinkedInScraper) (n : Nat) (hn : n < cfg.MAX_PROFILES_PER_DAY) :
    (scrapeLoop cfg jobs s n).scraped = n + successes (scrapeLoop cfg jobs s n).log ∧
    (scrapeLoop cfg jobs s n).scraper.metrics.profilesScraped =
      s.metrics.profilesScraped + successes (scrapeLoop cfg jobs s n).log ∧
    (scrapeLoop cfg jobs s n).scraped ≤ cfg.MAX_PROFILES_PER_DAY ∧
    ((scrapeLoop cfg jobs s n).scraped = cfg.MAX_PROFILES_PER_DAY →
      (scrapeLoop cfg jobs s n).stop = some Ctl.stopQuota) ∧
    (∀ pre post, (scrapeLoop cfg jobs s n).log = pre ++ post →
      cfg.MAX_PROFILES_PER_DAY ≤ n + successes pre → post = []) := by
  induction jobs generalizing s n with
  | nil =>
    refine ⟨by simp [scrapeLoop_nil, successes], by simp [scrapeLoop_nil, successes],
      by simp [scrapeLoop_nil]; omega, by simp [scrapeLoop_nil]; omega, ?_⟩
    intro pre post h _
    simp [scrapeLoop_nil] at h
    exact h.2
  | cons job jobs ih =>
    obtain ⟨url, a⟩ := job
    obtain ⟨hs1, hs2⟩ := iteration_scraped cfg s n url a
    obtain ⟨hq1, hq2, hq3⟩ := iteration_quota cfg s n url a hn
    by_cases hc : (iteration cfg s n url a).ctl = Ctl.next
    · rw [scrapeLoop_next cfg url a jobs s n hc]
      obtain ⟨ih1, ih2, ih3, ih4, ih5⟩ :=
        ih (iteration cfg s n url a).scraper (iteration cfg s n url a).scraped (hq2 hc)
      have hf := successes_cons (iteration cfg s n url a).info
        (scrapeLoop cfg jobs (iteration cfg s n url a).scraper
          (iteration cfg s n url a).scraped).log
      refine ⟨?_, ?_, ih3, ih4, ?_⟩
      · simp only
        rw [ih1, hf]
        omega
      · simp only
        rw [ih2, hf]
        omega
      · intro pre post hl hle
        simp only at hl
        cases pre with
        | nil =>
          simp [successes] at hle
          omega
        | cons i pre =>
          simp only [List.cons_append, List.cons.injEq] at hl
          obtain ⟨hi, hp⟩ := hl
          have hf2 := successes_cons i pre
          rw [hf2, ← hi] at hle
          exact ih5 pre post hp (by omega)
    · rw [scrapeLoop_stop cfg url a jobs s n hc]
      refine ⟨by simpa using hs1, by simpa using hs2, hq1, ?_, ?_⟩
      · intro he
        simp only at he ⊢
        rw [hq3 he]
      · intro pre post hl hle
        simp only at hl
        cases pre with
        | nil =>
          simp [successes] at hle
          omega
        | cons i pre =>
          simp only [List.cons_append, List.cons.injEq] at hl
          obtain ⟨_, hp⟩ := hl
          have := List.append_eq_nil.mp hp.symm
          exact this.2

/-- C9: when `MAX_PROFILES_PER_DAY` is at least 1, one call of `scrapeProfiles`
records at most `MAX_PROFILES_PER_DAY` profiles; the recorded profiles are
counted by `scraped` and by the metrics; when the number is reached the loop is
left by the `break` of the daily limit; and no URL is processed after the pass
in which the number was reached. -/
theorem scrapeProfiles_daily_quota (cfg : Config) (s : LinkedInScraper)
    (jobs : List (String × Attempt)) (remoteOk backupOk : Bool)
    (hmax : 1 ≤ cfg.MAX_PROFILES_PER_DAY) :
    successes (scrapeProfiles cfg s jobs remoteOk backupOk).2.2.log ≤ cfg.MAX_PROFILES_PER_DAY ∧
    (scrapeProfiles cfg s jobs remoteOk backupOk).2.2.scraped =
      successes (scrapeProfiles cfg s jobs remoteOk backupOk).2.2.log ∧
    (scrapeProfiles cfg s jobs remoteOk backupOk).2.1.metrics.profilesScraped =
      s.metrics.profilesScraped + successes (scrapeProfiles cfg s jobs remoteOk backupOk).2.2.log ∧
    (successes (scrapeProfiles cfg s jobs remoteOk backupOk).2.2.log = cfg.MAX_PROFILES_PER_DAY →
      (scrapeProfiles cfg s jobs remoteOk backupOk).2.2.stop = some Ctl.stopQuota) ∧
    (∀ pre post, (scrapeProfiles cfg s jobs remoteOk backupOk).2.2.log = pre ++ post →
      cfg.MAX_PROFILES_PER_DAY ≤ successes pre → post = []) := by
  obtain ⟨h1, h2, h3, h4, h5⟩ := scrapeLoop_quota_from cfg jobs s 0 (by omega)
  simp only [Nat.zero_add] at h1 h5
  simp only [scrapeProfiles]
  refine ⟨by rw [← h1]; exact h3, h1, h2, ?_, ?_⟩
  · intro he
    exact h4 (by rw [h1]; exact he)
  · intro pre post hl hle
    exact h5 pre post hl hle

/-- C9, applied to the configuration of `config.js` and the six URLs of
`scattered` on a new scraper. -/
theorem scrapeProfiles_daily_quota_witness :
    1 ≤ config.MAX_PROFILES_PER_DAY ∧
    successes (scrapeProfiles config {} scattered true true).2.2.log
      ≤ config.MAX_PROFILES_PER_DAY :=
  ⟨by decide, (scrapeProfiles_daily_quota config {} scattered true true (by decide)).1⟩

end ScrapingLoop

/-! ## Identity rotation -/

section Rotation

open StealthManager

theorem pathJoin_truthy (dir name : String) : truthy (some (pathJoin dir name)) = true := by
  have h : pathJoin dir name ≠ "" := by
    intro he
    have hd := congrArg String.data he
    simp [pathJoin, String.data_append] at hd
  simp [truthy, nonEmpty, h]

theorem setupProxy_frame (cfg : Config) (sm : StealthManager) (env : ProxyEnv) :
    (setupProxy cfg sm env).2.currentProfile = sm.currentProfile ∧
    (setupProxy cfg sm env).2.profilesCount = sm.profilesCount := by
  unfold setupProxy
  split
  · exact ⟨rfl, rfl⟩
  · simp only
    split <;> exact ⟨rfl, rfl⟩

/-- One call, read off the definition. -/
theorem getStealthConfiguration_step (cfg : Config) (sm : StealthManager) (env : LeaseEnv) :
    (getStealthConfiguration cfg sm env).rotatedProfile =
      (decide (sm.profilesCount ≥ cfg.ROTATE_PROFILE_AFTER) || !truthy sm.currentProfile) ∧
    (getStealthConfiguration cfg sm env).manager.profilesCount =
      (if (getStealthConfiguration cfg sm env).rotatedProfile = true then 0
       else sm.profilesCount) + 1 ∧
    (getStealthConfiguration cfg sm env).manager.currentProfile =
      (if (getStealthConfiguration cfg sm env).rotatedProfile = true then
        some (pathJoin cfg.BROWSER_PROFILES_DIR ("profile-" ++ toString env.now))
       else sm.currentProfile) ∧
    (getStealthConfiguration cfg sm env).browserConfig.userDataDir =
      (getStealthConfiguration cfg sm env).manager.currentProfile := by
  refine ⟨rfl, ?_, ?_, rfl⟩
  · simp only [getStealthConfiguration]
    split <;> split <;> simp [setupProxy_frame, initializeBrowserProfile]
  · simp only [getStealthConfiguration]
    split <;> split <;> simp [setupProxy_frame, initializeBrowserProfile]


theorem phase_new (cfg : Config) (hN : 1 ≤ cfg.ROTATE_PROFILE_AFTER) :
    Phase cfg StealthManager.new cfg.ROTATE_PROFILE_AFTER :=
  ⟨hN, le_refl _, Or.inr ⟨rfl, rfl⟩⟩

theorem phase_step (cfg : Config) (sm : StealthManager) (env : LeaseEnv) (c : Nat)
    (h : Phase cfg sm c) :
    ((getStealthConfiguration cfg sm env).rotatedProfile = true ↔
      c % cfg.ROTATE_PROFILE_AFTER = 0) ∧
    (getStealthConfiguration cfg sm env).manager.profilesCount =
      c % cfg.ROTATE_PROFILE_AFTER + 1 ∧
    Phase cfg (getStealthConfiguration cfg sm env).manager (c % cfg.ROTATE_PROFILE_AFTER + 1) := by
  obtain ⟨h1, h2, h3⟩ := h
  obtain ⟨s1, s2, s3, _⟩ := getStealthConfiguration_step cfg sm env
  have hmod : c % cfg.ROTATE_PROFILE_AFTER = 0 ↔ c = cfg.ROTATE_PROFILE_AFTER := by
    constructor
    · intro hm
      rcases Nat.lt_or_ge c cfg.ROTATE_PROFILE_AFTER with hlt | hge
      · rw [Nat.mod_eq_of_lt hlt] at hm
        omega
      · omega
    · intro he
      rw [he, Nat.mod_self]
  have hrot : (getStealthConfiguration cfg sm env).rotatedProfile = true ↔
      c = cfg.ROTATE_PROFILE_AFTER := by
    rw [s1]
    rcases h3 with ⟨ht, hc⟩ | ⟨ht, hc⟩
    · simp [ht, hc]
      omega
    · simp [ht, hc]
  have hlt : c % cfg.ROTATE_PROFILE_AFTER < cfg.ROTATE_PROFILE_AFTER :=
    Nat.mod_lt _ (by omega)
  have hcount : (getStealthConfiguration cfg sm env).manager.profilesCount =
      c % cfg.ROTATE_PROFILE_AFTER + 1 := by
    rw [s2]
    by_cases hr : (getStealthConfiguration cfg sm env).rotatedProfile = true
    · simp [hr, hmod.mpr (hrot.mp hr)]
    · have hne : c ≠ cfg.ROTATE_PROFILE_AFTER := fun he => hr (hrot.mpr he)
      have hclt : c < cfg.ROTATE_PROFILE_AFTER := by omega
      rcases h3 with ⟨_, hc⟩ | ⟨_, hc⟩
      · simp [hr, hc, Nat.mod_eq_of_lt hclt]
      · exact absurd hc hne
  refine ⟨by rw [hrot, hmod], hcount, by omega, by omega, Or.inl ⟨?_, hcount⟩⟩
  rw [s3]
  by_cases hr : (getStealthConfiguration cfg sm env).rotatedProfile = true
  · simp only [hr, if_true]
    exact pathJoin_truthy _ _
  · have hne : c ≠ cfg.ROTATE_PROFILE_AFTER := fun he => hr (hrot.mpr he)
    rcases h3 with ⟨ht, _⟩ | ⟨_, hc⟩
    · simpa [hr] using ht
    · exact absurd hc hne

theorem leases_zero (cfg : Config) (sm : StealthManager) (envs : List LeaseEnv) (l : Lease)
    (hl : (leases cfg sm envs)[0]? = some l) :
    ∃ env, envs[0]? = some env ∧ l = getStealthConfiguration cfg sm env := by
  cases envs with
  | nil => simp [leases] at hl
  | cons env envs =>
    simp [leases] at hl
    exact ⟨env, by simp, hl.symm⟩

theorem leases_succ (cfg : Config) (sm : StealthManager) (envs : List LeaseEnv) (k : Nat)
    (l : Lease) (hl : (leases cfg sm envs)[k + 1]? = some l) :
    ∃ l0 env, (leases cfg sm envs)[k]? = some l0 ∧ envs[k + 1]? = some env ∧
      l = getStealthConfiguration cfg l0.manager env := by
  induction envs generalizing sm k with
  | nil => simp [leases] at hl
  | cons env envs ih =>
    simp only [leases, List.getElem?_cons_succ] at hl
    cases k with
    | zero =>
      obtain ⟨env1, he, hl1⟩ := leases_zero cfg _ envs l hl
      exact ⟨getStealthConfiguration cfg sm env, env1, by simp [leases], by simpa using he, hl1⟩
    | succ k =>
      obtain ⟨l0, env1, h0, he, hl1⟩ := ih _ k hl
      exact ⟨l0, env1, by simpa [leases] using h0, by simpa using he, hl1⟩

theorem leases_phase (cfg : Config) (sm : StealthManager)
    (c : Nat) (h : Phase cfg sm c) (envs : List LeaseEnv) (k : Nat) (l : Lease)
    (hl : (leases cfg sm envs)[k]? = some l) :
    (l.rotatedProfile = true ↔ (c + k) % cfg.ROTATE_PROFILE_AFTER = 0) ∧
    l.manager.profilesCount = (c + k) % cfg.ROTATE_PROFILE_AFTER + 1 := by
  induction envs generalizing sm c k with
  | nil => simp [leases] at hl
  | cons env envs ih =>
    obtain ⟨p1, p2, p3⟩ := phase_step cfg sm env c h
    cases k with
    | zero =>
      simp [leases] at hl
      rw [← hl]
      exact ⟨by simpa using p1, by simpa using p2⟩
    | succ k =>
      simp only [leases, List.getElem?_cons_succ] at hl
      have := ih _ _ p3 k hl
      have hm : (c % cfg.ROTATE_PROFILE_AFTER + 1 + k) % cfg.ROTATE_PROFILE_AFTER =
          (c + (k + 1)) % cfg.ROTATE_PROFILE_AFTER := by
        rw [Nat.add_assoc, Nat.mod_add_mod]
        congr 1
        omega
      rw [hm] at this
      exact this

theorem mod_succ_iff (N k : Nat) : k % N = 0 ↔ (k + 1) % N = 1 % N := by
  constructor
  · intro h
    rw [Nat.add_mod, h, Nat.zero_add, Nat.mod_mod]
  · intro h
    have h1 : k + 1 ≡ 0 + 1 [MOD N] := by simpa [Nat.ModEq] using h
    have h2 : k ≡ 0 [MOD N] := Nat.ModEq.add_right_cancel' 1 h1
    simpa [Nat.ModEq] using h2

/-- C10: with `N = ROTATE_PROFILE_AFTER ≥ 1`, the `k`-th call of
`getStealthConfiguration` on a new manager (`k` counted from 1; the index below
is `k - 1`) creates a fresh browser profile exactly when `k` is congruent to 1
modulo `N`; `profilesCount` lies between 1 and `N` after the call; a rotating
call hands out the directory it has just created, and any other call hands out
the directory of the call before it. -/
theorem profile_rotation_after_N_leases (cfg : Config) (hN : 1 ≤ cfg.ROTATE_PROFILE_AFTER)
    (envs : List LeaseEnv) (k : Nat) (l : Lease)
    (hl : (leases cfg StealthManager.new envs)[k]? = some l) :
    (l.rotatedProfile = true ↔
      (k + 1) % cfg.ROTATE_PROFILE_AFTER = 1 % cfg.ROTATE_PROFILE_AFTER) ∧
    1 ≤ l.manager.profilesCount ∧ l.manager.profilesCount ≤ cfg.ROTATE_PROFILE_AFTER ∧
    (l.rotatedProfile = true →
      ∃ env, envs[k]? = some env ∧ l.browserConfig.userDataDir =
        some (pathJoin cfg.BROWSER_PROFILES_DIR ("profile-" ++ toString env.now))) ∧
    (l.rotatedProfile = false →
      ∃ j l0, k = j + 1 ∧ (leases cfg StealthManager.new envs)[j]? = some l0 ∧
        l.browserConfig.userDataDir = l0.browserConfig.userDataDir) := by
  obtain ⟨hr, hc⟩ := leases_phase cfg _ _ (phase_new cfg hN) envs k l hl
  rw [Nat.add_mod_left] at hr hc
  have hlt : k % cfg.ROTATE_PROFILE_AFTER < cfg.ROTATE_PROFILE_AFTER := Nat.mod_lt _ (by omega)
  refine ⟨by rw [hr, mod_succ_iff], by omega, by omega, ?_, ?_⟩
  · intro hrot
    cases k with
    | zero =>
      obtain ⟨env, he, hl1⟩ := leases_zero cfg _ envs l hl
      obtain ⟨_, _, s3, s4⟩ := getStealthConfiguration_step cfg StealthManager.new env
      rw [hl1] at hrot ⊢
      exact ⟨env, he, by rw [s4, s3, if_pos hrot]⟩
    | succ k =>
      obtain ⟨l0, env, _, he, hl1⟩ := leases_succ cfg _ envs k l hl
      obtain ⟨_, _, s3, s4⟩ := getStealthConfiguration_step cfg l0.manager env
      rw [hl1] at hrot ⊢
      exact ⟨env, he, by rw [s4, s3, if_pos hrot]⟩
  · intro hrot
    cases k with
    | zero =>
      have : l.rotatedProfile = true := hr.mpr (by simp)
      rw [this] at hrot
      cases hrot
    | succ k =>
      obtain ⟨l0, env, h0, _, hl1⟩ := leases_succ cfg _ envs k l hl
      obtain ⟨_, _, s3, s4⟩ := getStealthConfiguration_step cfg l0.manager env
      refine ⟨k, l0, rfl, h0, ?_⟩
      rw [hl1] at hrot ⊢
      rw [s4, s3, hrot]
      have t4 : l0.browserConfig.userDataDir = l0.manager.currentProfile := by
        cases k with
        | zero =>
          obtain ⟨env0, _, hl0⟩ := leases_zero cfg _ envs l0 h0
          rw [hl0]
          exact (getStealthConfiguration_step cfg _ env0).2.2.2
        | succ k =>
          obtain ⟨l00, env0, _, _, hl0⟩ := leases_succ cfg _ envs k l0 h0
          rw [hl0]
          exact (getStealthConfiguration_step cfg _ env0).2.2.2
      simp [t4]

/-- C10, applied to the configuration of `config.js` and the second of two
calls. -/
theorem profile_rotation_after_N_leases_witness :
    1 ≤ config.ROTATE_PROFILE_AFTER ∧
    (leases config StealthManager.new [leaseEnv 1000, leaseEnv 2000])[1]? =
      some (getStealthConfiguration config
        (getStealthConfiguration config StealthManager.new (leaseEnv 1000)).manager
        (leaseEnv 2000)) ∧
    ((getStealthConfiguration config
        (getStealthConfiguration config StealthManager.new (leaseEnv 1000)).manager
        (leaseEnv 2000)).rotatedProfile = true ↔
      (1 + 1) % config.ROTATE_PROFILE_AFTER = 1 % config.ROTATE_PROFILE_AFTER) :=
  ⟨by decide, rfl,
    (profile_rotation_after_N_leases config (by decide) [leaseEnv 1000, leaseEnv 2000] 1 _
      rfl).1⟩

end Rotation

/-! ## Proxy rotation -/

section ProxyRotation

open StealthManager

theorem getStealthConfiguration_proxy (cfg : Config) (sm : StealthManager) (env : LeaseEnv) :
    (getStealthConfiguration cfg sm env).proxyCalled =
      remIsZero ((getStealthConfiguration cfg sm env).manager.profilesCount - 1)
        cfg.ROTATE_PROXY_AFTER := by
  simp only [getStealthConfiguration]
  split <;> split <;> simp_all [setupProxy_frame, initializeBrowserProfile]

/-- C11 (amended): with `N = ROTATE_PROFILE_AFTER ≥ 1` and
`M = ROTATE_PROXY_AFTER`, the `k`-th call of `getStealthConfiguration` on a new
manager (the index below is `k - 1`) invokes `setupProxy` exactly when `M` is
not 0 and the number of leases already handed out on the current browser
profile, `(k - 1) mod N`, is a multiple of `M`. When `M` divides `N` this is the
cadence `k ≡ 1 (mod M)`. -/
theorem proxy_setup_follows_profile_count (cfg : Config) (hN : 1 ≤ cfg.ROTATE_PROFILE_AFTER)
    (envs : List LeaseEnv) (k : Nat) (l : Lease)
    (hl : (leases cfg StealthManager.new envs)[k]? = some l) :
    (l.proxyCalled = true ↔
      (cfg.ROTATE_PROXY_AFTER ≠ 0 ∧
        (k % cfg.ROTATE_PROFILE_AFTER) % cfg.ROTATE_PROXY_AFTER = 0)) ∧
    (cfg.ROTATE_PROXY_AFTER ∣ cfg.ROTATE_PROFILE_AFTER →
      (l.proxyCalled = true ↔
        (cfg.ROTATE_PROXY_AFTER ≠ 0 ∧
          (k + 1) % cfg.ROTATE_PROXY_AFTER = 1 % cfg.ROTATE_PROXY_AFTER))) := by
  obtain ⟨_, hc⟩ := leases_phase cfg _ _ (phase_new cfg hN) envs k l hl
  rw [Nat.add_mod_left] at hc
  have hp : l.proxyCalled =
      remIsZero (l.manager.profilesCount - 1) cfg.ROTATE_PROXY_AFTER := by
    cases k with
    | zero =>
      obtain ⟨env, _, hl1⟩ := leases_zero cfg _ envs l hl
      rw [hl1]
      exact getStealthConfiguration_proxy cfg _ env
    | succ k =>
      obtain ⟨l0, env, _, _, hl1⟩ := leases_succ cfg _ envs k l hl
      rw [hl1]
      exact getStealthConfiguration_proxy cfg _ env
  have hmain : l.proxyCalled = true ↔
      (cfg.ROTATE_PROXY_AFTER ≠ 0 ∧
        (k % cfg.ROTATE_PROFILE_AFTER) % cfg.ROTATE_PROXY_AFTER = 0) := by
    rw [hp, hc]
    simp [remIsZero]
  refine ⟨hmain, ?_⟩
  intro hdvd
  rw [hmain, Nat.mod_mod_of_dvd _ hdvd, mod_succ_iff]

/-- C11 (amended), applied to the configuration of `config.js` and the second
of two calls. -/
theorem proxy_setup_follows_profile_count_witness :
    1 ≤ config.ROTATE_PROFILE_AFTER ∧
    (leases config StealthManager.new [leaseEnv 1000, leaseEnv 2000])[1]? =
      some (getStealthConfiguration config
        (getStealthConfiguration config StealthManager.new (leaseEnv 1000)).manager
        (leaseEnv 2000)) ∧
    ((getStealthConfiguration config
        (getStealthConfiguration config StealthManager.new (leaseEnv 1000)).manager
        (leaseEnv 2000)).proxyCalled = true ↔
      (config.ROTATE_PROXY_AFTER ≠ 0 ∧
        (1 % config.ROTATE_PROFILE_AFTER) % config.ROTATE_PROXY_AFTER = 0)) :=
  ⟨by decide, rfl,
    (proxy_setup_follows_profile_count config (by decide) [leaseEnv 1000, leaseEnv 2000] 1 _
      rfl).1⟩

set_option maxRecDepth 8000 in
/-- C11 as stated fails: with the configuration of `config.js` (`N = 20`,
`M = 15`) the 21st call on a new manager invokes `setupProxy` although 21 is not
congruent to 1 modulo 15, and the 31st call does not although 31 is. -/
theorem proxy_setup_off_cadence :
    ((leases config StealthManager.new (List.replicate 31 (leaseEnv 0)))[20]?).map
        (fun l => l.proxyCalled) = some true ∧
    ¬ (21 % config.ROTATE_PROXY_AFTER = 1 % config.ROTATE_PROXY_AFTER) ∧
    ((leases config StealthManager.new (List.replicate 31 (leaseEnv 0)))[30]?).map
        (fun l => l.proxyCalled) = some false ∧
    31 % config.ROTATE_PROXY_AFTER = 1 % config.ROTATE_PROXY_AFTER := by
  decide

end ProxyRotation

/-! ## Campaigns -/

section Campaigns

open CampaignManager WorkerManager

theorem runCampaign_rejects (cfg : Config) (m : CampaignManager) (id : String) (env : RunEnv) :
    runCampaign cfg m id env = (Except.error (noModel "findByPk"), m) := by
  cases hdb : m.db
  simp [runCampaign, DbValue.hasModels, hdb]

theorem createCampaign_rejects (accepts : String → Bool) (m : CampaignManager)
    (data : CampaignData) (uuid : String) :
    createCampaign accepts m data uuid = (Except.error (noModel "create"), m) := by
  cases hdb : m.db
  simp [createCampaign, DbValue.hasModels, hdb]

theorem pauseCampaign_rejects (m : CampaignManager) (id : String) :
    pauseCampaign m id = (Except.error (noModel "findByPk"), m) := by
  cases hdb : m.db
  simp [pauseCampaign, DbValue.hasModels, hdb]

theorem resumeCampaign_rejects (accepts : String → Bool) (m : CampaignManager) (id : String) :
    resumeCampaign accepts m id = (Except.error (noModel "findByPk"), m) := by
  cases hdb : m.db
  simp [resumeCampaign, DbValue.hasModels, hdb]

theorem initializeManager_rejects (accepts : String → Bool) (m : CampaignManager) :
    initializeManager accepts m = (Except.error (noModel "findAll"), m) := by
  cases hdb : m.db
  simp [initializeManager, DbValue.hasModels, hdb]

theorem applyOps_eq (accepts : String → Bool) (ops : List CampaignOp) (m : CampaignManager) :
    applyOps accepts m ops = m := by
  induction ops with
  | nil => rfl
  | cons op ops ih =>
    have hstep : applyOps accepts m (op :: ops) = applyOps accepts (applyOp accepts m op) ops := by
      simp [applyOps]
    have hop : applyOp accepts m op = m := by
      cases op <;>
        simp [applyOp, createCampaign_rejects, pauseCampaign_rejects, resumeCampaign_rejects]
    rw [hstep, hop, ih]

/-- C12: `runCampaign` starts no run, for every campaign and every account, so
also for an active account with `usedQuota >= dailyQuota`: the call rejects at
its first statement with the `TypeError` of `this.db.Campaign.findByPk`, no
campaign gets a new `lastRun` (the campaigns are as before), no notification is
sent, nothing is posted, and `executeScraping` is not called. -/
theorem runCampaign_starts_no_run (cfg : Config) (m : CampaignManager) (id : String)
    (env : RunEnv) :
    (runCampaign cfg m id env).1 = Except.error (noModel "findByPk")
    ∧ (runCampaign cfg m id env).2.campaigns = m.campaigns
    ∧ (runCampaign cfg m id env).2.campaigns.map (fun c => c.lastRun)
        = m.campaigns.map (fun c => c.lastRun)
    ∧ (runCampaign cfg m id env).2.webhooks = m.webhooks
    ∧ (runCampaign cfg m id env).2.posts = m.posts
    ∧ (runCampaign cfg m id env).2.scrapes = m.scrapes := by
  rw [runCampaign_rejects]
  exact ⟨rfl, rfl, rfl, rfl, rfl, rfl⟩

/-- C13, the code at the failing input: on a manager whose database holds one
account, `createCampaign` with a list of two targets rejects with the
`TypeError` of `this.db.Campaign.create`; no campaign is persisted and no
schedule trigger is armed. -/
theorem createCampaign_rejects_target_list :
    (createCampaign anyCron oneAccount twoTargets "c-1").1
      = Except.error "TypeError: Cannot read properties of undefined (reading 'create')"
    ∧ twoTargets.targetList.map List.length = some 2
    ∧ (createCampaign anyCron oneAccount twoTargets "c-1").2.campaigns = []
    ∧ (createCampaign anyCron oneAccount twoTargets "c-1").2.activeJobs = []
    ∧ (createCampaign anyCron oneAccount twoTargets "c-1").2.armed = [] := by
  refine ⟨rfl, ?_, ?_, ?_, ?_⟩ <;> decide

/-- C14: `runCampaign` changes nothing, for every campaign identifier, so also
when the campaign does not exist, is not `active`, or has no active account:
the manager after the call is the manager before it (every field of every
campaign and account, the notifications, the posts and the scraping calls); the
call rejects with a `TypeError` instead of returning. The same holds for
`pauseCampaign` and for a `runCampaign` after it. -/
theorem runCampaign_changes_nothing (cfg : Config) (m : CampaignManager) (id : String)
    (env : RunEnv) :
    (runCampaign cfg m id env).2 = m
    ∧ (pauseCampaign m id).2 = m
    ∧ (runCampaign cfg (pauseCampaign m id).2 id env).2 = m
    ∧ (runCampaign cfg m id env).1 = Except.error (noModel "findByPk") := by
  rw [pauseCampaign_rejects, runCampaign_rejects]
  exact ⟨rfl, rfl, rfl, rfl⟩

/-- C15 (amended): `createCampaign` followed by a scheduled run enqueues no
job, for every target list. `createCampaign` rejects with a `TypeError` and
leaves the manager as it was (no campaign persisted, no trigger armed); the
scheduled run rejects at the first statement of `runCampaign` and leaves the
worker manager, its scrape queue included, as it was; and `executeScraping`,
the step a run would reach, reports zero processed, successful and failed
profiles for every target list. -/
theorem campaign_run_enqueues_nothing (cfg : Config) (accepts : String → Bool)
    (wm : WorkerManager) (data : CampaignData) (uuid id : String) (env : RunEnv)
    (targetList : List String) (account : Account) :
    (createCampaign accepts wm.campaignManager data uuid).1 = Except.error (noModel "create")
    ∧ (createCampaign accepts wm.campaignManager data uuid).2 = wm.campaignManager
    ∧ (scheduledRun cfg wm id env).1 = Except.error (noModel "findByPk")
    ∧ (scheduledRun cfg wm id env).2 = wm
    ∧ (scheduledRun cfg wm id env).2.scrapeQueue = wm.scrapeQueue
    ∧ (executeScraping wm.campaignManager targetList account true).1
        = Except.ok { processed := 0, successful := 0, failed := 0 } := by
  have hrun : (scheduledRun cfg wm id env).2 = wm := by
    simp [scheduledRun, runCampaign_rejects]
  refine ⟨by rw [createCampaign_rejects], by rw [createCampaign_rejects], ?_, hrun,
    by rw [hrun], ?_⟩
  · simp [scheduledRun, runCampaign_rejects]
  · simp [executeScraping]

/-- C15 as stated fails: with a list of two targets, `createCampaign` rejects
and persists nothing, the scheduled run for the identifier rejects too, and the
scrape queue is still empty, where the claim expects two jobs. -/
theorem createCampaign_then_run_enqueues_nothing :
    twoTargets.targetList.map List.length = some 2
    ∧ (createCampaign anyCron idlePool.campaignManager twoTargets "c-1").1.toOption = none
    ∧ (createCampaign anyCron idlePool.campaignManager twoTargets "c-1").2.campaigns = []
    ∧ (scheduledRun config idlePool "c-1" (calmRun 0)).1.toOption = none
    ∧ (scheduledRun config idlePool "c-1" (calmRun 0)).2.scrapeQueue = [] := by
  decide

/-- C16, the code at the failing input: the database holds the active campaign
`c-1` and its active account; `runCampaign` raises the `TypeError` of
`this.db.Campaign.findByPk` at its first statement, before the `try` block; the
error is not caught, it leaves `runCampaign`, and no `campaign.error`
notification (no notification at all) is sent. -/
theorem runCampaign_error_escapes :
    withSpring.campaigns.map (fun c => (c.id, c.status)) = [("c-1", "active")]
    ∧ withSpring.accounts.map (fun a => (a.id, a.status)) = [("acc-1", "active")]
    ∧ (runCampaign config withSpring "c-1" (calmRun 0)).1
        = Except.error "TypeError: Cannot read properties of undefined (reading 'findByPk')"
    ∧ (runCampaign config withSpring "c-1" (calmRun 0)).2.webhooks = []
    ∧ (runCampaign config withSpring "c-1" (calmRun 0)).2.posts = [] := by
  refine ⟨by decide, by decide, rfl, ?_, ?_⟩ <;> decide

/-- C17 (amended): no operation changes the status of a campaign, and none
sets `completed`: `runCampaign`, `createCampaign`, `pauseCampaign` and
`resumeCampaign` each reject at their first statement and leave every stored
campaign, its status included, as it was. -/
theorem operations_keep_status (cfg : Config) (accepts : String → Bool) (m : CampaignManager)
    (id uuid : String) (env : RunEnv) (data : CampaignData) :
    (runCampaign cfg m id env).2.campaigns = m.campaigns
    ∧ (createCampaign accepts m data uuid).2.campaigns = m.campaigns
    ∧ (pauseCampaign m id).2.campaigns = m.campaigns
    ∧ (resumeCampaign accepts m id).2.campaigns = m.campaigns
    ∧ (runCampaign cfg m id env).2.campaigns.map (fun c => c.status)
        = m.campaigns.map (fun c => c.status) := by
  rw [runCampaign_rejects, createCampaign_rejects, pauseCampaign_rejects,
    resumeCampaign_rejects]
  exact ⟨rfl, rfl, rfl, rfl, rfl⟩

/-- C17 as stated fails: the active campaign `c-0` has an empty target list,
so none of its targets is pending; after `runCampaign`, and after a second
one, its status is still `active`, not `completed`. -/
theorem runCampaign_never_completes :
    withEmpty.campaigns.map (fun c => (c.id, c.status, c.targetList.length))
      = [("c-0", "active", 0)]
    ∧ (runCampaign config withEmpty "c-0" (calmRun 0)).2.campaigns.map
        (fun c => (c.id, c.status)) = [("c-0", "active")]
    ∧ (runCampaign config (runCampaign config withEmpty "c-0" (calmRun 0)).2 "c-0"
        (calmRun 60)).2.campaigns.map (fun c => (c.id, c.status)) = [("c-0", "active")] := by
  decide

/-- C18, the code at the failing input: the database holds the campaign `c-1`
with status `active`. The `initialize()` of the constructor rejects with the
`TypeError` of `this.db.Campaign.findAll` and arms no trigger; and after every
sequence of `createCampaign`, `pauseCampaign` and `resumeCampaign` calls the
manager is as it was: the campaign is still `active` and has no armed schedule
trigger. -/
theorem active_campaign_without_trigger (ops : List CampaignOp) :
    (initializeManager anyCron withSpring).1
      = Except.error "TypeError: Cannot read properties of undefined (reading 'findAll')"
    ∧ (initializeManager anyCron withSpring).2.armed = []
    ∧ (applyOps anyCron withSpring ops).campaigns.map (fun c => (c.id, c.status))
        = [("c-1", "active")]
    ∧ (applyOps anyCron withSpring ops).armed = []
    ∧ (applyOps anyCron withSpring ops).activeJobs = []
    ∧ (resumeCampaign anyCron withSpring "c-1").2.armed = [] := by
  rw [applyOps_eq]
  refine ⟨rfl, ?_, ?_, ?_, ?_, ?_⟩ <;> decide

end Campaigns

/-! ## The worker pool -/

section WorkerPool

open WorkerManager

/-- C19, the code at the failing input: with the configuration of `config.js`,
which has no `MAX_CONCURRENT_WORKERS`, `initializeMaster` on a machine with two
CPUs starts two workers under the default cap of 4; with two workers counted
and five jobs waiting (more than twice the worker count, and the count below
the cap) `autoScaleWorkers` forks no worker. -/
theorem autoScaleWorkers_never_scales_up_unconfigured :
    (initializeMaster config {} 2).1 = 2 ∧
    twoWorkers.cluster.workers = [1, 2] ∧
    5 > twoWorkers.metrics.activeWorkers * 2 ∧
    twoWorkers.metrics.activeWorkers < orFour config.MAX_CONCURRENT_WORKERS ∧
    (autoScaleWorkers config twoWorkers 5).toOption.map
        (fun r => (r.forked, r.killed, r.manager.cluster.workers))
      = some (false, none, [1, 2]) := by
  decide

/-- C20, the code at the failing input: with three workers and no job waiting
`autoScaleWorkers` sends the kill signal to worker 1; when that worker exits,
the `exit` handler of `initializeMaster` forks worker 4, and the pool has three
workers again. -/
theorem autoScaleWorkers_kill_is_undone :
    (autoScaleWorkers config threeWorkers 0).toOption.map
        (fun r => (r.forked, r.killed, r.manager.cluster.workers))
      = some (false, some 1, [1, 2, 3]) ∧
    (threeWorkers.cluster.onExit 1).workers = [2, 3, 4] ∧
    (threeWorkers.cluster.onExit 1).workers.length = threeWorkers.cluster.workers.length := by
  decide

end WorkerPool

/-! ## Batched writes -/

section Batches

open LinkedInScraper

theorem flushWrites_store (sh : SheetsManager) (remoteOk backupOk : Bool) :
    (sh.flushWrites remoteOk backupOk).2.remote ++ (sh.flushWrites remoteOk backupOk).2.pendingWrites
      = sh.remote ++ sh.pendingWrites := by
  unfold SheetsManager.flushWrites
  by_cases h0 : sh.pendingWrites.length = 0
  · simp [h0]
  · cases remoteOk <;> cases backupOk <;> simp [h0]

theorem appendProfile_store_ok (sh : SheetsManager) (profile : Profile) (now : String)
    (remoteOk backupOk : Bool) (row : List String) (h : formatProfile profile now = Except.ok row) :
    (sh.appendProfile profile now remoteOk backupOk).2.remote
        ++ (sh.appendProfile profile now remoteOk backupOk).2.pendingWrites
      = sh.remote ++ sh.pendingWrites ++ [row] := by
  unfold SheetsManager.appendProfile
  simp only [h]
  split
  · rw [flushWrites_store]; simp
  · simp

theorem appendProfile_store_error (sh : SheetsManager) (profile : Profile) (now : String)
    (remoteOk backupOk : Bool) (e : String) (h : formatProfile profile now = Except.error e) :
    (sh.appendProfile profile now remoteOk backupOk).2 = sh := by
  unfold SheetsManager.appendProfile
  simp only [h]

theorem applySheetOps_store (ops : List SheetOp) : ∀ sh : SheetsManager,
    (applySheetOps sh ops).remote ++ (applySheetOps sh ops).pendingWrites
      = sh.remote ++ sh.pendingWrites ++ rowsOf ops := by
  induction ops with
  | nil => intro sh; simp [applySheetOps, rowsOf]
  | cons op ops ih =>
    intro sh
    have hstep : applySheetOps sh (op :: ops) = applySheetOps (applySheetOp sh op) ops := by
      simp [applySheetOps]
    rw [hstep, ih]
    cases op with
    | append profile now remoteOk backupOk =>
      rcases hf : formatProfile profile now with e | row
      · simp [applySheetOp, rowsOf, hf, appendProfile_store_error sh profile now remoteOk backupOk e hf]
      · simp only [applySheetOp, rowsOf, hf]
        rw [appendProfile_store_ok sh profile now remoteOk backupOk row hf]
        simp
    | flush remoteOk backupOk =>
      simp only [applySheetOp, rowsOf]
      rw [flushWrites_store]

/-- C21: for every client `sh`, every sequence `ops` of `appendProfile` and
`flushWrites` calls and every pattern of remote and backup answers, the remote
sheet followed by `pendingWrites` is, after the calls, what it was before
followed by the rows the `appendProfile` calls formatted, in call order; so
each such row is in the remote sheet or in `pendingWrites`. A flush whose
remote write succeeds appends the pending rows in order to the remote sheet and
empties `pendingWrites`; a flush whose remote write fails leaves
`pendingWrites` and the remote sheet unchanged and, when rows are pending and
the backup write succeeds, writes the pending rows in order to one new backup
file. -/
theorem batched_writes_lose_no_row (sh : SheetsManager) (ops : List SheetOp) (b : Bool) :
    ((applySheetOps sh ops).remote ++ (applySheetOps sh ops).pendingWrites
        = sh.remote ++ sh.pendingWrites ++ rowsOf ops)
    ∧ (∀ row ∈ rowsOf ops,
        row ∈ (applySheetOps sh ops).remote ∨ row ∈ (applySheetOps sh ops).pendingWrites)
    ∧ (sh.flushWrites true b).2.remote = sh.remote ++ sh.pendingWrites
    ∧ (sh.flushWrites true b).2.pendingWrites = []
    ∧ (sh.flushWrites false b).2.pendingWrites = sh.pendingWrites
    ∧ (sh.flushWrites false b).2.remote = sh.remote
    ∧ (sh.flushWrites false true).2.backups
        = (if sh.pendingWrites = [] then sh.backups else sh.backups ++ [sh.pendingWrites]) := by
  refine ⟨applySheetOps_store ops sh, ?_, ?_, ?_, ?_, ?_, ?_⟩
  · intro row hrow
    have h : row ∈ (applySheetOps sh ops).remote ++ (applySheetOps sh ops).pendingWrites := by
      rw [applySheetOps_store]; simp [hrow]
    simpa using h
  all_goals
    unfold SheetsManager.flushWrites
    by_cases h0 : sh.pendingWrites = []
    · simp [h0]
    · cases b <;> simp [h0]

theorem flushWrites_remote_failure (sh : SheetsManager) (backupOk : Bool)
    (h : sh.pendingWrites ≠ []) :
    (sh.flushWrites false backupOk).1
        = Except.error (if backupOk then "remote write failed" else "backup failed") ∧
      (sh.flushWrites false backupOk).2.pendingWrites = sh.pendingWrites ∧
      (sh.flushWrites false backupOk).2.remote = sh.remote ∧
      (sh.flushWrites false backupOk).2.backups
        = (if backupOk then sh.backups ++ [sh.pendingWrites] else sh.backups) := by
  unfold SheetsManager.flushWrites
  cases backupOk <;> simp [h]

theorem appendProfile_full (sh : SheetsManager) (profile : Profile) (now : String)
    (remoteOk backupOk : Bool) (row : List String)
    (hrow : formatProfile profile now = Except.ok row)
    (hfull : sh.batchSize ≤ sh.pendingWrites.length + 1) :
    sh.appendProfile profile now remoteOk backupOk
      = SheetsManager.flushWrites { sh with pendingWrites := sh.pendingWrites ++ [row] }
          remoteOk backupOk := by
  unfold SheetsManager.appendProfile
  simp [hrow, hfull]

/-- C22 (amended): a persistence failure is raised after the backup. When rows
are pending, the remote write fails and the backup write succeeds,
`flushWrites` raises the error of the remote write to its caller, after it has
written the pending rows, in order, to one new backup file, and it leaves
`pendingWrites` and the remote sheet as they were. An `appendProfile` whose row
fills the batch triggers that flush and raises the same error to its caller;
its row is in the backup file and still in `pendingWrites`. -/
theorem flush_failure_is_raised (sh0 sh : SheetsManager) (profile : Profile) (now : String)
    (row : List String)
    (hpending : sh0.pendingWrites ≠ [])
    (hrow : formatProfile profile now = Except.ok row)
    (hfull : sh.batchSize ≤ sh.pendingWrites.length + 1) :
    (sh0.flushWrites false true).1 = Except.error "remote write failed"
    ∧ (sh0.flushWrites false true).2.backups = sh0.backups ++ [sh0.pendingWrites]
    ∧ (sh0.flushWrites false true).2.pendingWrites = sh0.pendingWrites
    ∧ (sh0.flushWrites false true).2.remote = sh0.remote
    ∧ (sh.appendProfile profile now false true).1 = Except.error "remote write failed"
    ∧ (sh.appendProfile profile now false true).2.backups
        = sh.backups ++ [sh.pendingWrites ++ [row]]
    ∧ (sh.appendProfile profile now false true).2.pendingWrites = sh.pendingWrites ++ [row]
    ∧ (sh.appendProfile profile now false true).2.remote = sh.remote := by
  have h0 := flushWrites_remote_failure sh0 true hpending
  have hne : (sh.pendingWrites ++ [row]) ≠ [] := by simp
  have hf := flushWrites_remote_failure
    { sh with pendingWrites := sh.pendingWrites ++ [row] } true hne
  have ha := appendProfile_full sh profile now false true row hrow hfull
  simp only [if_true] at h0 hf
  refine ⟨h0.1, h0.2.2.2, h0.2.1, h0.2.2.1, ?_, ?_, ?_, ?_⟩
  · rw [ha]; exact hf.1
  · rw [ha]; exact hf.2.2.2
  · rw [ha]; exact hf.2.1
  · rw [ha]; exact hf.2.2.1

/-- C22 (amended), applied to the sheets manager with 99 pending rows and the
row of the profile of `Ann`. -/
theorem flush_failure_is_raised_witness :
    (fullBatch.flushWrites false true).1 = Except.error "remote write failed"
    ∧ (fullBatch.appendProfile (person "Ann") "2024-01-01T00:00:00.000Z" false true).1
        = Except.error "remote write failed" :=
  have h := flush_failure_is_raised fullBatch fullBatch (person "Ann")
    "2024-01-01T00:00:00.000Z"
    ["Ann", "Engineer", "Oslo", "", "", "", "", "", "", "", "", "2024-01-01T00:00:00.000Z"]
    (by decide) rfl (by decide)
  ⟨h.1, h.2.2.2.2.1⟩

set_option maxRecDepth 8000 in
/-- C22 as stated fails: with 99 rows pending, the `appendProfile` of one more
row triggers a flush whose remote write fails and whose backup write succeeds;
the backup file is written with all 100 rows, and still the call raises an
error to its caller instead of completing. -/
theorem appendProfile_raises_after_backup :
    ((fullBatch.appendProfile (person "Ann") "2024-01-01T00:00:00.000Z"
        false true).1.toOption = none)
    ∧ ((fullBatch.appendProfile (person "Ann") "2024-01-01T00:00:00.000Z"
        false true).2.backups.map List.length = [100])
    ∧ ((fullBatch.appendProfile (person "Ann") "2024-01-01T00:00:00.000Z"
        false true).2.pendingWrites.length = 100)
    ∧ ((fullBatch.appendProfile (person "Ann") "2024-01-01T00:00:00.000Z"
        false true).2.flushWrites false true).1.toOption = none := by
  decide

end Batches

/-! ## Webhook delivery -/

section Webhooks

open CampaignManager

/-- C27: for every event, payload and answer of the HTTP post (success or any
error), `sendWebhook` returns normally; the manager afterwards is the one of
`sendWebhook` without regard to the answer; the call adds exactly one post,
holding the event name, the timestamp and the data, when a webhook URL is
configured, and none otherwise, so at most one post per call. -/
theorem sendWebhook_never_fatal (cfg : Config) (m : CampaignManager) (event campaignId : String)
    (data : List (String × String)) (now : Nat) (post : Except String Unit) :
    (sendWebhookOutcome cfg m event campaignId data now post).1 = Except.ok ()
    ∧ (sendWebhookOutcome cfg m event campaignId data now post).2
        = sendWebhook cfg m event campaignId data now
    ∧ (sendWebhookOutcome cfg m event campaignId data now post).2.posts
        = (if truthy cfg.WEBHOOK_URL then
            m.posts ++ [{ event := event, timestamp := now, data := data }]
           else m.posts)
    ∧ (sendWebhookOutcome cfg m event campaignId data now post).2.posts.length
        ≤ m.posts.length + 1 := by
  unfold sendWebhookOutcome sendWebhook
  cases post <;> by_cases h : truthy cfg.WEBHOOK_URL = true <;> simp [h]

end Webhooks

/-! ## Worker metrics -/

section Metrics

open WorkerMetrics

theorem onCompleted_total (m : WorkerMetrics) (t : ℚ) :
    (m.onCompleted t).completedJobs = m.completedJobs + 1 ∧
      (m.onCompleted t).avgProcessingTime * ((m.onCompleted t).completedJobs : ℚ)
        = m.avgProcessingTime * (m.completedJobs : ℚ) + t := by
  have hne : ((m.completedJobs : ℚ) + 1) ≠ 0 := by positivity
  refine ⟨rfl, ?_⟩
  simp only [onCompleted]
  push_cast
  field_simp

theorem afterCompleted_total (ts : List ℚ) : ∀ m : WorkerMetrics,
    (m.afterCompleted ts).completedJobs = m.completedJobs + ts.length ∧
      (m.afterCompleted ts).avgProcessingTime * ((m.afterCompleted ts).completedJobs : ℚ)
        = m.avgProcessingTime * (m.completedJobs : ℚ) + ts.sum := by
  induction ts with
  | nil => intro m; simp [afterCompleted]
  | cons t ts ih =>
    intro m
    have hstep : m.afterCompleted (t :: ts) = (m.onCompleted t).afterCompleted ts := by
      simp [afterCompleted]
    have h1 := onCompleted_total m t
    have h2 := ih (m.onCompleted t)
    rw [hstep]
    refine ⟨?_, ?_⟩
    · rw [h2.1, h1.1]; simp; omega
    · rw [h2.2, h1.2]; simp; ring

theorem afterCompleted_mean (ts : List ℚ) (h : ts ≠ []) :
    (afterCompleted {} ts).completedJobs = ts.length ∧
      (afterCompleted {} ts).avgProcessingTime = ts.sum / (ts.length : ℚ) := by
  have ht := afterCompleted_total ts {}
  have hc : (afterCompleted {} ts).completedJobs = ts.length := by
    rw [ht.1]; simp
  have hlen : (ts.length : ℚ) ≠ 0 := by
    have : ts.length ≠ 0 := by simpa using h
    exact_mod_cast this
  refine ⟨hc, ?_⟩
  have h2 := ht.2
  rw [hc] at h2
  rw [eq_div_iff hlen, h2]
  simp

/-- C30: starting from the metrics of a new `WorkerManager`, after the
`completed` events with processing times `ts` (at least one),
`completedJobs` is the number of events and `avgProcessingTime` is their sum
divided by their number, in exact rational arithmetic; the same events in any
other order `ts2` give the same two values. -/
theorem avgProcessingTime_is_mean (ts ts2 : List ℚ) (h : ts ≠ []) (hp : ts.Perm ts2) :
    (afterCompleted {} ts).completedJobs = ts.length
    ∧ (afterCompleted {} ts).avgProcessingTime = ts.sum / (ts.length : ℚ)
    ∧ (afterCompleted {} ts2).completedJobs = (afterCompleted {} ts).completedJobs
    ∧ (afterCompleted {} ts2).avgProcessingTime = (afterCompleted {} ts).avgProcessingTime := by
  have h2 : ts2 ≠ [] := by
    intro h0
    subst h0
    exact h (List.Perm.eq_nil hp)
  have a := afterCompleted_mean ts h
  have b := afterCompleted_mean ts2 h2
  refine ⟨a.1, a.2, ?_, ?_⟩
  · rw [a.1, b.1, hp.length_eq]
  · rw [a.2, b.2, hp.length_eq, hp.sum_eq]

/-- C30, applied to the processing times 2 and 4 in both orders: two completed
jobs, average 3. -/
theorem avgProcessingTime_is_mean_witness :
    (afterCompleted {} [2, 4]).completedJobs = 2
    ∧ (afterCompleted {} [2, 4]).avgProcessingTime = 3
    ∧ (afterCompleted {} [4, 2]).avgProcessingTime = 3 := by
  have h := avgProcessingTime_is_mean [2, 4] [4, 2] (by simp) (List.Perm.swap 4 2 [])
  refine ⟨by simpa using h.1, ?_, ?_⟩
  · rw [h.2.1]; norm_num
  · rw [h.2.2.2, h.2.1]; norm_num

end Metrics

/-! ## Profile validation -/

section Validation

/-- C28, the code at the failing input: the profile of `Ann` has non-blank
name, title and location and a list as `experience` (any list, the empty one
included), the way `extractProfile` builds it; whatever the text libraries
answer, `validateProfile` throws the `TypeError` of `text.match`. -/
theorem validateProfile_throws_on_scraped_profile (tools : TextTools) (experience : List String) :
    validateProfile tools { person "Ann" with experience := some (JsText.arr experience) }
      = Except.error "TypeError: text.match is not a function" := by
  have h1 : nonBlank (some "Ann") = true := by decide
  have h2 : nonBlank (some "Engineer") = true := by decide
  have h3 : nonBlank (some "Oslo") = true := by decide
  simp [validateProfile, person, h1, h2, h3, extractContactInfo, textOrEmpty]

/-- C29, the code at the failing input: the profile `mailInAbout` has the empty
text as email and the address `ann@x.io` in its `about` text;
`validateProfile` accepts it and returns `ann@x.io` as the email and again as
the only entry of `additionalEmails`. -/
theorem validateProfile_lists_primary_email_again :
    (validateProfile mailTools mailInAbout).toOption.map
        (fun p => (p.email, p.additionalEmails))
      = some (some "ann@x.io", some ["ann@x.io"]) := by
  decide

end Validation

/-! ## The target sheet -/

section TargetSheet

theorem foundHeader_cons (lower : String → String) (names : List String) (x : String)
    (xs : List String) :
    foundHeader lower (x :: xs) names
      = if accepted lower names x = true then some x else foundHeader lower xs names := by
  unfold foundHeader accepted
  cases h : names.contains (jsTrim (lower x)) <;> simp only [List.find?, h] <;> rfl

theorem foundHeader_accepted (lower : String → String) (names headers : List String)
    (k : String) (h : foundHeader lower headers names = some k) :
    accepted lower names k = true := by
  induction headers with
  | nil => cases h
  | cons x xs ih =>
    rw [foundHeader_cons] at h
    by_cases hx : accepted lower names x = true
    · rw [if_pos hx] at h
      cases h
      exact hx
    · rw [if_neg hx] at h
      exact ih h

theorem columnOf_none (lower : String → String) (names headers : List String)
    (h : foundHeader lower headers names = none) : columnOf lower names headers = none := by
  induction headers with
  | nil => rfl
  | cons x xs ih =>
    rw [foundHeader_cons] at h
    by_cases hx : accepted lower names x = true
    · rw [if_pos hx] at h
      cases h
    · rw [if_neg hx] at h
      simp only [columnOf, hx, ih h]
      rfl

theorem columnOf_some (lower : String → String) (names headers : List String) (k : String)
    (h : foundHeader lower headers names = some k) :
    columnOf lower names headers = some (headers.indexOf k) ∧
      headers.indexOf k < headers.length := by
  induction headers with
  | nil => cases h
  | cons x xs ih =>
    rw [foundHeader_cons] at h
    by_cases hx : accepted lower names x = true
    · rw [if_pos hx] at h
      cases h
      simp [columnOf, hx]
    · rw [if_neg hx] at h
      have hk := foundHeader_accepted lower names xs k h
      have hne : x ≠ k := by
        intro he
        rw [he] at hx
        exact hx hk
      obtain ⟨h1, h2⟩ := ih h
      have hidx : (x :: xs).indexOf k = xs.indexOf k + 1 := by
        simp [List.indexOf_cons, hne]
      rw [hidx]
      refine ⟨?_, by simpa using h2⟩
      simp only [columnOf, hx, h1]
      rfl

theorem get_eq_cellAt (lower : String → String) (names : List String) (sheet : Sheet)
    (row : SheetRow) :
    row.get sheet.headerValues (foundHeader lower sheet.headerValues names)
      = cellAt row (columnOf lower names sheet.headerValues) := by
  cases h : foundHeader lower sheet.headerValues names with
  | none => rw [columnOf_none lower names _ h]; rfl
  | some k =>
    obtain ⟨h1, h2⟩ := columnOf_some lower names _ k h
    rw [h1]
    simp [SheetRow.get, cellAt, h2]

theorem accepted_any (lower : String → String) (names headers : List String) :
    headers.any (accepted lower names) = (foundHeader lower headers names).isSome := by
  induction headers with
  | nil => rfl
  | cons x xs ih =>
    rw [foundHeader_cons, List.any_cons, ih]
    by_cases hx : accepted lower names x = true
    · rw [if_pos hx, hx]
      rfl
    · rw [if_neg hx]
      have hx2 : accepted lower names x = false := by simpa using hx
      rw [hx2]
      rfl

theorem foundHeader_ne_empty (lower : String → String) (hempty : lower "" = "")
    (headers : List String) (h : String)
    (hf : foundHeader lower headers columnVariations.profileUrl = some h) : h ≠ "" := by
  intro h0
  subst h0
  have hk := foundHeader_accepted lower columnVariations.profileUrl headers "" hf
  unfold accepted at hk
  rw [hempty] at hk
  revert hk
  decide

theorem rowProfile_final (lower : String → String) (sheet : Sheet) (row : SheetRow) :
    { rowProfile sheet.headerValues (headerMapping lower sheet.headerValues) row with
        status := strOr
          (rowProfile sheet.headerValues (headerMapping lower sheet.headerValues) row).status
          "pending" }
      = targetOf lower sheet row := by
  have hu := get_eq_cellAt lower columnVariations.profileUrl sheet row
  have hs := get_eq_cellAt lower columnVariations.status sheet row
  have hp := get_eq_cellAt lower columnVariations.phone_number sheet row
  simp only [rowProfile, targetOf, headerMapping, hu, hs, hp]
  congr 1
  · change _ = (match cellAt row (columnOf lower columnVariations.status sheet.headerValues) with
      | none => "pending"
      | some s => if s = "" then "pending" else s)
    cases cellAt row (columnOf lower columnVariations.status sheet.headerValues) with
    | none => simp [optOr, strOr]
    | some s => by_cases hs : s = "" <;> simp [optOr, strOr, hs]
  · change _ = (match cellAt row (columnOf lower columnVariations.phone_number
        sheet.headerValues) with
      | none => ""
      | some s => s)
    cases cellAt row (columnOf lower columnVariations.phone_number sheet.headerValues) with
    | none => simp [optOr]
    | some s => by_cases hs : s = "" <;> simp [optOr, hs]

theorem status_test (lower : String → String) (hpending : lower "pending" = "pending")
    (c : Option String) :
    (decide (jsTrim (lower (strOr (optOr c "pending") "")) = "") ||
        decide (jsTrim (lower (strOr (optOr c "pending") "")) = "pending"))
      = (match c with
         | none => true
         | some s => decide (s = "") || decide (jsTrim (lower s) = "") ||
             decide (jsTrim (lower s) = "pending")) := by
  have hp : jsTrim (lower "pending") = "pending" := by rw [hpending]; decide
  cases c with
  | none => simp [optOr, strOr, hp]
  | some s =>
    by_cases hs : s = ""
    · subst hs
      simp [optOr, strOr, hp]
    · simp [optOr, strOr, hs]

theorem validProfile_rowProfile (lower : String → String)
    (hpending : lower "pending" = "pending") (sheet : Sheet) (row : SheetRow) :
    (validProfile lower (rowProfile sheet.headerValues (headerMapping lower sheet.headerValues)
        row) && !(decide (row.rawData.length = 0)))
      = isPendingTarget lower sheet row := by
  have hu := get_eq_cellAt lower columnVariations.profileUrl sheet row
  have hs := get_eq_cellAt lower columnVariations.status sheet row
  simp only [validProfile, rowProfile, isPendingTarget, headerMapping, truthy, hu, hs]
  rw [status_test lower hpending]
  change _ = (decide (row.rawData ≠ []) &&
    nonEmpty (cellAt row (columnOf lower columnVariations.profileUrl sheet.headerValues)) &&
    (match cellAt row (columnOf lower columnVariations.status sheet.headerValues) with
     | none => true
     | some s => decide (s = "") || decide (jsTrim (lower s) = "") ||
         decide (jsTrim (lower s) = "pending")))
  cases nonEmpty (cellAt row (columnOf lower columnVariations.profileUrl sheet.headerValues)) <;>
    by_cases hr : row.rawData = [] <;> simp [hr]

theorem getProfileLinks_chain (lower : String → String)
    (hpending : lower "pending" = "pending") (sheet : Sheet) :
    (((sheet.rows.filter (fun row => !(row.rawData.length = 0))).map
        (rowProfile sheet.headerValues (headerMapping lower sheet.headerValues))).filter
        (validProfile lower)).map
        (fun profile => { profile with status := strOr profile.status "pending" })
      = pendingTargetsRef lower sheet := by
  unfold pendingTargetsRef
  rw [List.filter_map, List.map_map, List.filter_filter]
  have hfilter : sheet.rows.filter
      (fun a => (validProfile lower ∘
          rowProfile sheet.headerValues (headerMapping lower sheet.headerValues)) a
        && !(decide (a.rawData.length = 0)))
      = sheet.rows.filter (isPendingTarget lower sheet) := by
    apply List.filter_congr
    intro row _
    exact validProfile_rowProfile lower hpending sheet row
  rw [hfilter]
  apply List.map_congr_left
  intro row _
  exact rowProfile_final lower sheet row

theorem pendingTargetsRef_fields (lower : String → String) (sheet : Sheet) (p : TargetProfile)
    (hp : p ∈ pendingTargetsRef lower sheet) : nonEmpty p.profileUrl = true ∧ p.status ≠ "" := by
  unfold pendingTargetsRef at hp
  rw [List.mem_map] at hp
  obtain ⟨row, hrow, rfl⟩ := hp
  rw [List.mem_filter] at hrow
  have hpend := hrow.2
  simp only [isPendingTarget, Bool.and_eq_true] at hpend
  refine ⟨hpend.1.2, ?_⟩
  simp only [targetOf]
  cases cellAt row (columnOf lower statusNames sheet.headerValues) with
  | none => simp
  | some s => by_cases hs : s = "" <;> simp [hs]

/-- C26: with `lower` the lower-casing of the engine (which leaves the empty
text and the text `pending` as they are), `getProfileLinks` succeeds exactly
when some header, lower-cased and trimmed, is an accepted name of the
profile-URL column, and fails with an error otherwise. When it succeeds its
result is the reference result `pendingTargetsRef`: the rows that are
non-empty, have a non-empty cell in the first accepted URL column and a status
that is missing, blank or `pending` after lower-casing and trimming, in row
order (a sublist of the rows), each with its URL cell as `profileUrl`; every
returned profile has a non-empty `profileUrl` and a non-empty `status`. -/
theorem getProfileLinks_returns_pending_targets (lower : String → String)
    (hempty : lower "" = "") (hpending : lower "pending" = "pending") (sheet : Sheet) :
    getProfileLinksWith lower sheet
        = (if sheet.headerValues.any (accepted lower urlNames) then
            Except.ok (pendingTargetsRef lower sheet)
           else if sheet.headerValues.length = 0 then Except.error "No headers found in sheet"
           else Except.error "Could not find column for Profile URL")
    ∧ (pendingTargetsRef lower sheet).map (fun p => p.profileUrl)
        = ((sheet.rows.filter (isPendingTarget lower sheet)).map
            (fun row => cellAt row (columnOf lower urlNames sheet.headerValues)))
    ∧ (sheet.rows.filter (isPendingTarget lower sheet)).Sublist sheet.rows
    ∧ (∀ p ∈ pendingTargetsRef lower sheet, nonEmpty p.profileUrl = true ∧ p.status ≠ "") := by
  refine ⟨?_, ?_, List.filter_sublist _, pendingTargetsRef_fields lower sheet⟩
  · have hany := accepted_any lower columnVariations.profileUrl sheet.headerValues
    change sheet.headerValues.any (accepted lower urlNames) = _ at hany
    rw [hany]
    cases hf : foundHeader lower sheet.headerValues columnVariations.profileUrl with
    | none =>
      by_cases h0 : sheet.headerValues.length = 0
      · simp [getProfileLinksWith, h0]
      · simp [getProfileLinksWith, h0, headerMapping, hf, truthy, nonEmpty]
    | some h =>
      have hne := foundHeader_ne_empty lower hempty sheet.headerValues h hf
      have h0 : ¬ sheet.headerValues.length = 0 := by
        intro h0
        have : sheet.headerValues = [] := List.length_eq_zero.mp h0
        rw [this] at hf
        simp [foundHeader] at hf
      have hchain := getProfileLinks_chain lower hpending sheet
      by_cases hr : sheet.rows.length = 0
      · have hnil : sheet.rows = [] := List.length_eq_zero.mp hr
        simp [getProfileLinksWith, h0, headerMapping, hf, truthy, nonEmpty, hne, hr,
          pendingTargetsRef, hnil]
      · have ht : (!truthy (headerMapping lower sheet.headerValues).profileUrl) = false := by
          simp [headerMapping, hf, truthy, nonEmpty, hne]
        simp only [getProfileLinksWith, h0, hr, if_false, ht, Bool.false_eq_true, hchain,
          Option.isSome_some, if_true]
  · simp [pendingTargetsRef, targetOf, List.map_map, Function.comp_def]

/-- C26, applied to the lower-casing of ASCII letters and the sheet `targets`:
the header `Profile URL` is accepted, and the three pending rows are returned
in row order. -/
theorem getProfileLinks_returns_pending_targets_witness :
    toLowerCase "" = "" ∧ toLowerCase "pending" = "pending" ∧
    targets.headerValues.any (accepted toLowerCase urlNames) = true ∧
    pendingTargetsRef toLowerCase targets = [annTarget, boTarget, diTarget] ∧
    getProfileLinksWith toLowerCase targets = Except.ok [annTarget, boTarget, diTarget] := by
  have h := (getProfileLinks_returns_pending_targets toLowerCase (by decide) (by decide)
    targets).1
  have ha : targets.headerValues.any (accepted toLowerCase urlNames) = true := by decide
  have hr : pendingTargetsRef toLowerCase targets = [annTarget, boTarget, diTarget] := by
    decide
  rw [ha, hr] at h
  exact ⟨by decide, by decide, ha, hr, h⟩

theorem getProfileLinks_targets :
    (getProfileLinks targets).toOption = some [annTarget, boTarget, diTarget] := by
  decide

end TargetSheet

/-! ## The messaging campaign -/

section Messaging

open LinkedInMessenger

/-- C24, the code at the failing input: the sheet `targets` yields three
pending profiles; when `automatedMessageFlow` fails for the first of them, the
error leaves `runCampaign`: the run ends with the thrown error after the single
call of `automatedMessageFlow`, the failure counter is still 0, no status is
written for the first profile, and the second and third profile are never
attempted. -/
theorem runCampaign_aborts_on_first_failed_flow :
    (getProfileLinks targets).toOption = some [annTarget, boTarget, diTarget]
    ∧ (runCampaign flowFails 25 targets).1.toOption = none
    ∧ (runCampaign flowFails 25 targets).2
        = { successCount := 0, failureCount := 0, calls := [Call.automatedMessageFlow none] } := by
  decide

/-- C25, the code at the failing input: the profile objects of
`getProfileLinks` have no property `Profile URL`, so reading it gives
`undefined` for every profile. On the sheet `targets`, with every call
succeeding, `runCampaign` calls `automatedMessageFlow` with `undefined` for the
two profiles without phone number and `updateProfileStatus` with `undefined`
for all three; only `handlePhoneContact` passes the stored URL, for the
profile with a phone number. -/
theorem runCampaign_passes_undefined_url :
    (getProfileLinks targets).toOption = some [annTarget, boTarget, diTarget]
    ∧ (∀ p : TargetProfile, p.prop "Profile URL" = none)
    ∧ (runCampaign allWorks 25 targets).1.toOption = some ()
    ∧ (runCampaign allWorks 25 targets).2.calls
      = [Call.automatedMessageFlow none, Call.notifyMessageSent annTarget,
         Call.updateProfileStatus none "completed",
         Call.automatedMessageFlow none, Call.notifyMessageSent boTarget,
         Call.updateProfileStatus none "completed",
         Call.triggerPhoneContact diTarget,
         Call.updateProfileStatus (some "https://www.linkedin.com/in/di") "phone_contact_triggered",
         Call.updateProfileStatus none "completed"] := by
  refine ⟨by decide, ?_, by decide, by decide⟩
  intro p
  simp [TargetProfile.prop]

end Messaging

/-! ## The message endpoint -/

section Endpoint

open MessageServer

/-- C23, the code at the failing input: after request 1 arrived and its session
was created, `isMessaging` is set and one session exists. Request 2 arrives
then and is answered with status 429, but the `finally` block of its handler
clears `isMessaging` while the session of request 1 still exists. Request 3
therefore passes the test, and once its session is created the sessions of
requests 1 and 3 exist at the same time. -/
theorem message_sessions_overlap :
    (run (overlap.take 2)).isMessaging = true
    ∧ (run (overlap.take 2)).sessions = [1]
    ∧ (run (overlap.take 3)).responses = [(2, 429)]
    ∧ (run (overlap.take 3)).sessions = [1]
    ∧ (run (overlap.take 3)).isMessaging = false
    ∧ (run overlap).sessions = [1, 3]
    ∧ (run overlap).responses = [(2, 429)] := by
  decide

end Endpoint

end LinkedinAutomation
